import Mathlib

/-!
# CAM Target Layer front end interface (sys/cam/ctl/ctl_frontend.c)

A shallow embedding of the frontend / port registration code of
`ctl_frontend.c`, and theorems about it.

Memory is modelled explicitly.  A pointer to a `struct ctl_frontend` or to a
`struct ctl_port` is an address (`Nat`); the structures live in two heaps
(`World.frontends`, `World.ports`); `control_softc` is the single registry
record.  The STAILQ lists of the source are lists of addresses in list order.
NULL is `none`.  C `int` values are `Int` (the counters and port numbers of
this file stay far away from the 32-bit limits, nothing here depends on
wrap-around).

Code that `ctl_frontend.c` calls but does not define (the bit mask helpers of
ctl.c, the io pool of ctl.c, the STAILQ macros of sys/queue.h, the callbacks
supplied by the frontend drivers) is either modelled from the design text, and
marked so, or taken as a parameter.
-/

namespace Ctl

/-! ## Data model -/

/-- Constants of the CTL headers used by ctl_frontend.c.  Their values are not
part of this file, so they are parameters of the model. -/
structure ctl_consts where
  CTL_MAX_PORTS : Nat
  CTL_MAX_INIT_PER_PORT : Int
  CTL_PORT_STATUS_ONLINE : Nat

/-- The fields of `struct ctl_frontend` that ctl_frontend.c reads or writes.
`init` and `shutdown` are function pointers (code addresses, NULL is `none`);
`port_list` is the STAILQ of the frontend's ports, linked through
`fe_links`. -/
structure ctl_frontend where
  name : String
  init : Option Nat
  shutdown : Option Nat
  port_list : List Nat
deriving DecidableEq

/-- The fields of `struct ctl_port` that ctl_frontend.c reads or writes.
`options` is the STAILQ head of the option list: `none` is a head that was
never initialised (all zero), `some l` an initialised head holding `l`; in both
`none` and `some []` the field `stqh_first` is NULL. -/
structure ctl_port where
  frontend : Nat
  port_online : Nat
  port_offline : Nat
  onoff_arg : Nat
  targ_port : Int
  num_requested_ctl_io : Int
  max_initiators : Int
  wwnn : Nat
  wwpn : Nat
  status : Nat
  options : Option (List (String × String))
  ctl_pool_ref : Option Nat
deriving DecidableEq

/-- The fields of `struct ctl_softc` that ctl_frontend.c reads or writes.
The port mask and the port table are indexed by the C `int` that the code
uses as index. -/
structure ctl_softc where
  ctl_port_mask : Int → Bool
  num_frontends : Int
  num_ports : Int
  fe_list : List Nat
  port_list : List Nat
  ctl_ports : Int → Option Nat

/-- The memory the code works on. -/
structure World where
  control_softc : ctl_softc
  frontends : Nat → ctl_frontend
  ports : Nat → ctl_port

/-- What a call does to the outside, in program order: lock operations on
`ctl_lock` and calls into code that is not part of ctl_frontend.c. -/
inductive Event where
  | mtx_lock
  | mtx_unlock
  | fe_init (fn : Nat)
  | fe_shutdown (fn : Nat)
  | ctl_pool_create (num_ctl_io : Int)
  | ctl_pool_free (pool : Option Nat)
  | ctl_free_opts (port : Nat)
  | port_online (fn : Nat) (arg : Nat)
  | port_offline (fn : Nat) (arg : Nat)
deriving DecidableEq

/-- Outcome of one call: the returned `int`, the memory afterwards and the
events of the call. -/
structure Result where
  retval : Int
  world : World
  trace : List Event

/-- The code behind the function pointers stored in frontends and ports: what
calling the function at a code address does to memory.  `call0` is for the
`init` and `shutdown` routines, `call1` for `port_online` and `port_offline`,
which take `onoff_arg`. -/
structure Callbacks where
  call0 : Nat → World → World
  call1 : Nat → Nat → World → World

/-! ## Memory updates -/

/-- Store to a field of `control_softc`. -/
def World.upd_softc (w : World) (f : ctl_softc → ctl_softc) : World :=
  { w with control_softc := f w.control_softc }

/-- Store to a field of the port at address `p`. -/
def World.upd_port (w : World) (p : Nat) (f : ctl_port → ctl_port) : World :=
  { w with ports := Function.update w.ports p (f (w.ports p)) }

/-- Store to a field of the frontend at address `fe`. -/
def World.upd_frontend (w : World) (fe : Nat) (f : ctl_frontend → ctl_frontend) : World :=
  { w with frontends := Function.update w.frontends fe (f (w.frontends fe)) }

/-! ## Code used by ctl_frontend.c and defined elsewhere -/

/-- Scan of `ctl_ffz`: `k` indices are left to look at, the next one is `j`. -/
def ctl_ffz_scan (mask : Int → Bool) : Nat → Nat → Int
  | 0, _ => -1
  | k + 1, j => if mask (j : Int) = false then (j : Int) else ctl_ffz_scan mask k (j + 1)

/-- Modelled from the spec: `ctl_ffz` (ctl.c) is not under src/.  "find the
lowest-numbered clear bit in the bitmask (0..MAX_PORTS). If none is free,
fail": the result is the lowest index below `size` whose bit is clear, and
-1 when there is none. -/
def ctl_ffz (mask : Int → Bool) (size : Nat) : Int :=
  ctl_ffz_scan mask size 0

/-- Modelled from the spec: `ctl_set_mask` (ctl.c) is not under src/.  "Set
that bit".  The caller tests the result against -1; the model gives -1, and
leaves the mask alone, when the bit is set already, and 0 otherwise. -/
def ctl_set_mask (mask : Int → Bool) (bit : Int) : Int × (Int → Bool) :=
  if mask bit = true then (-1, mask) else (0, Function.update mask bit true)

/-- Modelled from the spec: `ctl_clear_mask` (ctl.c) is not under src/.
"clear the bit": the model gives -1, and leaves the mask alone, when the bit
is clear already, and 0 otherwise.  ctl_frontend.c ignores the result. -/
def ctl_clear_mask (mask : Int → Bool) (bit : Int) : Int × (Int → Bool) :=
  if mask bit = false then (-1, mask) else (0, Function.update mask bit false)

/-- Modelled from the spec: `STAILQ_INSERT_TAIL` (sys/queue.h) is not under
src/.  "append the port to the ... list". -/
def STAILQ_INSERT_TAIL (head : List Nat) (elm : Nat) : List Nat :=
  head ++ [elm]

/-- Modelled from the spec: `STAILQ_REMOVE` (sys/queue.h) is not under src/.
"remove the port from the ... list": the entry is taken out and the others
keep their order.  Removal of an entry that is not on the list is not
defined (`none`). -/
def STAILQ_REMOVE (head : List Nat) (elm : Nat) : Option (List Nat) :=
  if elm ∈ head then some (head.erase elm) else none

/-- Modelled from the spec: `ctl_free_opts` (ctl.c) is not under src/.  "clear
the port's option list": an initialised list becomes empty. -/
def ctl_free_opts (opts : Option (List (String × String))) : Option (List (String × String)) :=
  opts.map (fun _ => [])

/-- The test `port->options.stqh_first == NULL`. -/
def stqh_first_is_null (opts : Option (List (String × String))) : Bool :=
  match opts with
  | none => true
  | some l => l.isEmpty

/-! ## ctl_frontend.c -/

/-- The function `ctl_frontend_register`.  `cb` gives the effect of the
frontend's `init` routine. -/
def ctl_frontend_register (cb : Callbacks) (w : World) (fe : Nat) : Result :=
  if (w.control_softc.fe_list.any
        (fun fe_tmp => (w.frontends fe_tmp).name == (w.frontends fe).name)) = true then
    { retval := -1, world := w, trace := [Event.mtx_lock, Event.mtx_unlock] }
  else
    let w1 := w.upd_frontend fe (fun f => { f with port_list := [] })
    let w2 : World :=
      match (w1.frontends fe).init with
      | some fn => cb.call0 fn w1
      | none => w1
    let ev : List Event :=
      match (w1.frontends fe).init with
      | some fn => [Event.fe_init fn]
      | none => []
    let w3 := w2.upd_softc (fun s => { s with num_frontends := s.num_frontends + 1 })
    let w4 := w3.upd_softc (fun s => { s with fe_list := STAILQ_INSERT_TAIL s.fe_list fe })
    { retval := 0, world := w4,
      trace := [Event.mtx_lock, Event.mtx_unlock] ++ ev ++ [Event.mtx_lock, Event.mtx_unlock] }

/-- The function `ctl_frontend_deregister`.  `cb` gives the effect of the
frontend's `shutdown` routine.  The result is `none` when the STAILQ_REMOVE
of the code is not defined. -/
def ctl_frontend_deregister (cb : Callbacks) (w : World) (fe : Nat) : Option Result :=
  if (w.frontends fe).port_list ≠ [] then
    some { retval := -1, world := w, trace := [] }
  else
    match STAILQ_REMOVE w.control_softc.fe_list fe with
    | none => none
    | some l =>
      let w1 := w.upd_softc (fun s => { s with fe_list := l })
      let w2 := w1.upd_softc (fun s => { s with num_frontends := s.num_frontends - 1 })
      match (w2.frontends fe).shutdown with
      | some fn =>
        some { retval := 0, world := cb.call0 fn w2,
               trace := [Event.mtx_lock, Event.mtx_unlock, Event.fe_shutdown fn] }
      | none =>
        some { retval := 0, world := w2, trace := [Event.mtx_lock, Event.mtx_unlock] }

/-- The function `ctl_frontend_find`: the address of the first frontend of
`fe_list` with the given name, NULL (`none`) when there is none. -/
def ctl_frontend_find (w : World) (frontend_name : String) : Option Nat :=
  w.control_softc.fe_list.find? (fun fe => (w.frontends fe).name == frontend_name)

/-- The function `ctl_port_register`.  `pool_create` stands for
`ctl_pool_create(control_softc, CTL_POOL_FETD, n, &pool)`: from the number of
io structures asked for it gives the returned `int` and the pool stored
through the last argument. -/
def ctl_port_register (c : ctl_consts) (pool_create : Int → Int × Nat)
    (w : World) (port : Nat) (master_shelf : Int) : Result :=
  let port_num := ctl_ffz w.control_softc.ctl_port_mask c.CTL_MAX_PORTS
  if port_num = -1 ∨ (ctl_set_mask w.control_softc.ctl_port_mask port_num).1 = -1 then
    { retval := 1,
      world := w.upd_port port (fun p => { p with targ_port := -1 }),
      trace := [Event.mtx_lock, Event.mtx_unlock] }
  else
    let w1 := w.upd_softc (fun s =>
      { s with ctl_port_mask := (ctl_set_mask s.ctl_port_mask port_num).2 })
    let w2 := w1.upd_softc (fun s => { s with num_ports := s.num_ports + 1 })
    let num_ctl_io := (w2.ports port).num_requested_ctl_io + 20
    let retval := (pool_create num_ctl_io).1
    let pool := (pool_create num_ctl_io).2
    if retval ≠ 0 then
      let w3 := w2.upd_port port (fun p => { p with targ_port := -1 })
      let w4 := w3.upd_softc (fun s =>
        { s with ctl_port_mask := (ctl_clear_mask s.ctl_port_mask port_num).2 })
      { retval := retval, world := w4,
        trace := [Event.mtx_lock, Event.mtx_unlock, Event.ctl_pool_create num_ctl_io,
                  Event.mtx_lock, Event.mtx_unlock] }
    else
      let w3 := w2.upd_port port (fun p => { p with ctl_pool_ref := some pool })
      let w4 :=
        if stqh_first_is_null (w3.ports port).options = true then
          w3.upd_port port (fun p => { p with options := some [] })
        else w3
      let w5 := w4.upd_port port (fun p =>
        { p with targ_port := port_num + (if master_shelf ≠ 0 then 0 else (c.CTL_MAX_PORTS : Int)) })
      let w6 := w5.upd_port port (fun p => { p with max_initiators := c.CTL_MAX_INIT_PER_PORT })
      let w7 := w6.upd_frontend (w6.ports port).frontend (fun f =>
        { f with port_list := STAILQ_INSERT_TAIL f.port_list port })
      let w8 := w7.upd_softc (fun s => { s with port_list := STAILQ_INSERT_TAIL s.port_list port })
      let w9 := w8.upd_softc (fun s =>
        { s with ctl_ports := Function.update s.ctl_ports port_num (some port) })
      { retval := retval, world := w9,
        trace := [Event.mtx_lock, Event.mtx_unlock, Event.ctl_pool_create num_ctl_io,
                  Event.mtx_lock, Event.mtx_unlock] }

/-- The function `ctl_port_deregister`.  The result is `none` when a
STAILQ_REMOVE of the code is not defined. -/
def ctl_port_deregister (c : ctl_consts) (w : World) (port : Nat) : Option Result :=
  let pool := (w.ports port).ctl_pool_ref
  if (w.ports port).targ_port = -1 then
    some { retval := 1, world := w, trace := [] }
  else
    match STAILQ_REMOVE w.control_softc.port_list port with
    | none => none
    | some l =>
      let w1 := w.upd_softc (fun s => { s with port_list := l })
      match STAILQ_REMOVE (w1.frontends (w1.ports port).frontend).port_list port with
      | none => none
      | some fl =>
        let w2 := w1.upd_frontend (w1.ports port).frontend (fun f => { f with port_list := fl })
        let w3 := w2.upd_softc (fun s => { s with num_ports := s.num_ports - 1 })
        let port_num : Int :=
          if (w3.ports port).targ_port < (c.CTL_MAX_PORTS : Int) then (w3.ports port).targ_port
          else (w3.ports port).targ_port - (c.CTL_MAX_PORTS : Int)
        let w4 := w3.upd_softc (fun s =>
          { s with ctl_port_mask := (ctl_clear_mask s.ctl_port_mask port_num).2 })
        let w5 := w4.upd_softc (fun s =>
          { s with ctl_ports := Function.update s.ctl_ports port_num none })
        let w6 := w5.upd_port port (fun p => { p with options := ctl_free_opts p.options })
        some { retval := 0, world := w6,
               trace := [Event.mtx_lock, Event.mtx_unlock, Event.ctl_pool_free pool,
                         Event.ctl_free_opts port] }

/-- The function `ctl_port_set_wwns`. -/
def ctl_port_set_wwns (w : World) (port : Nat) (wwnn_valid : Int) (wwnn : Nat)
    (wwpn_valid : Int) (wwpn : Nat) : World :=
  let w1 := if wwnn_valid ≠ 0 then w.upd_port port (fun p => { p with wwnn := wwnn }) else w
  if wwpn_valid ≠ 0 then w1.upd_port port (fun p => { p with wwpn := wwpn }) else w1

/-- The function `ctl_port_online`. -/
def ctl_port_online (c : ctl_consts) (cb : Callbacks) (w : World) (port : Nat) : World × List Event :=
  let fn := (w.ports port).port_online
  let arg := (w.ports port).onoff_arg
  let w1 := cb.call1 fn arg w
  (w1.upd_port port (fun p => { p with status := p.status ||| c.CTL_PORT_STATUS_ONLINE }),
   [Event.port_online fn arg])

/-- The function `ctl_port_offline`.  `Nat.ldiff a b` is `a & ~b`. -/
def ctl_port_offline (c : ctl_consts) (cb : Callbacks) (w : World) (port : Nat) : World × List Event :=
  let fn := (w.ports port).port_offline
  let arg := (w.ports port).onoff_arg
  let w1 := cb.call1 fn arg w
  (w1.upd_port port (fun p => { p with status := Nat.ldiff p.status c.CTL_PORT_STATUS_ONLINE }),
   [Event.port_offline fn arg])

/-! ## The memory after a registration and after a deregistration -/

/-- The memory after a registration that took raw number `m` and got `pool`. -/
def registered_world (c : ctl_consts) (w : World) (port : Nat) (master_shelf : Int)
    (m : Int) (pool : Nat) : World :=
  { control_softc :=
      { ctl_port_mask := Function.update w.control_softc.ctl_port_mask m true
        num_frontends := w.control_softc.num_frontends
        num_ports := w.control_softc.num_ports + 1
        fe_list := w.control_softc.fe_list
        port_list := w.control_softc.port_list ++ [port]
        ctl_ports := Function.update w.control_softc.ctl_ports m (some port) }
    frontends := Function.update w.frontends (w.ports port).frontend
      { w.frontends (w.ports port).frontend with
        port_list := (w.frontends (w.ports port).frontend).port_list ++ [port] }
    ports := Function.update w.ports port
      { w.ports port with
        ctl_pool_ref := some pool
        options := if stqh_first_is_null (w.ports port).options = true then some []
                   else (w.ports port).options
        targ_port := m + (if master_shelf ≠ 0 then 0 else (c.CTL_MAX_PORTS : Int))
        max_initiators := c.CTL_MAX_INIT_PER_PORT } }

/-- The raw number that ctl_port_deregister computes from `targ_port`. -/
def decode_targ_port (c : ctl_consts) (targ_port : Int) : Int :=
  if targ_port < (c.CTL_MAX_PORTS : Int) then targ_port else targ_port - (c.CTL_MAX_PORTS : Int)

/-- The memory after a deregistration that went through. -/
def deregistered_world (c : ctl_consts) (w : World) (port : Nat) : World :=
  { control_softc :=
      { ctl_port_mask :=
          (ctl_clear_mask w.control_softc.ctl_port_mask
            (decode_targ_port c (w.ports port).targ_port)).2
        num_frontends := w.control_softc.num_frontends
        num_ports := w.control_softc.num_ports - 1
        fe_list := w.control_softc.fe_list
        port_list := w.control_softc.port_list.erase port
        ctl_ports := Function.update w.control_softc.ctl_ports
          (decode_targ_port c (w.ports port).targ_port) none }
    frontends := Function.update w.frontends (w.ports port).frontend
      { w.frontends (w.ports port).frontend with
        port_list := (w.frontends (w.ports port).frontend).port_list.erase port }
    ports := Function.update w.ports port
      { w.ports port with options := ctl_free_opts (w.ports port).options } }

/-! ## A small concrete system -/

/-- Constants of the example system: four port numbers. -/
def ex_consts : ctl_consts :=
  { CTL_MAX_PORTS := 4, CTL_MAX_INIT_PER_PORT := 2048, CTL_PORT_STATUS_ONLINE := 1 }

/-- An unregistered port of the frontend at address `fe`, as a driver hands it
to ctl_port_register. -/
def ex_port (fe : Nat) : ctl_port :=
  { frontend := fe, port_online := 100, port_offline := 101, onoff_arg := 0,
    targ_port := -1, num_requested_ctl_io := 10, max_initiators := 0,
    wwnn := 0, wwpn := 0, status := 0, options := none, ctl_pool_ref := none }

/-- A frontend without ports and without callbacks. -/
def ex_frontend (name : String) : ctl_frontend :=
  { name := name, init := none, shutdown := none, port_list := [] }

/-- The empty registry. -/
def ex_softc : ctl_softc :=
  { ctl_port_mask := fun _ => false, num_frontends := 0, num_ports := 0,
    fe_list := [], port_list := [], ctl_ports := fun _ => none }

/-- Memory with the empty registry: every port is an unregistered port of the
frontend at address 0; the frontends at the addresses 1 and 2 are both called
"iscsi", every other one "camsim". -/
def ex_world : World :=
  { control_softc := ex_softc
    frontends := fun a => ex_frontend (if a = 1 ∨ a = 2 then "iscsi" else "camsim")
    ports := fun _ => ex_port 0 }

/-- A ctl_pool_create that succeeds and hands out pool 7. -/
def pool_ok : Int → Int × Nat := fun _ => (0, 7)

/-- A ctl_pool_create that fails with ENOMEM (12). -/
def pool_fail : Int → Int × Nat := fun _ => (12, 0)

/-- Callbacks that leave memory alone. -/
def ex_callbacks : Callbacks :=
  { call0 := fun _ w => w, call1 := fun _ _ w => w }

/-- The example registry with all four port numbers taken, by the ports at the
addresses 10, 11, 12 and 13. -/
def ex_full_world : World :=
  (ctl_port_register ex_consts pool_ok
    (ctl_port_register ex_consts pool_ok
      (ctl_port_register ex_consts pool_ok
        (ctl_port_register ex_consts pool_ok ex_world 10 1).world 11 1).world 12 1).world
    13 1).world

/-- The example registry after the port at address 5 was registered on the
primary shelf. -/
def ex_world_one : World :=
  (ctl_port_register ex_consts pool_ok ex_world 5 1).world

/-- Outcome of deregistering the port at address 11 in the full example
registry. -/
def ex_full_minus_11 : Result :=
  { retval := 0
    world := deregistered_world ex_consts ex_full_world 11
    trace := [Event.mtx_lock, Event.mtx_unlock,
              Event.ctl_pool_free (ex_full_world.ports 11).ctl_pool_ref,
              Event.ctl_free_opts 11] }

/-! ## Frontend registration in steps -/

/-- The memory after `STAILQ_INIT(&fe->port_list)` in ctl_frontend_register. -/
def frontend_list_init (w : World) (fe : Nat) : World :=
  w.upd_frontend fe (fun f => { f with port_list := [] })

/-- The memory in which ctl_frontend_register takes the lock for the second
time: the port list of `fe` was initialised and the init routine of `fe`, when
there is one, has run. -/
def frontend_init_world (cb : Callbacks) (w : World) (fe : Nat) : World :=
  match (w.frontends fe).init with
  | some fn => cb.call0 fn (frontend_list_init w fe)
  | none => frontend_list_init w fe

/-- The memory in which ctl_frontend_deregister drops the lock: `fe` is off the
frontend list and num_frontends is one lower.  The shutdown routine of `fe`,
when there is one, runs on this memory. -/
def frontend_removed_world (w : World) (fe : Nat) : World :=
  { w with control_softc :=
      { w.control_softc with
        fe_list := w.control_softc.fe_list.erase fe
        num_frontends := w.control_softc.num_frontends - 1 } }

/-- Calls of ctl_port_deregister for the ports of `ports`, one after the other,
each of which returns 0; `none` when one of them does not. -/
def deregister_ports (c : ctl_consts) : World → List Nat → Option World
  | w, [] => some w
  | w, p :: ps =>
    match ctl_port_deregister c w p with
    | some r => if r.retval = 0 then deregister_ports c r.world ps else none
    | none => none

/-! ## Sequences of calls -/

/-- One call of a registration function, with its arguments (and, for
ctl_port_register, with the ctl_pool_create the call meets). -/
inductive Op where
  | frontend_register (fe : Nat)
  | frontend_deregister (fe : Nat)
  | port_register (pool_create : Int → Int × Nat) (port : Nat) (master_shelf : Int)
  | port_deregister (port : Nat)

/-- The call `op` made on the memory `w`. -/
def step (c : ctl_consts) (cb : Callbacks) (w : World) : Op → Option Result
  | Op.frontend_register fe => some (ctl_frontend_register cb w fe)
  | Op.frontend_deregister fe => ctl_frontend_deregister cb w fe
  | Op.port_register pool_create port master_shelf =>
    some (ctl_port_register c pool_create w port master_shelf)
  | Op.port_deregister port => ctl_port_deregister c w port

/-- The calls `ops` made one after the other, starting on the memory `w`; the
memory afterwards.  `allowed` says which calls the sequence may contain, given
the memory a call is made on; the result is `none` when a call is not allowed
or is not defined. -/
def run (c : ctl_consts) (cb : Callbacks) (allowed : World → Op → Bool) :
    World → List Op → Option World
  | w, [] => some w
  | w, op :: ops =>
    if allowed w op = true then
      match step c cb w op with
      | some r => run c cb allowed r.world ops
      | none => none
    else none

/-- Every call is allowed. -/
def any_call : World → Op → Bool := fun _ _ => true

/-- The calls of ctl_port_register and ctl_port_deregister, with any
arguments. -/
def port_call : World → Op → Bool
  | _, Op.port_register _ _ _ => true
  | _, Op.port_deregister _ => true
  | _, _ => false

/-- The calls of ctl_frontend_register and ctl_frontend_deregister, with any
arguments. -/
def frontend_call : World → Op → Bool
  | _, Op.frontend_register _ => true
  | _, Op.frontend_deregister _ => true
  | _, _ => false

/-- The calls of ctl_port_register and ctl_port_deregister in which a port is
passed to ctl_port_register only while it is not on the global port list. -/
def port_call_unlinked : World → Op → Bool
  | w, Op.port_register _ port _ => decide (port ∉ w.control_softc.port_list)
  | _, Op.port_deregister _ => true
  | _, _ => false

/-- The empty registry: no bit of the port mask set, no table slot filled, no
port and no frontend on a list, both counts 0. -/
def registry_empty (w : World) : Prop :=
  (∀ i : Int, w.control_softc.ctl_port_mask i = false) ∧
  (∀ i : Int, w.control_softc.ctl_ports i = none) ∧
  w.control_softc.port_list = [] ∧
  w.control_softc.fe_list = [] ∧
  w.control_softc.num_ports = 0 ∧
  w.control_softc.num_frontends = 0 ∧
  (∀ fe : Nat, (w.frontends fe).port_list = [])

/-- The raw port number of a port, as ctl_port_deregister reads it from
`targ_port`. -/
def raw_port_num (c : ctl_consts) (w : World) (port : Nat) : Int :=
  decode_targ_port c (w.ports port).targ_port

/-- The example registry after the frontend at address 0 was registered and the
ports at the addresses 10 and 11 were registered under it. -/
def ex_world_fe_two_ports : World :=
  (ctl_port_register ex_consts pool_ok
    (ctl_port_register ex_consts pool_ok
      (ctl_frontend_register ex_callbacks ex_world 0).world 10 1).world 11 1).world

/-- The names of the frontends on the frontend list, in list order. -/
def frontend_names (w : World) : List String :=
  w.control_softc.fe_list.map (fun fe => (w.frontends fe).name)

/-- The example registry after the frontend at address 1 ("iscsi") was
registered. -/
def ex_world_iscsi : World :=
  (ctl_frontend_register ex_callbacks ex_world 1).world

/-- Outcome of deregistering the frontend at address 1 again. -/
def ex_iscsi_removed : Result :=
  { retval := 0
    world := frontend_removed_world ex_world_iscsi 1
    trace := [Event.mtx_lock, Event.mtx_unlock] }

/-- A sequence of port calls in the example system: port 10 is registered,
port 11 fails on its pool, port 10 is deregistered, port 12 is registered on
the secondary shelf. -/
def ex_port_ops : List Op :=
  [Op.port_register pool_ok 10 1, Op.port_register pool_fail 11 1,
   Op.port_deregister 10, Op.port_register pool_ok 12 0]

/-- The memory after `ex_port_ops`, started on the empty example registry. -/
def ex_after_port_ops : World :=
  (run ex_consts ex_callbacks port_call ex_world ex_port_ops).getD ex_world

/-- A sequence of frontend calls in the example system: the frontends at the
addresses 1 and 2 (both "iscsi") and 3 ("camsim") are registered, the one at
address 1 is deregistered, the one at address 2 is registered again. -/
def ex_frontend_ops : List Op :=
  [Op.frontend_register 1, Op.frontend_register 2, Op.frontend_register 3,
   Op.frontend_deregister 1, Op.frontend_register 2]

/-- The memory after `ex_frontend_ops`, started on the empty example
registry. -/
def ex_after_frontend_ops : World :=
  (run ex_consts ex_callbacks frontend_call ex_world ex_frontend_ops).getD ex_world

/-- The ports on the global port list are different ports, each one sits in the
table slot of its raw number, which lies in 0..CTL_MAX_PORTS-1 and whose bit
is set, and every set bit is the raw number of a port on the list. -/
def ports_numbered (c : ctl_consts) (w : World) : Prop :=
  w.control_softc.port_list.Nodup ∧
  (∀ p ∈ w.control_softc.port_list,
    0 ≤ raw_port_num c w p ∧ raw_port_num c w p < (c.CTL_MAX_PORTS : Int) ∧
    w.control_softc.ctl_ports (raw_port_num c w p) = some p ∧
    w.control_softc.ctl_port_mask (raw_port_num c w p) = true) ∧
  (∀ i : Int, w.control_softc.ctl_port_mask i = true →
    ∃ p ∈ w.control_softc.port_list, raw_port_num c w p = i)

/-- The same port registered twice in the example system. -/
def ex_same_port_twice : List Op :=
  [Op.port_register pool_ok 5 1, Op.port_register pool_ok 5 1]

/-- A sequence of port calls in the example system in which no port is
registered while it is linked: the ports 10, 11 and 12 are registered, 11 is
deregistered, 13 is registered. -/
def ex_unlinked_port_ops : List Op :=
  [Op.port_register pool_ok 10 1, Op.port_register pool_ok 11 0,
   Op.port_register pool_ok 12 1, Op.port_deregister 11, Op.port_register pool_ok 13 0]

/-- The memory after `ex_unlinked_port_ops`, started on the empty example
registry. -/
def ex_after_unlinked_port_ops : World :=
  (run ex_consts ex_callbacks port_call_unlinked ex_world ex_unlinked_port_ops).getD ex_world

/-- The port at address 5 is registered twice and deregistered once, then the
port at address 6 is registered. -/
def ex_relinked_port_ops : List Op :=
  [Op.port_register pool_ok 5 1, Op.port_register pool_ok 5 1, Op.port_deregister 5,
   Op.port_register pool_ok 6 1]

/-- The memory after the port at address 5 was registered twice in the
empty example registry. -/
def ex_world_twice : World :=
  (ctl_port_register ex_consts pool_ok
    (ctl_port_register ex_consts pool_ok ex_world 5 1).world 5 1).world

/-- The events that are calls of ctl_pool_create. -/
def is_pool_create : Event → Bool
  | Event.ctl_pool_create _ => true
  | _ => false

/-- The events that take the lock `ctl_lock`. -/
def is_mtx_lock : Event → Bool
  | Event.mtx_lock => true
  | _ => false

/-- The flag update of ctl_port_online on a status word: `status |= flag`. -/
def status_set (status flag : Nat) : Nat := status ||| flag

/-- The flag update of ctl_port_offline on a status word: `status &= ~flag`. -/
def status_clear (status flag : Nat) : Nat := Nat.ldiff status flag

/-- The empty example registry with a frontend at address 1 that has an init
routine (code address 200) and a shutdown routine (code address 201); the
other frontends have none.  The frontends at the addresses 1 and 2 are both
called "iscsi". -/
def ex_world_init : World :=
  { control_softc := ex_softc
    frontends := fun a =>
      { name := if a = 1 ∨ a = 2 then "iscsi" else "camsim"
        init := if a = 1 then some 200 else none
        shutdown := if a = 1 then some 201 else none
        port_list := [] }
    ports := fun _ => ex_port 0 }

/-- Callbacks in which the routine at code address 200 registers the frontend
at address 2; every other routine leaves memory alone. -/
def ex_reentrant : Callbacks :=
  { call0 := fun fn v => if fn = 200 then (ctl_frontend_register ex_callbacks v 2).world else v
    call1 := fun _ _ v => v }

/-- The example registry with the init routine, after the frontend at address
1 was registered with callbacks that leave memory alone. -/
def ex_world_init_registered : World :=
  (ctl_frontend_register ex_callbacks ex_world_init 1).world

/-- The example memory in which the port at address 5 comes with one option,
("vendor", "FreeBSD"). -/
def ex_world_options : World :=
  ex_world.upd_port 5 (fun p => { p with options := some [("vendor", "FreeBSD")] })

/-- The memory the port_online routine of the port leaves, called as
ctl_port_online calls it. -/
def after_port_online_routine (cb : Callbacks) (w : World) (port : Nat) : World :=
  cb.call1 (w.ports port).port_online (w.ports port).onoff_arg w

/-- The memory the port_offline routine of the port leaves, called as
ctl_port_offline calls it. -/
def after_port_offline_routine (cb : Callbacks) (w : World) (port : Nat) : World :=
  cb.call1 (w.ports port).port_offline (w.ports port).onoff_arg w

/-- The example memory in which the port at address 5 has the status word 6:
offline, two other bits set. -/
def ex_world_status : World :=
  ex_world.upd_port 5 (fun p => { p with status := 6 })

/-! ## Sequences of calls with init and shutdown routines that register -/

/-- The example registry with the init routine after the frontend at address 1
was registered with the callbacks `ex_reentrant`: the frontend list holds the
frontends 2 and 1, both called "iscsi". -/
def ex_world_two_iscsi : World :=
  (ctl_frontend_register ex_reentrant ex_world_init 1).world

/-- The empty example registry with the init routine, in which the port at
address 5 belongs to the frontend at address 1. -/
def ex_world_own_port : World :=
  { control_softc := ex_softc
    frontends := fun a =>
      { name := if a = 1 ∨ a = 2 then "iscsi" else "camsim"
        init := if a = 1 then some 200 else none
        shutdown := if a = 1 then some 201 else none
        port_list := [] }
    ports := fun a => ex_port (if a = 5 then 1 else 0) }

/-- Callbacks in which the routine at code address 200, the init routine of
the frontend at address 1, registers the port at address 5 unless that port is
on the global port list; every other routine leaves memory alone. -/
def ex_port_init : Callbacks :=
  { call0 := fun fn v =>
      if fn = 200 ∧ 5 ∉ v.control_softc.port_list then
        (ctl_port_register ex_consts pool_ok v 5 1).world
      else v
    call1 := fun _ _ v => v }

theorem ctl_ffz_scan_spec (mask : Int → Bool) :
    ∀ k j : Nat,
      (ctl_ffz_scan mask k j = -1 ∧ ∀ i : Nat, j ≤ i → i < j + k → mask (i : Int) = true) ∨
      (∃ m : Nat, j ≤ m ∧ m < j + k ∧ ctl_ffz_scan mask k j = (m : Int) ∧
        mask (m : Int) = false ∧ ∀ i : Nat, j ≤ i → i < m → mask (i : Int) = true) := by
  intro k
  induction k with
  | zero =>
    intro j
    left
    refine ⟨rfl, ?_⟩
    intro i h1 h2
    omega
  | succ k ih =>
    intro j
    by_cases hj : mask (j : Int) = false
    · right
      refine ⟨j, le_refl j, by omega, ?_, hj, ?_⟩
      · simp [ctl_ffz_scan, hj]
      · intro i h1 h2
        omega
    · have hj1 : mask (j : Int) = true := by simpa using hj
      have hstep : ctl_ffz_scan mask (k + 1) j = ctl_ffz_scan mask k (j + 1) := by
        simp [ctl_ffz_scan, hj1]
      rcases ih (j + 1) with ⟨h0, hall⟩ | ⟨m, hm1, hm2, hm3, hm4, hm5⟩
      · left
        refine ⟨by rw [hstep, h0], ?_⟩
        intro i h1 h2
        by_cases hij : i = j
        · subst hij
          exact hj1
        · exact hall i (by omega) (by omega)
      · right
        refine ⟨m, by omega, by omega, by rw [hstep, hm3], hm4, ?_⟩
        intro i h1 h2
        by_cases hij : i = j
        · subst hij
          exact hj1
        · exact hm5 i (by omega) h2

/-- Either `ctl_ffz` gives -1 and every bit below `size` is set, or it gives
the lowest index below `size` whose bit is clear. -/
theorem ctl_ffz_spec (mask : Int → Bool) (size : Nat) :
    (ctl_ffz mask size = -1 ∧ ∀ i : Nat, i < size → mask (i : Int) = true) ∨
    (∃ m : Nat, m < size ∧ ctl_ffz mask size = (m : Int) ∧
      mask (m : Int) = false ∧ ∀ i : Nat, i < m → mask (i : Int) = true) := by
  rcases ctl_ffz_scan_spec mask size 0 with ⟨h0, hall⟩ | ⟨m, _, hm2, hm3, hm4, hm5⟩
  · left
    exact ⟨h0, fun i hi => hall i (Nat.zero_le i) (by omega)⟩
  · right
    exact ⟨m, by omega, hm3, hm4, fun i hi => hm5 i (Nat.zero_le i) hi⟩

/-- With a clear bit below `size`, `ctl_ffz` finds the lowest one. -/
theorem ctl_ffz_of_free (mask : Int → Bool) (size : Nat) (n : Nat) (hn : n < size)
    (hfree : mask (n : Int) = false) :
    ∃ m : Nat, m ≤ n ∧ m < size ∧ ctl_ffz mask size = (m : Int) ∧
      mask (m : Int) = false ∧ ∀ i : Nat, i < m → mask (i : Int) = true := by
  rcases ctl_ffz_spec mask size with ⟨_, hall⟩ | ⟨m, hm1, hm2, hm3, hm4⟩
  · have := hall n hn
    rw [hfree] at this
    exact absurd this (by decide)
  · refine ⟨m, ?_, hm1, hm2, hm3, hm4⟩
    by_contra hlt
    have := hm4 n (by omega)
    rw [hfree] at this
    exact absurd this (by decide)

/-- With every bit below `size` set, `ctl_ffz` gives -1. -/
theorem ctl_ffz_of_full (mask : Int → Bool) (size : Nat)
    (hfull : ∀ i : Nat, i < size → mask (i : Int) = true) :
    ctl_ffz mask size = -1 := by
  rcases ctl_ffz_spec mask size with ⟨h0, _⟩ | ⟨m, hm1, _, hm3, _⟩
  · exact h0
  · have := hfull m hm1
    rw [hm3] at this
    exact absurd this (by decide)

theorem clear_set_mask (mask : Int → Bool) (n : Int) (h : mask n = false) :
    (ctl_clear_mask (ctl_set_mask mask n).2 n).2 = mask := by
  funext i
  by_cases hi : i = n
  · subst hi
    simp [ctl_clear_mask, ctl_set_mask, h]
  · simp [ctl_clear_mask, ctl_set_mask, h, Function.update, hi]

/-! ## The three paths of ctl_port_register -/

theorem ctl_port_register_ok (c : ctl_consts) (pool_create : Int → Int × Nat)
    (w : World) (port : Nat) (master_shelf : Int) (m : Nat)
    (hffz : ctl_ffz w.control_softc.ctl_port_mask c.CTL_MAX_PORTS = (m : Int))
    (hfree : w.control_softc.ctl_port_mask (m : Int) = false)
    (hpool : (pool_create ((w.ports port).num_requested_ctl_io + 20)).1 = 0) :
    ctl_port_register c pool_create w port master_shelf =
      { retval := 0
        world := registered_world c w port master_shelf (m : Int)
          (pool_create ((w.ports port).num_requested_ctl_io + 20)).2
        trace := [Event.mtx_lock, Event.mtx_unlock,
                  Event.ctl_pool_create ((w.ports port).num_requested_ctl_io + 20),
                  Event.mtx_lock, Event.mtx_unlock] } := by
  have hne : ((m : Int) = -1) = False := by
    apply propext
    constructor
    · intro h
      omega
    · exact False.elim
  unfold ctl_port_register
  simp only [hffz, hne, ctl_set_mask, hfree, World.upd_softc, World.upd_port,
    World.upd_frontend, STAILQ_INSERT_TAIL, registered_world, hpool]
  by_cases hnull : stqh_first_is_null (w.ports port).options = true
  · simp [hnull, Function.update_same, Function.update_idem]
  · simp [hnull, Function.update_same, Function.update_idem]

theorem ctl_port_register_poolfail (c : ctl_consts) (pool_create : Int → Int × Nat)
    (w : World) (port : Nat) (master_shelf : Int) (m : Nat)
    (hffz : ctl_ffz w.control_softc.ctl_port_mask c.CTL_MAX_PORTS = (m : Int))
    (hfree : w.control_softc.ctl_port_mask (m : Int) = false)
    (hpool : (pool_create ((w.ports port).num_requested_ctl_io + 20)).1 ≠ 0) :
    ctl_port_register c pool_create w port master_shelf =
      { retval := (pool_create ((w.ports port).num_requested_ctl_io + 20)).1
        world :=
          { control_softc :=
              { w.control_softc with num_ports := w.control_softc.num_ports + 1 }
            frontends := w.frontends
            ports := Function.update w.ports port { w.ports port with targ_port := -1 } }
        trace := [Event.mtx_lock, Event.mtx_unlock,
                  Event.ctl_pool_create ((w.ports port).num_requested_ctl_io + 20),
                  Event.mtx_lock, Event.mtx_unlock] } := by
  have hne : ((m : Int) = -1) = False := by
    apply propext
    constructor
    · intro h
      omega
    · exact False.elim
  have hcs := clear_set_mask w.control_softc.ctl_port_mask (m : Int) hfree
  have hset : (ctl_set_mask w.control_softc.ctl_port_mask (m : Int)).1 = 0 := by
    simp [ctl_set_mask, hfree]
  unfold ctl_port_register
  simp [hffz, hne, hset, World.upd_softc, World.upd_port, hpool, hcs]

theorem ctl_port_register_full (c : ctl_consts) (pool_create : Int → Int × Nat)
    (w : World) (port : Nat) (master_shelf : Int)
    (hffz : ctl_ffz w.control_softc.ctl_port_mask c.CTL_MAX_PORTS = -1) :
    ctl_port_register c pool_create w port master_shelf =
      { retval := 1
        world := w.upd_port port (fun p => { p with targ_port := -1 })
        trace := [Event.mtx_lock, Event.mtx_unlock] } := by
  unfold ctl_port_register
  simp [hffz]

/-- The index `ctl_ffz` returns is determined by the mask: a clear bit with
only set bits below it is the result. -/
theorem ctl_ffz_eq (mask : Int → Bool) (size : Nat) (m : Nat) (hm : m < size)
    (hfree : mask (m : Int) = false) (hbelow : ∀ i : Nat, i < m → mask (i : Int) = true) :
    ctl_ffz mask size = (m : Int) := by
  rcases ctl_ffz_of_free mask size m hm hfree with ⟨k, hk1, _, hk3, hk4, _⟩
  by_cases hkm : k = m
  · rw [hk3, hkm]
  · have := hbelow k (by omega)
    rw [hk4] at this
    exact absurd this (by decide)

/-! ## The paths of ctl_port_deregister -/

theorem ctl_port_deregister_sentinel (c : ctl_consts) (w : World) (port : Nat)
    (h : (w.ports port).targ_port = -1) :
    ctl_port_deregister c w port = some { retval := 1, world := w, trace := [] } := by
  unfold ctl_port_deregister
  simp [h]

theorem ctl_port_deregister_ok (c : ctl_consts) (w : World) (port : Nat)
    (h : (w.ports port).targ_port ≠ -1)
    (hin : port ∈ w.control_softc.port_list)
    (hfe : port ∈ (w.frontends (w.ports port).frontend).port_list) :
    ctl_port_deregister c w port =
      some { retval := 0
             world := deregistered_world c w port
             trace := [Event.mtx_lock, Event.mtx_unlock,
                       Event.ctl_pool_free (w.ports port).ctl_pool_ref,
                       Event.ctl_free_opts port] } := by
  unfold ctl_port_deregister
  simp [h, hin, hfe, STAILQ_REMOVE, World.upd_softc, World.upd_port, World.upd_frontend,
    deregistered_world, decode_targ_port]

/-- A deregistration that gets past the sentinel test either is not defined or
goes through. -/
theorem ctl_port_deregister_cases (c : ctl_consts) (w : World) (port : Nat)
    (h : (w.ports port).targ_port ≠ -1) :
    ctl_port_deregister c w port = none ∨
    (port ∈ w.control_softc.port_list ∧
     port ∈ (w.frontends (w.ports port).frontend).port_list) := by
  by_cases hin : port ∈ w.control_softc.port_list
  · by_cases hfe : port ∈ (w.frontends (w.ports port).frontend).port_list
    · exact Or.inr ⟨hin, hfe⟩
    · left
      unfold ctl_port_deregister
      simp [h, hin, hfe, STAILQ_REMOVE, World.upd_softc]
  · left
    unfold ctl_port_deregister
    simp [h, hin, STAILQ_REMOVE]

/-! ## Port registration -/

/-- C1: in a registry state with a clear bit among the port numbers
0..CTL_MAX_PORTS-1, and with a pool creation that succeeds,
ctl_port_register returns 0 and the raw port number it assigns (the bit it
sets, the table slot it fills, the number encoded in targ_port) is the lowest
index whose bit was clear before the call: every smaller index was in use. -/
theorem C1_register_assigns_lowest_free (c : ctl_consts) (pool_create : Int → Int × Nat)
    (w : World) (port : Nat) (master_shelf : Int) (n : Int)
    (hn0 : 0 ≤ n) (hn : n < (c.CTL_MAX_PORTS : Int))
    (hfree : w.control_softc.ctl_port_mask n = false)
    (hpool : (pool_create ((w.ports port).num_requested_ctl_io + 20)).1 = 0) :
    (ctl_port_register c pool_create w port master_shelf).retval = 0 ∧
    ∃ m : Int, 0 ≤ m ∧ m ≤ n ∧
      w.control_softc.ctl_port_mask m = false ∧
      (∀ i : Int, 0 ≤ i → i < m → w.control_softc.ctl_port_mask i = true) ∧
      (ctl_port_register c pool_create w port master_shelf).world.control_softc.ctl_port_mask m
        = true ∧
      (∀ i : Int, i ≠ m →
        (ctl_port_register c pool_create w port master_shelf).world.control_softc.ctl_port_mask i
          = w.control_softc.ctl_port_mask i) ∧
      (ctl_port_register c pool_create w port master_shelf).world.control_softc.ctl_ports m
        = some port ∧
      ((ctl_port_register c pool_create w port master_shelf).world.ports port).targ_port
        = m + (if master_shelf ≠ 0 then 0 else (c.CTL_MAX_PORTS : Int)) := by
  obtain ⟨k, hk⟩ := Int.eq_ofNat_of_zero_le hn0
  subst hk
  rcases ctl_ffz_of_free w.control_softc.ctl_port_mask c.CTL_MAX_PORTS k (by omega) hfree with
    ⟨m, hm1, _, hm3, hm4, hm5⟩
  rw [ctl_port_register_ok c pool_create w port master_shelf m hm3 hm4 hpool]
  refine ⟨rfl, (m : Int), by omega, by omega, hm4, ?_, ?_, ?_, ?_, ?_⟩
  · intro i hi0 hi
    obtain ⟨j, hj⟩ := Int.eq_ofNat_of_zero_le hi0
    subst hj
    exact hm5 j (by omega)
  · simp [registered_world]
  · intro i hi
    simp [registered_world, Function.update, hi]
  · simp [registered_world]
  · simp [registered_world]

/-- Witness of C1 in the example system: a port registered into the empty
registry on the secondary shelf. -/
theorem C1_register_assigns_lowest_free_witness :
    (ctl_port_register ex_consts pool_ok ex_world 5 0).retval = 0 ∧
    ∃ m : Int, 0 ≤ m ∧ m ≤ 2 ∧
      ex_world.control_softc.ctl_port_mask m = false ∧
      (∀ i : Int, 0 ≤ i → i < m → ex_world.control_softc.ctl_port_mask i = true) ∧
      (ctl_port_register ex_consts pool_ok ex_world 5 0).world.control_softc.ctl_port_mask m
        = true ∧
      (∀ i : Int, i ≠ m →
        (ctl_port_register ex_consts pool_ok ex_world 5 0).world.control_softc.ctl_port_mask i
          = ex_world.control_softc.ctl_port_mask i) ∧
      (ctl_port_register ex_consts pool_ok ex_world 5 0).world.control_softc.ctl_ports m
        = some 5 ∧
      ((ctl_port_register ex_consts pool_ok ex_world 5 0).world.ports 5).targ_port
        = m + (if (0 : Int) ≠ 0 then 0 else ((ex_consts.CTL_MAX_PORTS : Nat) : Int)) :=
  C1_register_assigns_lowest_free ex_consts pool_ok ex_world 5 0 2
    (by decide) (by decide) (by decide) (by decide)

/-- C2, the code at a failing input: a registration into the empty registry
whose pool creation fails returns the error of ctl_pool_create and puts the
mask, both lists, the table and the frontends back, but leaves num_ports at 1
where it was 0 before the call. -/
theorem C2_pool_failure_keeps_num_ports_raised :
    ex_world.control_softc.num_ports = 0 ∧
    (ctl_port_register ex_consts pool_fail ex_world 5 1).retval = 12 ∧
    (ctl_port_register ex_consts pool_fail ex_world 5 1).world.control_softc.num_ports = 1 ∧
    (ctl_port_register ex_consts pool_fail ex_world 5 1).world.control_softc.port_list = [] ∧
    (ctl_port_register ex_consts pool_fail ex_world 5 1).world.control_softc.ctl_port_mask 0
      = false ∧
    (ctl_port_register ex_consts pool_fail ex_world 5 1).world.control_softc
      ≠ ex_world.control_softc := by
  refine ⟨by decide, by decide, by decide, by decide, by decide, ?_⟩
  intro h
  exact absurd (congrArg ctl_softc.num_ports h) (by decide)

/-- C3: in a registry state in which all bits 0..CTL_MAX_PORTS-1 of the port
mask are set, ctl_port_register returns 1 at once (its only events are one
lock and one unlock, ctl_pool_create is not called), sets the port's
targ_port to -1 and leaves the registry record, the frontends and every other
port unchanged. -/
theorem C3_register_exhausted (c : ctl_consts) (pool_create : Int → Int × Nat)
    (w : World) (port : Nat) (master_shelf : Int)
    (hfull : ∀ i : Int, 0 ≤ i → i < (c.CTL_MAX_PORTS : Int) →
      w.control_softc.ctl_port_mask i = true) :
    (ctl_port_register c pool_create w port master_shelf).retval = 1 ∧
    (ctl_port_register c pool_create w port master_shelf).retval ≠ 0 ∧
    ((ctl_port_register c pool_create w port master_shelf).world.ports port).targ_port = -1 ∧
    (ctl_port_register c pool_create w port master_shelf).trace
      = [Event.mtx_lock, Event.mtx_unlock] ∧
    (∀ num_ctl_io : Int, Event.ctl_pool_create num_ctl_io ∉
      (ctl_port_register c pool_create w port master_shelf).trace) ∧
    (ctl_port_register c pool_create w port master_shelf).world.control_softc
      = w.control_softc ∧
    (ctl_port_register c pool_create w port master_shelf).world.frontends = w.frontends ∧
    (∀ q : Nat, q ≠ port →
      (ctl_port_register c pool_create w port master_shelf).world.ports q = w.ports q) := by
  have hffz : ctl_ffz w.control_softc.ctl_port_mask c.CTL_MAX_PORTS = -1 :=
    ctl_ffz_of_full _ _ (fun i hi => hfull (i : Int) (by omega) (by omega))
  rw [ctl_port_register_full c pool_create w port master_shelf hffz]
  refine ⟨rfl, by simp, ?_, rfl, ?_, rfl, rfl, ?_⟩
  · simp [World.upd_port]
  · intro num_ctl_io
    simp
  · intro q hq
    simp [World.upd_port, Function.update, hq]

/-- Witness of C3: a fifth port in the full example registry. -/
theorem C3_register_exhausted_witness :
    (ctl_port_register ex_consts pool_ok ex_full_world 14 1).retval = 1 ∧
    (ctl_port_register ex_consts pool_ok ex_full_world 14 1).retval ≠ 0 ∧
    ((ctl_port_register ex_consts pool_ok ex_full_world 14 1).world.ports 14).targ_port = -1 ∧
    (ctl_port_register ex_consts pool_ok ex_full_world 14 1).trace
      = [Event.mtx_lock, Event.mtx_unlock] ∧
    (∀ num_ctl_io : Int, Event.ctl_pool_create num_ctl_io ∉
      (ctl_port_register ex_consts pool_ok ex_full_world 14 1).trace) ∧
    (ctl_port_register ex_consts pool_ok ex_full_world 14 1).world.control_softc
      = ex_full_world.control_softc ∧
    (ctl_port_register ex_consts pool_ok ex_full_world 14 1).world.frontends
      = ex_full_world.frontends ∧
    (∀ q : Nat, q ≠ 14 →
      (ctl_port_register ex_consts pool_ok ex_full_world 14 1).world.ports q
        = ex_full_world.ports q) :=
  C3_register_exhausted ex_consts pool_ok ex_full_world 14 1
    (by
      intro i h0 h4
      have h4 : i < 4 := h4
      interval_cases i <;> decide)

/-- A call of ctl_port_register that returns 0 found a free raw number and got
its pool. -/
theorem ctl_port_register_retval_zero (c : ctl_consts) (pool_create : Int → Int × Nat)
    (w : World) (port : Nat) (master_shelf : Int)
    (hok : (ctl_port_register c pool_create w port master_shelf).retval = 0) :
    ∃ m : Nat, m < c.CTL_MAX_PORTS ∧
      ctl_ffz w.control_softc.ctl_port_mask c.CTL_MAX_PORTS = (m : Int) ∧
      w.control_softc.ctl_port_mask (m : Int) = false ∧
      (∀ i : Nat, i < m → w.control_softc.ctl_port_mask (i : Int) = true) ∧
      (pool_create ((w.ports port).num_requested_ctl_io + 20)).1 = 0 := by
  rcases ctl_ffz_spec w.control_softc.ctl_port_mask c.CTL_MAX_PORTS with
    ⟨h0, _⟩ | ⟨m, hm1, hm2, hm3, hm4⟩
  · rw [ctl_port_register_full c pool_create w port master_shelf h0] at hok
    simp at hok
  · by_cases hpool : (pool_create ((w.ports port).num_requested_ctl_io + 20)).1 = 0
    · exact ⟨m, hm1, hm2, hm3, hm4, hpool⟩
    · rw [ctl_port_register_poolfail c pool_create w port master_shelf m hm2 hm3 hpool] at hok
      exact absurd hok hpool

/-- C4: after a call of ctl_port_register that returns 0 and reserved raw slot
n (the bit n was clear before and is set after the call), the port's
targ_port is n when master_shelf is non-zero and n + CTL_MAX_PORTS when
master_shelf is zero. -/
theorem C4_targ_port_encoding (c : ctl_consts) (pool_create : Int → Int × Nat)
    (w : World) (port : Nat) (master_shelf : Int)
    (hok : (ctl_port_register c pool_create w port master_shelf).retval = 0) :
    ∃ n : Int, n = ctl_ffz w.control_softc.ctl_port_mask c.CTL_MAX_PORTS ∧
      0 ≤ n ∧ n < (c.CTL_MAX_PORTS : Int) ∧
      w.control_softc.ctl_port_mask n = false ∧
      (ctl_port_register c pool_create w port master_shelf).world.control_softc.ctl_port_mask n
        = true ∧
      (master_shelf ≠ 0 →
        ((ctl_port_register c pool_create w port master_shelf).world.ports port).targ_port
          = n) ∧
      (master_shelf = 0 →
        ((ctl_port_register c pool_create w port master_shelf).world.ports port).targ_port
          = n + (c.CTL_MAX_PORTS : Int)) := by
  obtain ⟨m, hm1, hm2, hm3, _, hpool⟩ :=
    ctl_port_register_retval_zero c pool_create w port master_shelf hok
  rw [ctl_port_register_ok c pool_create w port master_shelf m hm2 hm3 hpool]
  refine ⟨(m : Int), hm2.symm, by omega, by omega, hm3, ?_, ?_, ?_⟩
  · simp [registered_world]
  · intro hms
    simp [registered_world, hms]
  · intro hms
    simp [registered_world, hms]

/-- Witness of C4: the second port of the example system, registered on the
secondary shelf. -/
theorem C4_targ_port_encoding_witness :
    ∃ n : Int,
      n = ctl_ffz (ctl_port_register ex_consts pool_ok ex_world 10 1).world.control_softc.ctl_port_mask
            ex_consts.CTL_MAX_PORTS ∧
      0 ≤ n ∧ n < (ex_consts.CTL_MAX_PORTS : Int) ∧
      (ctl_port_register ex_consts pool_ok ex_world 10 1).world.control_softc.ctl_port_mask n
        = false ∧
      (ctl_port_register ex_consts pool_ok
        (ctl_port_register ex_consts pool_ok ex_world 10 1).world 11 0).world.control_softc.ctl_port_mask n
        = true ∧
      ((0 : Int) ≠ 0 →
        ((ctl_port_register ex_consts pool_ok
          (ctl_port_register ex_consts pool_ok ex_world 10 1).world 11 0).world.ports 11).targ_port
          = n) ∧
      ((0 : Int) = 0 →
        ((ctl_port_register ex_consts pool_ok
          (ctl_port_register ex_consts pool_ok ex_world 10 1).world 11 0).world.ports 11).targ_port
          = n + (ex_consts.CTL_MAX_PORTS : Int)) :=
  C4_targ_port_encoding ex_consts pool_ok
    (ctl_port_register ex_consts pool_ok ex_world 10 1).world 11 0 (by decide)

/-! ## Port deregistration -/

/-- C5: for a port whose targ_port is the sentinel -1, ctl_port_deregister
returns 1 and does nothing else: memory (the mask, the counts, both kinds of
lists, the table, the port with its pool reference and options) is the same
as before, and there is no event, so ctl_pool_free is not called. -/
theorem C5_deregister_unregistered (c : ctl_consts) (w : World) (port : Nat)
    (h : (w.ports port).targ_port = -1) :
    ∃ r : Result, ctl_port_deregister c w port = some r ∧
      r.retval = 1 ∧ r.retval ≠ 0 ∧ r.world = w ∧ r.trace = [] ∧
      r.world.control_softc.ctl_port_mask = w.control_softc.ctl_port_mask ∧
      r.world.control_softc.num_ports = w.control_softc.num_ports ∧
      r.world.control_softc.port_list = w.control_softc.port_list ∧
      r.world.frontends = w.frontends ∧
      r.world.control_softc.ctl_ports = w.control_softc.ctl_ports ∧
      (r.world.ports port).ctl_pool_ref = (w.ports port).ctl_pool_ref ∧
      (r.world.ports port).options = (w.ports port).options ∧
      (∀ pool : Option Nat, Event.ctl_pool_free pool ∉ r.trace) := by
  refine ⟨{ retval := 1, world := w, trace := [] },
    ctl_port_deregister_sentinel c w port h, rfl, by simp, rfl, rfl, rfl, rfl, rfl, rfl, rfl,
    rfl, rfl, ?_⟩
  intro pool
  simp

/-- Witness of C5: a port of the example system that was never registered. -/
theorem C5_deregister_unregistered_witness :
    ∃ r : Result, ctl_port_deregister ex_consts ex_world 5 = some r ∧
      r.retval = 1 ∧ r.retval ≠ 0 ∧ r.world = ex_world ∧ r.trace = [] ∧
      r.world.control_softc.ctl_port_mask = ex_world.control_softc.ctl_port_mask ∧
      r.world.control_softc.num_ports = ex_world.control_softc.num_ports ∧
      r.world.control_softc.port_list = ex_world.control_softc.port_list ∧
      r.world.frontends = ex_world.frontends ∧
      r.world.control_softc.ctl_ports = ex_world.control_softc.ctl_ports ∧
      (r.world.ports 5).ctl_pool_ref = (ex_world.ports 5).ctl_pool_ref ∧
      (r.world.ports 5).options = (ex_world.ports 5).options ∧
      (∀ pool : Option Nat, Event.ctl_pool_free pool ∉ r.trace) :=
  C5_deregister_unregistered ex_consts ex_world 5 (by decide)

/-- What a defined ctl_port_deregister did: it stopped at the sentinel test, or
it unlinked a port that was on both lists. -/
theorem ctl_port_deregister_some (c : ctl_consts) (w : World) (port : Nat) (r : Result)
    (h : ctl_port_deregister c w port = some r) :
    ((w.ports port).targ_port = -1 ∧ r = { retval := 1, world := w, trace := [] }) ∨
    ((w.ports port).targ_port ≠ -1 ∧
      port ∈ w.control_softc.port_list ∧
      port ∈ (w.frontends (w.ports port).frontend).port_list ∧
      r = { retval := 0
            world := deregistered_world c w port
            trace := [Event.mtx_lock, Event.mtx_unlock,
                      Event.ctl_pool_free (w.ports port).ctl_pool_ref,
                      Event.ctl_free_opts port] }) := by
  by_cases ht : (w.ports port).targ_port = -1
  · left
    rw [ctl_port_deregister_sentinel c w port ht] at h
    exact ⟨ht, (Option.some.inj h).symm⟩
  · right
    rcases ctl_port_deregister_cases c w port ht with hnone | ⟨hin, hfe⟩
    · rw [hnone] at h
      exact absurd h (by simp)
    · rw [ctl_port_deregister_ok c w port ht hin hfe] at h
      exact ⟨ht, hin, hfe, (Option.some.inj h).symm⟩

/-- Decoding the identifier that ctl_port_register builds gives back the raw
number, on both shelves. -/
theorem decode_targ_port_encode (c : ctl_consts) (master_shelf : Int) (m : Nat)
    (hm : m < c.CTL_MAX_PORTS) :
    decode_targ_port c ((m : Int) + (if master_shelf ≠ 0 then 0 else (c.CTL_MAX_PORTS : Int)))
      = (m : Int) := by
  unfold decode_targ_port
  by_cases hms : master_shelf = 0
  · have h1 : ¬ ((m : Int) + (c.CTL_MAX_PORTS : Int) < (c.CTL_MAX_PORTS : Int)) := by omega
    simp [hms, h1]
  · have h1 : (m : Int) < (c.CTL_MAX_PORTS : Int) := by omega
    simp [hms, h1]

/-- Deregistering the port that was just registered into `w` with raw number
`m`: what is left in memory. -/
theorem deregistered_registered_world (c : ctl_consts) (w : World) (port : Nat)
    (master_shelf : Int) (m : Nat) (pool : Nat) (hm : m < c.CTL_MAX_PORTS)
    (hfree : w.control_softc.ctl_port_mask (m : Int) = false)
    (hnotin : port ∉ w.control_softc.port_list)
    (hnotfe : port ∉ (w.frontends (w.ports port).frontend).port_list) :
    (deregistered_world c (registered_world c w port master_shelf (m : Int) pool) port).control_softc
      = { w.control_softc with
          ctl_ports := Function.update w.control_softc.ctl_ports (m : Int) none } ∧
    (deregistered_world c (registered_world c w port master_shelf (m : Int) pool) port).frontends
      = w.frontends := by
  have hdec := decode_targ_port_encode c master_shelf m hm
  simp only [ne_eq, ite_not] at hdec
  have hmask : (ctl_clear_mask (Function.update w.control_softc.ctl_port_mask (m : Int) true)
      (m : Int)).2 = w.control_softc.ctl_port_mask := by
    have := clear_set_mask w.control_softc.ctl_port_mask (m : Int) hfree
    simpa [ctl_set_mask, hfree] using this
  have hl : (w.control_softc.port_list ++ [port]).erase port = w.control_softc.port_list := by
    rw [List.erase_append_right _ hnotin]
    simp
  have hfl : ((w.frontends (w.ports port).frontend).port_list ++ [port]).erase port
      = (w.frontends (w.ports port).frontend).port_list := by
    rw [List.erase_append_right _ hnotfe]
    simp
  constructor
  · simp [deregistered_world, registered_world, hdec, hmask, hl]
  · simp [deregistered_world, registered_world, hfl]

/-- C6, counterexample: in the example system the port at address 5 is
registered and then deregistered with result 0.  Afterwards its targ_port is
still 0, not -1, its pool reference still names pool 7, and a second
ctl_port_deregister is not stopped by the sentinel test: it goes on to a
STAILQ_REMOVE of a port that is on no list, which has no defined result. -/
theorem C6_deregister_resets_port_counterexample :
    ∃ r : Result, ctl_port_deregister ex_consts ex_world_one 5 = some r ∧
      r.retval = 0 ∧
      (r.world.ports 5).targ_port = 0 ∧
      (r.world.ports 5).targ_port ≠ -1 ∧
      (r.world.ports 5).ctl_pool_ref = some 7 ∧
      ctl_port_deregister ex_consts r.world 5 = none := by
  refine ⟨_, ctl_port_deregister_ok ex_consts ex_world_one 5 (by decide) (by decide) (by decide),
    rfl, by decide, by decide, by decide, ?_⟩
  exact (ctl_port_deregister_cases ex_consts _ 5 (by decide)).resolve_right (by decide)

/-- C6, amended: after a ctl_port_deregister that returned 0, the port's
targ_port and pool reference hold the values they had before the call (so
targ_port is not the sentinel -1), its pool was handed to ctl_pool_free and
its option list was cleared; the port was on the global port list and on the
port list of its frontend, and one entry of it was taken off each of the two
lists.  A second ctl_port_deregister on the same port is therefore never
answered with 1 (NotRegistered). -/
theorem C6_deregister_keeps_port_fields (c : ctl_consts) (w : World) (port : Nat) (r : Result)
    (h : ctl_port_deregister c w port = some r) (hok : r.retval = 0) :
    (r.world.ports port).targ_port = (w.ports port).targ_port ∧
    (r.world.ports port).targ_port ≠ -1 ∧
    (r.world.ports port).ctl_pool_ref = (w.ports port).ctl_pool_ref ∧
    (r.world.ports port).options = ctl_free_opts (w.ports port).options ∧
    Event.ctl_pool_free (w.ports port).ctl_pool_ref ∈ r.trace ∧
    (port ∈ w.control_softc.port_list ∧
      r.world.control_softc.port_list = w.control_softc.port_list.erase port) ∧
    (port ∈ (w.frontends (w.ports port).frontend).port_list ∧
      (r.world.frontends (w.ports port).frontend).port_list
        = (w.frontends (w.ports port).frontend).port_list.erase port) ∧
    (∀ r2 : Result, ctl_port_deregister c r.world port = some r2 → r2.retval ≠ 1) := by
  rcases ctl_port_deregister_some c w port r h with ⟨_, hr⟩ | ⟨ht, hin, hinfe, hr⟩
  · rw [hr] at hok
    simp at hok
  · subst hr
    have htarg : ((deregistered_world c w port).ports port).targ_port
        = (w.ports port).targ_port := by
      simp [deregistered_world]
    refine ⟨htarg, by rw [htarg]; exact ht, by simp [deregistered_world],
      by simp [deregistered_world], by simp, ⟨hin, rfl⟩,
      ⟨hinfe, by simp [deregistered_world]⟩, ?_⟩
    intro r2 h2
    rcases ctl_port_deregister_some c _ port r2 h2 with ⟨ht2, _⟩ | ⟨_, _, _, hr2⟩
    · exact absurd (htarg ▸ ht2) ht
    · rw [hr2]
      simp

/-- Witness of the amended C6: the registered port of the example system. -/
theorem C6_deregister_keeps_port_fields_witness :
    ((deregistered_world ex_consts ex_world_one 5).ports 5).targ_port
      = (ex_world_one.ports 5).targ_port ∧
    ((deregistered_world ex_consts ex_world_one 5).ports 5).targ_port ≠ -1 ∧
    ((deregistered_world ex_consts ex_world_one 5).ports 5).ctl_pool_ref
      = (ex_world_one.ports 5).ctl_pool_ref ∧
    ((deregistered_world ex_consts ex_world_one 5).ports 5).options
      = ctl_free_opts (ex_world_one.ports 5).options ∧
    Event.ctl_pool_free (ex_world_one.ports 5).ctl_pool_ref ∈
      [Event.mtx_lock, Event.mtx_unlock,
       Event.ctl_pool_free (ex_world_one.ports 5).ctl_pool_ref, Event.ctl_free_opts 5] ∧
    (5 ∈ ex_world_one.control_softc.port_list ∧
      (deregistered_world ex_consts ex_world_one 5).control_softc.port_list
        = ex_world_one.control_softc.port_list.erase 5) ∧
    (5 ∈ (ex_world_one.frontends (ex_world_one.ports 5).frontend).port_list ∧
      ((deregistered_world ex_consts ex_world_one 5).frontends
          (ex_world_one.ports 5).frontend).port_list
        = (ex_world_one.frontends (ex_world_one.ports 5).frontend).port_list.erase 5) ∧
    (∀ r2 : Result,
      ctl_port_deregister ex_consts (deregistered_world ex_consts ex_world_one 5) 5 = some r2 →
        r2.retval ≠ 1) :=
  C6_deregister_keeps_port_fields ex_consts ex_world_one 5
    { retval := 0
      world := deregistered_world ex_consts ex_world_one 5
      trace := [Event.mtx_lock, Event.mtx_unlock,
                Event.ctl_pool_free (ex_world_one.ports 5).ctl_pool_ref,
                Event.ctl_free_opts 5] }
    (ctl_port_deregister_ok ex_consts ex_world_one 5 (by decide) (by decide) (by decide))
    rfl

/-- C7: round trip.  When the port is on neither the global port list nor its
frontend's port list and ctl_port_register returns 0 (so there was a free
slot n, the lowest one), on either shelf, the ctl_port_deregister that
follows returns 0; the raw number it decodes from targ_port is n; the port
mask, num_ports, the global port list, the frontend records with their port
lists, the frontend list and num_frontends are as before the registration,
and the table is as before except that slot n is empty; so the registry
record is the one before the registration whenever slot n was empty then. -/
theorem C7_register_deregister_round_trip (c : ctl_consts) (pool_create : Int → Int × Nat)
    (w : World) (port : Nat) (master_shelf : Int)
    (hnotin : port ∉ w.control_softc.port_list)
    (hnotfe : port ∉ (w.frontends (w.ports port).frontend).port_list)
    (hok : (ctl_port_register c pool_create w port master_shelf).retval = 0) :
    ∃ (r : Result) (n : Int),
      ctl_port_deregister c (ctl_port_register c pool_create w port master_shelf).world port
        = some r ∧
      r.retval = 0 ∧
      n = ctl_ffz w.control_softc.ctl_port_mask c.CTL_MAX_PORTS ∧
      0 ≤ n ∧ n < (c.CTL_MAX_PORTS : Int) ∧
      w.control_softc.ctl_port_mask n = false ∧
      decode_targ_port c
        ((ctl_port_register c pool_create w port master_shelf).world.ports port).targ_port = n ∧
      r.world.control_softc.ctl_port_mask = w.control_softc.ctl_port_mask ∧
      r.world.control_softc.ctl_ports = Function.update w.control_softc.ctl_ports n none ∧
      r.world.control_softc.num_ports = w.control_softc.num_ports ∧
      r.world.control_softc.port_list = w.control_softc.port_list ∧
      r.world.control_softc.fe_list = w.control_softc.fe_list ∧
      r.world.control_softc.num_frontends = w.control_softc.num_frontends ∧
      r.world.frontends = w.frontends ∧
      (w.control_softc.ctl_ports n = none → r.world.control_softc = w.control_softc) := by
  obtain ⟨m, hm1, hm2, hm3, _, hpool⟩ :=
    ctl_port_register_retval_zero c pool_create w port master_shelf hok
  rw [ctl_port_register_ok c pool_create w port master_shelf m hm2 hm3 hpool]
  have hdec := decode_targ_port_encode c master_shelf m hm1
  obtain ⟨hsoftc, hfes⟩ := deregistered_registered_world c w port master_shelf m
    (pool_create ((w.ports port).num_requested_ctl_io + 20)).2 hm1 hm3 hnotin hnotfe
  have htarg : ((registered_world c w port master_shelf (m : Int)
      (pool_create ((w.ports port).num_requested_ctl_io + 20)).2).ports port).targ_port
      = (m : Int) + (if master_shelf ≠ 0 then 0 else (c.CTL_MAX_PORTS : Int)) := by
    simp [registered_world]
  have hne : ((registered_world c w port master_shelf (m : Int)
      (pool_create ((w.ports port).num_requested_ctl_io + 20)).2).ports port).targ_port ≠ -1 := by
    rw [htarg]
    split <;> omega
  refine ⟨_, (m : Int), ctl_port_deregister_ok c _ port hne ?_ ?_, rfl, hm2.symm, by omega,
    by omega, hm3, ?_, ?_, ?_, ?_, ?_, ?_, ?_, ?_, ?_⟩
  · simp [registered_world]
  · simp [registered_world]
  · show decode_targ_port c _ = (m : Int)
    rw [htarg]
    exact hdec
  · show (deregistered_world c _ port).control_softc.ctl_port_mask = _
    rw [hsoftc]
  · show (deregistered_world c _ port).control_softc.ctl_ports = _
    rw [hsoftc]
  · show (deregistered_world c _ port).control_softc.num_ports = _
    rw [hsoftc]
  · show (deregistered_world c _ port).control_softc.port_list = _
    rw [hsoftc]
  · show (deregistered_world c _ port).control_softc.fe_list = _
    rw [hsoftc]
  · show (deregistered_world c _ port).control_softc.num_frontends = _
    rw [hsoftc]
  · exact hfes
  · intro hslot
    show (deregistered_world c _ port).control_softc = _
    rw [hsoftc]
    have : Function.update w.control_softc.ctl_ports (m : Int) none = w.control_softc.ctl_ports := by
      rw [← hslot]
      exact Function.update_eq_self _ _
    rw [this]

/-- Witness of C7: the port at address 5 of the example system, registered on
the secondary shelf into the empty registry and deregistered again. -/
theorem C7_register_deregister_round_trip_witness :
    ∃ (r : Result) (n : Int),
      ctl_port_deregister ex_consts (ctl_port_register ex_consts pool_ok ex_world 5 0).world 5
        = some r ∧
      r.retval = 0 ∧
      n = ctl_ffz ex_world.control_softc.ctl_port_mask ex_consts.CTL_MAX_PORTS ∧
      0 ≤ n ∧ n < (ex_consts.CTL_MAX_PORTS : Int) ∧
      ex_world.control_softc.ctl_port_mask n = false ∧
      decode_targ_port ex_consts
        ((ctl_port_register ex_consts pool_ok ex_world 5 0).world.ports 5).targ_port = n ∧
      r.world.control_softc.ctl_port_mask = ex_world.control_softc.ctl_port_mask ∧
      r.world.control_softc.ctl_ports = Function.update ex_world.control_softc.ctl_ports n none ∧
      r.world.control_softc.num_ports = ex_world.control_softc.num_ports ∧
      r.world.control_softc.port_list = ex_world.control_softc.port_list ∧
      r.world.control_softc.fe_list = ex_world.control_softc.fe_list ∧
      r.world.control_softc.num_frontends = ex_world.control_softc.num_frontends ∧
      r.world.frontends = ex_world.frontends ∧
      (ex_world.control_softc.ctl_ports n = none →
        r.world.control_softc = ex_world.control_softc) :=
  C7_register_deregister_round_trip ex_consts pool_ok ex_world 5 0
    (by decide) (by decide) (by decide)

/-- When the bit `m` is clear, every bit below it is set and the call returns
0, ctl_port_register takes raw number `m`. -/
theorem ctl_port_register_at (c : ctl_consts) (pool_create : Int → Int × Nat)
    (w : World) (port : Nat) (master_shelf : Int) (m : Nat) (hm : m < c.CTL_MAX_PORTS)
    (hfree : w.control_softc.ctl_port_mask (m : Int) = false)
    (hbelow : ∀ i : Nat, i < m → w.control_softc.ctl_port_mask (i : Int) = true)
    (hok : (ctl_port_register c pool_create w port master_shelf).retval = 0) :
    (ctl_port_register c pool_create w port master_shelf).world
      = registered_world c w port master_shelf (m : Int)
          (pool_create ((w.ports port).num_requested_ctl_io + 20)).2 := by
  obtain ⟨_, _, _, _, _, hpool⟩ :=
    ctl_port_register_retval_zero c pool_create w port master_shelf hok
  have hffz := ctl_ffz_eq w.control_softc.ctl_port_mask c.CTL_MAX_PORTS m hm hfree hbelow
  rw [ctl_port_register_ok c pool_create w port master_shelf m hffz hfree hpool]

/-- After a deregistration that went through, the bit of the decoded raw
number is clear and the other bits are as before. -/
theorem deregistered_world_mask (c : ctl_consts) (w : World) (port : Nat) (i : Int) :
    (deregistered_world c w port).control_softc.ctl_port_mask i =
      if i = decode_targ_port c (w.ports port).targ_port then false
      else w.control_softc.ctl_port_mask i := by
  by_cases hi : i = decode_targ_port c (w.ports port).targ_port
  · subst hi
    by_cases hb : w.control_softc.ctl_port_mask
        (decode_targ_port c (w.ports port).targ_port) = false
    · simp [deregistered_world, ctl_clear_mask, hb]
    · simp [deregistered_world, ctl_clear_mask, hb]
  · by_cases hb : w.control_softc.ctl_port_mask
        (decode_targ_port c (w.ports port).targ_port) = false
    · simp [deregistered_world, ctl_clear_mask, hb, hi]
    · simp [deregistered_world, ctl_clear_mask, hb, hi, Function.update]

/-- Slot reuse, the general step: when a deregistration has freed raw number
`n` and every raw number below `n` is in use, the next registration that
returns 0 takes raw number `n`. -/
theorem register_after_deregister (c : ctl_consts) (pool_create : Int → Int × Nat)
    (w : World) (port : Nat) (r : Result) (q : Nat) (master_shelf : Int) (n : Int)
    (hd : ctl_port_deregister c w port = some r) (hr : r.retval = 0)
    (hn : n = decode_targ_port c (w.ports port).targ_port)
    (hn0 : 0 ≤ n) (hnmax : n < (c.CTL_MAX_PORTS : Int))
    (hbelow : ∀ i : Int, 0 ≤ i → i < n → r.world.control_softc.ctl_port_mask i = true)
    (hok : (ctl_port_register c pool_create r.world q master_shelf).retval = 0) :
    r.world.control_softc.ctl_port_mask n = false ∧
    ctl_ffz r.world.control_softc.ctl_port_mask c.CTL_MAX_PORTS = n ∧
    (ctl_port_register c pool_create r.world q master_shelf).world.control_softc.ctl_port_mask n
      = true ∧
    (ctl_port_register c pool_create r.world q master_shelf).world.control_softc.ctl_ports n
      = some q ∧
    ((ctl_port_register c pool_create r.world q master_shelf).world.ports q).targ_port
      = n + (if master_shelf ≠ 0 then 0 else (c.CTL_MAX_PORTS : Int)) ∧
    decode_targ_port c
      ((ctl_port_register c pool_create r.world q master_shelf).world.ports q).targ_port = n := by
  have hclear : r.world.control_softc.ctl_port_mask n = false := by
    rcases ctl_port_deregister_some c w port r hd with ⟨_, hr1⟩ | ⟨_, _, _, hr1⟩
    · rw [hr1] at hr
      simp at hr
    · rw [hr1]
      show (deregistered_world c w port).control_softc.ctl_port_mask n = false
      rw [deregistered_world_mask, if_pos hn]
  obtain ⟨k, hk⟩ := Int.eq_ofNat_of_zero_le hn0
  rw [hk] at hclear hbelow hnmax ⊢
  have hk1 : k < c.CTL_MAX_PORTS := by omega
  have hffz := ctl_ffz_eq r.world.control_softc.ctl_port_mask c.CTL_MAX_PORTS k hk1 hclear
    (fun i hi => hbelow (i : Int) (by omega) (by omega))
  have hw := ctl_port_register_at c pool_create r.world q master_shelf k hk1 hclear
    (fun i hi => hbelow (i : Int) (by omega) (by omega)) hok
  rw [hw]
  have htarg : ((registered_world c r.world q master_shelf (k : Int)
      (pool_create ((r.world.ports q).num_requested_ctl_io + 20)).2).ports q).targ_port
      = (k : Int) + (if master_shelf ≠ 0 then 0 else (c.CTL_MAX_PORTS : Int)) := by
    simp [registered_world]
  refine ⟨hclear, hffz, by simp [registered_world], by simp [registered_world], htarg, ?_⟩
  rw [htarg]
  exact decode_targ_port_encode c master_shelf k hk1

/-- Registration does not change the owning frontend of any port. -/
theorem registered_world_frontend (c : ctl_consts) (w : World) (port : Nat)
    (master_shelf : Int) (m : Int) (pool : Nat) (q : Nat) :
    ((registered_world c w port master_shelf m pool).ports q).frontend
      = (w.ports q).frontend := by
  by_cases hq : q = port
  · subst hq
    simp [registered_world]
  · simp [registered_world, Function.update, hq]

/-- Registration changes no other port. -/
theorem registered_world_ports_ne (c : ctl_consts) (w : World) (port : Nat)
    (master_shelf : Int) (m : Int) (pool : Nat) (q : Nat) (hq : q ≠ port) :
    (registered_world c w port master_shelf m pool).ports q = w.ports q := by
  simp [registered_world, Function.update, hq]

/-- Registration removes nothing from any frontend's port list. -/
theorem registered_world_fe_list_mem (c : ctl_consts) (w : World) (port : Nat)
    (master_shelf : Int) (m : Int) (pool : Nat) (fe : Nat) (x : Nat)
    (hx : x ∈ (w.frontends fe).port_list) :
    x ∈ ((registered_world c w port master_shelf m pool).frontends fe).port_list := by
  by_cases hfe : fe = (w.ports port).frontend
  · subst hfe
    simp [registered_world, hx]
  · simp [registered_world, Function.update, hfe, hx]

/-- Registration puts the port on its frontend's port list. -/
theorem registered_world_fe_list_self (c : ctl_consts) (w : World) (port : Nat)
    (master_shelf : Int) (m : Int) (pool : Nat) :
    port ∈ ((registered_world c w port master_shelf m pool).frontends
      (w.ports port).frontend).port_list := by
  simp [registered_world]

/-- Three registrations that return 0, into a registry in which no port number
is in use: they take the raw numbers 0, 1 and 2, and afterwards the second
port is still linked under raw number 1. -/
theorem register_three (c : ctl_consts) (pc1 pc2 pc3 : Int → Int × Nat)
    (w0 : World) (a b p3 : Nat) (s1 s2 s3 : Int)
    (hmax : 3 ≤ c.CTL_MAX_PORTS)
    (hmask : ∀ i : Int, 0 ≤ i → i < (c.CTL_MAX_PORTS : Int) →
      w0.control_softc.ctl_port_mask i = false)
    (hne : b ≠ p3)
    (h1 : (ctl_port_register c pc1 w0 a s1).retval = 0)
    (h2 : (ctl_port_register c pc2 (ctl_port_register c pc1 w0 a s1).world b s2).retval = 0)
    (h3 : (ctl_port_register c pc3
      (ctl_port_register c pc2 (ctl_port_register c pc1 w0 a s1).world b s2).world
      p3 s3).retval = 0) :
    decode_targ_port c ((ctl_port_register c pc1 w0 a s1).world.ports a).targ_port = 0 ∧
    decode_targ_port c
      ((ctl_port_register c pc2 (ctl_port_register c pc1 w0 a s1).world b s2).world.ports
        b).targ_port = 1 ∧
    decode_targ_port c
      ((ctl_port_register c pc3
        (ctl_port_register c pc2 (ctl_port_register c pc1 w0 a s1).world b s2).world
        p3 s3).world.ports p3).targ_port = 2 ∧
    decode_targ_port c
      ((ctl_port_register c pc3
        (ctl_port_register c pc2 (ctl_port_register c pc1 w0 a s1).world b s2).world
        p3 s3).world.ports b).targ_port = 1 ∧
    ((ctl_port_register c pc3
        (ctl_port_register c pc2 (ctl_port_register c pc1 w0 a s1).world b s2).world
        p3 s3).world.ports b).targ_port ≠ -1 ∧
    b ∈ (ctl_port_register c pc3
        (ctl_port_register c pc2 (ctl_port_register c pc1 w0 a s1).world b s2).world
        p3 s3).world.control_softc.port_list ∧
    b ∈ ((ctl_port_register c pc3
        (ctl_port_register c pc2 (ctl_port_register c pc1 w0 a s1).world b s2).world
        p3 s3).world.frontends
          ((ctl_port_register c pc3
            (ctl_port_register c pc2 (ctl_port_register c pc1 w0 a s1).world b s2).world
            p3 s3).world.ports b).frontend).port_list ∧
    (ctl_port_register c pc3
        (ctl_port_register c pc2 (ctl_port_register c pc1 w0 a s1).world b s2).world
        p3 s3).world.control_softc.ctl_port_mask 0 = true := by
  have m0 : w0.control_softc.ctl_port_mask ((0 : Nat) : Int) = false :=
    hmask _ (by omega) (by omega)
  have m1 : w0.control_softc.ctl_port_mask ((1 : Nat) : Int) = false :=
    hmask _ (by omega) (by omega)
  have m2 : w0.control_softc.ctl_port_mask ((2 : Nat) : Int) = false :=
    hmask _ (by omega) (by omega)
  have e1 := ctl_port_register_at c pc1 w0 a s1 0 (by omega) m0 (fun i hi => by omega) h1
  rw [e1] at h2 h3 ⊢
  have e2 := ctl_port_register_at c pc2 _ b s2 1 (by omega)
    (by simpa [registered_world, Function.update] using m1)
    (fun i hi => by
      have : i = 0 := by omega
      subst this
      simp [registered_world]) h2
  rw [e2] at h3 ⊢
  have e3 := ctl_port_register_at c pc3 _ p3 s3 2 (by omega)
    (by simpa [registered_world, Function.update] using m2)
    (fun i hi => by
      have : i = 0 ∨ i = 1 := by omega
      rcases this with h | h <;> subst h <;> simp [registered_world, Function.update]) h3
  rw [e3]
  have d0 := decode_targ_port_encode c s1 0 (by omega)
  have d1 := decode_targ_port_encode c s2 1 (by omega)
  have d2 := decode_targ_port_encode c s3 2 (by omega)
  simp only [ne_eq, ite_not, Nat.cast_zero, Nat.cast_one, Nat.cast_ofNat] at d0 d1 d2
  refine ⟨?_, ?_, ?_, ?_, ?_, ?_, ?_, ?_⟩
  · simpa [registered_world] using d0
  · simpa [registered_world] using d1
  · simpa [registered_world] using d2
  · simpa [registered_world, Function.update, hne] using d1
  · simp only [registered_world, Function.update, hne]
    simp
    split <;> omega
  · simp [registered_world]
  · rw [registered_world_frontend, registered_world_frontend]
    apply registered_world_fe_list_mem
    exact registered_world_fe_list_self _ _ _ _ _ _
  · simp [registered_world, Function.update]

/-- C8: slot reuse.  First part: in a registry with no port number in use and
all port lists empty, and with at least three port numbers, four different
ports are taken; three registrations that return 0 give the raw numbers 0, 1
and 2; the deregistration of the second port returns 0; a registration of the
fourth port that returns 0 then gives it raw number 1.  Second part, in
general: when a ctl_port_deregister that returned 0 has freed raw number n and
every raw number below n is in use, the next ctl_port_register that returns 0
assigns raw number n. -/
theorem C8_slot_reuse :
    (∀ (c : ctl_consts) (pc1 pc2 pc3 pc4 : Int → Int × Nat) (w0 : World)
      (a b p3 d : Nat) (s1 s2 s3 s4 : Int),
      3 ≤ c.CTL_MAX_PORTS →
      (∀ i : Int, 0 ≤ i → i < (c.CTL_MAX_PORTS : Int) →
        w0.control_softc.ctl_port_mask i = false) →
      w0.control_softc.port_list = [] →
      (∀ fe : Nat, (w0.frontends fe).port_list = []) →
      [a, b, p3, d].Nodup →
      (ctl_port_register c pc1 w0 a s1).retval = 0 →
      (ctl_port_register c pc2 (ctl_port_register c pc1 w0 a s1).world b s2).retval = 0 →
      (ctl_port_register c pc3
        (ctl_port_register c pc2 (ctl_port_register c pc1 w0 a s1).world b s2).world
        p3 s3).retval = 0 →
      decode_targ_port c ((ctl_port_register c pc1 w0 a s1).world.ports a).targ_port = 0 ∧
      decode_targ_port c
        ((ctl_port_register c pc2 (ctl_port_register c pc1 w0 a s1).world b s2).world.ports
          b).targ_port = 1 ∧
      decode_targ_port c
        ((ctl_port_register c pc3
          (ctl_port_register c pc2 (ctl_port_register c pc1 w0 a s1).world b s2).world
          p3 s3).world.ports p3).targ_port = 2 ∧
      ∃ r4 : Result,
        ctl_port_deregister c
          (ctl_port_register c pc3
            (ctl_port_register c pc2 (ctl_port_register c pc1 w0 a s1).world b s2).world
            p3 s3).world b = some r4 ∧
        r4.retval = 0 ∧
        ((ctl_port_register c pc4 r4.world d s4).retval = 0 →
          decode_targ_port c
            ((ctl_port_register c pc4 r4.world d s4).world.ports d).targ_port = 1 ∧
          (ctl_port_register c pc4 r4.world d s4).world.control_softc.ctl_ports 1 = some d ∧
          (ctl_port_register c pc4 r4.world d s4).world.control_softc.ctl_port_mask 1 = true)) ∧
    (∀ (c : ctl_consts) (pool_create : Int → Int × Nat) (w : World) (port : Nat)
      (r : Result) (q : Nat) (master_shelf : Int) (n : Int),
      ctl_port_deregister c w port = some r → r.retval = 0 →
      n = decode_targ_port c (w.ports port).targ_port →
      0 ≤ n → n < (c.CTL_MAX_PORTS : Int) →
      (∀ i : Int, 0 ≤ i → i < n → r.world.control_softc.ctl_port_mask i = true) →
      (ctl_port_register c pool_create r.world q master_shelf).retval = 0 →
      r.world.control_softc.ctl_port_mask n = false ∧
      ctl_ffz r.world.control_softc.ctl_port_mask c.CTL_MAX_PORTS = n ∧
      (ctl_port_register c pool_create r.world q master_shelf).world.control_softc.ctl_port_mask n
        = true ∧
      (ctl_port_register c pool_create r.world q master_shelf).world.control_softc.ctl_ports n
        = some q ∧
      decode_targ_port c
        ((ctl_port_register c pool_create r.world q master_shelf).world.ports q).targ_port
        = n) := by
  constructor
  · intro c pc1 pc2 pc3 pc4 w0 a b p3 d s1 s2 s3 s4 hmax hmask _ _ hnd h1 h2 h3
    have hne : b ≠ p3 := by
      intro h
      subst h
      simp at hnd
    obtain ⟨t1, t2, t3, t4, t5, t6, t7, t8⟩ :=
      register_three c pc1 pc2 pc3 w0 a b p3 s1 s2 s3 hmax hmask hne h1 h2 h3
    refine ⟨t1, t2, t3, _, ctl_port_deregister_ok c _ b t5 t6 t7, rfl, ?_⟩
    intro h4
    have hd := ctl_port_deregister_ok c _ b t5 t6 t7
    obtain ⟨_, _, g3, g4, _, g6⟩ := register_after_deregister c pc4 _ b _ d s4 1 hd rfl
      t4.symm (by omega) (by omega)
      (by
        intro i hi0 hi1
        have hi : i = 0 := by omega
        subst hi
        show (deregistered_world c _ b).control_softc.ctl_port_mask 0 = true
        rw [deregistered_world_mask, t4]
        simpa using t8) h4
    exact ⟨g6, g4, g3⟩
  · intro c pool_create w port r q master_shelf n hd hr hn hn0 hnmax hbelow hok
    obtain ⟨g1, g2, g3, g4, _, g6⟩ :=
      register_after_deregister c pool_create w port r q master_shelf n hd hr hn hn0 hnmax
        hbelow hok
    exact ⟨g1, g2, g3, g4, g6⟩

/-- Witness of C8: the scenario in the example system with the ports at the
addresses 10, 11, 12 and 13, and the general step for port 11 of the
full example registry followed by the registration of port 14. -/
theorem C8_slot_reuse_witness :
    (decode_targ_port ex_consts
        ((ctl_port_register ex_consts pool_ok ex_world 10 1).world.ports 10).targ_port = 0 ∧
      decode_targ_port ex_consts
        ((ctl_port_register ex_consts pool_ok
          (ctl_port_register ex_consts pool_ok ex_world 10 1).world 11 1).world.ports
          11).targ_port = 1 ∧
      decode_targ_port ex_consts
        ((ctl_port_register ex_consts pool_ok
          (ctl_port_register ex_consts pool_ok
            (ctl_port_register ex_consts pool_ok ex_world 10 1).world 11 1).world
          12 1).world.ports 12).targ_port = 2 ∧
      ∃ r4 : Result,
        ctl_port_deregister ex_consts
          (ctl_port_register ex_consts pool_ok
            (ctl_port_register ex_consts pool_ok
              (ctl_port_register ex_consts pool_ok ex_world 10 1).world 11 1).world
            12 1).world 11 = some r4 ∧
        r4.retval = 0 ∧
        ((ctl_port_register ex_consts pool_ok r4.world 13 1).retval = 0 →
          decode_targ_port ex_consts
            ((ctl_port_register ex_consts pool_ok r4.world 13 1).world.ports 13).targ_port = 1 ∧
          (ctl_port_register ex_consts pool_ok r4.world 13 1).world.control_softc.ctl_ports 1
            = some 13 ∧
          (ctl_port_register ex_consts pool_ok r4.world 13 1).world.control_softc.ctl_port_mask 1
            = true)) ∧
    (ex_full_minus_11.world.control_softc.ctl_port_mask 1 = false ∧
      ctl_ffz ex_full_minus_11.world.control_softc.ctl_port_mask ex_consts.CTL_MAX_PORTS = 1 ∧
      (ctl_port_register ex_consts pool_ok ex_full_minus_11.world 14 0).world.control_softc.ctl_port_mask 1
        = true ∧
      (ctl_port_register ex_consts pool_ok ex_full_minus_11.world 14 0).world.control_softc.ctl_ports 1
        = some 14 ∧
      decode_targ_port ex_consts
        ((ctl_port_register ex_consts pool_ok ex_full_minus_11.world 14 0).world.ports 14).targ_port
        = 1) :=
  ⟨C8_slot_reuse.1 ex_consts pool_ok pool_ok pool_ok pool_ok ex_world 10 11 12 13 1 1 1 1
      (by decide) (fun _ _ _ => rfl) rfl (fun _ => rfl)
      (by decide) (by decide) (by decide) (by decide),
   C8_slot_reuse.2 ex_consts pool_ok ex_full_world 11 ex_full_minus_11 14 0 1
      (ctl_port_deregister_ok ex_consts ex_full_world 11
        (by decide!) (by decide!) (by decide!))
      rfl (by decide!) (by decide) (by decide)
      (by
        intro i h0 h1
        have hi : i = 0 := by omega
        subst hi
        decide!)
      (by decide!)⟩

/-- C9: in a registry state with a free slot, when ctl_port_register of port A
fails because ctl_pool_create fails, the raw number m it had reserved (the
lowest free one) is free again afterwards, and the ctl_port_register of a port
B that follows, with a pool creation that succeeds, returns 0 and assigns B
that same raw number m. -/
theorem C9_rolled_back_number_is_reused (c : ctl_consts) (pcA pcB : Int → Int × Nat)
    (w : World) (A B : Nat) (sA sB : Int) (n : Int)
    (hn0 : 0 ≤ n) (hn : n < (c.CTL_MAX_PORTS : Int))
    (hfree : w.control_softc.ctl_port_mask n = false)
    (hfailA : (pcA ((w.ports A).num_requested_ctl_io + 20)).1 ≠ 0)
    (hokB : (pcB ((w.ports B).num_requested_ctl_io + 20)).1 = 0) :
    (ctl_port_register c pcA w A sA).retval ≠ 0 ∧
    (ctl_port_register c pcB (ctl_port_register c pcA w A sA).world B sB).retval = 0 ∧
    ∃ m : Int, m = ctl_ffz w.control_softc.ctl_port_mask c.CTL_MAX_PORTS ∧
      0 ≤ m ∧ m < (c.CTL_MAX_PORTS : Int) ∧
      w.control_softc.ctl_port_mask m = false ∧
      (ctl_port_register c pcA w A sA).world.control_softc.ctl_port_mask m = false ∧
      m = ctl_ffz (ctl_port_register c pcA w A sA).world.control_softc.ctl_port_mask
            c.CTL_MAX_PORTS ∧
      (ctl_port_register c pcB (ctl_port_register c pcA w A sA).world B sB).world.control_softc.ctl_port_mask m
        = true ∧
      (ctl_port_register c pcB (ctl_port_register c pcA w A sA).world B sB).world.control_softc.ctl_ports m
        = some B ∧
      ((ctl_port_register c pcB (ctl_port_register c pcA w A sA).world B sB).world.ports B).targ_port
        = m + (if sB ≠ 0 then 0 else (c.CTL_MAX_PORTS : Int)) ∧
      decode_targ_port c
        ((ctl_port_register c pcB (ctl_port_register c pcA w A sA).world B sB).world.ports B).targ_port
        = m := by
  obtain ⟨k, hk⟩ := Int.eq_ofNat_of_zero_le hn0
  subst hk
  rcases ctl_ffz_of_free w.control_softc.ctl_port_mask c.CTL_MAX_PORTS k (by omega) hfree with
    ⟨m, _, hm2, hm3, hm4, _⟩
  have hA := ctl_port_register_poolfail c pcA w A sA m hm3 hm4 hfailA
  rw [hA]
  have hcap : ((Function.update w.ports A { w.ports A with targ_port := -1 }) B).num_requested_ctl_io
      = (w.ports B).num_requested_ctl_io := by
    by_cases hAB : B = A
    · subst hAB
      simp
    · simp [Function.update, hAB]
  have hB := ctl_port_register_ok c pcB
    { control_softc := { w.control_softc with num_ports := w.control_softc.num_ports + 1 }
      frontends := w.frontends
      ports := Function.update w.ports A { w.ports A with targ_port := -1 } }
    B sB m hm3 hm4 (by rw [hcap]; exact hokB)
  rw [hB]
  have htarg : ((registered_world c
      { control_softc := { w.control_softc with num_ports := w.control_softc.num_ports + 1 }
        frontends := w.frontends
        ports := Function.update w.ports A { w.ports A with targ_port := -1 } }
      B sB (m : Int)
      (pcB ((Function.update w.ports A { w.ports A with targ_port := -1 } B).num_requested_ctl_io
        + 20)).2).ports B).targ_port
      = (m : Int) + (if sB ≠ 0 then 0 else (c.CTL_MAX_PORTS : Int)) := by
    simp [registered_world]
  refine ⟨hfailA, rfl, (m : Int), hm3.symm, by omega, by omega, hm4, hm4, hm3.symm, ?_, ?_,
    htarg, ?_⟩
  · simp [registered_world]
  · simp [registered_world]
  · rw [htarg]
    exact decode_targ_port_encode c sB m hm2

/-- Witness of C9 in the example system: port 5 fails on its pool, port 6 is
registered next. -/
theorem C9_rolled_back_number_is_reused_witness :
    (ctl_port_register ex_consts pool_fail ex_world 5 1).retval ≠ 0 ∧
    (ctl_port_register ex_consts pool_ok
      (ctl_port_register ex_consts pool_fail ex_world 5 1).world 6 1).retval = 0 ∧
    ∃ m : Int, m = ctl_ffz ex_world.control_softc.ctl_port_mask ex_consts.CTL_MAX_PORTS ∧
      0 ≤ m ∧ m < (ex_consts.CTL_MAX_PORTS : Int) ∧
      ex_world.control_softc.ctl_port_mask m = false ∧
      (ctl_port_register ex_consts pool_fail ex_world 5 1).world.control_softc.ctl_port_mask m
        = false ∧
      m = ctl_ffz (ctl_port_register ex_consts pool_fail ex_world 5 1).world.control_softc.ctl_port_mask
            ex_consts.CTL_MAX_PORTS ∧
      (ctl_port_register ex_consts pool_ok
        (ctl_port_register ex_consts pool_fail ex_world 5 1).world 6 1).world.control_softc.ctl_port_mask m
        = true ∧
      (ctl_port_register ex_consts pool_ok
        (ctl_port_register ex_consts pool_fail ex_world 5 1).world 6 1).world.control_softc.ctl_ports m
        = some 6 ∧
      ((ctl_port_register ex_consts pool_ok
        (ctl_port_register ex_consts pool_fail ex_world 5 1).world 6 1).world.ports 6).targ_port
        = m + (if (1 : Int) ≠ 0 then 0 else (ex_consts.CTL_MAX_PORTS : Int)) ∧
      decode_targ_port ex_consts
        ((ctl_port_register ex_consts pool_ok
          (ctl_port_register ex_consts pool_fail ex_world 5 1).world 6 1).world.ports 6).targ_port
        = m :=
  C9_rolled_back_number_is_reused ex_consts pool_fail pool_ok ex_world 5 6 1 1 3
    (by decide) (by decide) (by decide) (by decide) (by decide)

/-! ## Frontend registration -/

/-- The duplicate path of ctl_frontend_register. -/
theorem ctl_frontend_register_dup (cb : Callbacks) (w : World) (fe : Nat)
    (hdup : ∃ fe_tmp ∈ w.control_softc.fe_list,
      (w.frontends fe_tmp).name = (w.frontends fe).name) :
    ctl_frontend_register cb w fe =
      { retval := -1, world := w, trace := [Event.mtx_lock, Event.mtx_unlock] } := by
  have hany : (w.control_softc.fe_list.any
      (fun fe_tmp => (w.frontends fe_tmp).name == (w.frontends fe).name)) = true := by
    rw [List.any_eq_true]
    obtain ⟨x, hx, hname⟩ := hdup
    exact ⟨x, hx, by simp [hname]⟩
  unfold ctl_frontend_register
  rw [if_pos hany]

/-- The first registration into an empty frontend list, with an init routine
that leaves the registry record alone: the list holds the frontend, the count
is one higher. -/
theorem ctl_frontend_register_first (cb : Callbacks) (w : World) (fe : Nat)
    (hempty : w.control_softc.fe_list = [])
    (hcb : ∀ (fn : Nat) (v : World), (cb.call0 fn v).control_softc = v.control_softc ∧
      ∀ a : Nat, ((cb.call0 fn v).frontends a).name = (v.frontends a).name) :
    (ctl_frontend_register cb w fe).retval = 0 ∧
    (ctl_frontend_register cb w fe).world.control_softc.fe_list = [fe] ∧
    (ctl_frontend_register cb w fe).world.control_softc.num_frontends
      = w.control_softc.num_frontends + 1 ∧
    ∀ a : Nat, ((ctl_frontend_register cb w fe).world.frontends a).name
      = (w.frontends a).name := by
  have hname : ∀ a : Nat,
      ((w.upd_frontend fe (fun f => { f with port_list := [] })).frontends a).name
        = (w.frontends a).name := by
    intro a
    by_cases ha : a = fe
    · subst ha
      simp [World.upd_frontend]
    · simp [World.upd_frontend, Function.update, ha]
  unfold ctl_frontend_register
  simp only [hempty, List.any_nil, Bool.false_eq_true, if_false]
  cases hinit : ((w.upd_frontend fe (fun f => { f with port_list := [] })).frontends fe).init with
  | none =>
    refine ⟨trivial, ?_, ?_, ?_⟩
    · simp [World.upd_softc, World.upd_frontend, STAILQ_INSERT_TAIL, hempty]
    · simp [World.upd_softc, World.upd_frontend]
    · intro a
      exact hname a
  | some fn =>
    obtain ⟨hs, hn⟩ := hcb fn (w.upd_frontend fe (fun f => { f with port_list := [] }))
    refine ⟨trivial, ?_, ?_, ?_⟩
    · simp [World.upd_softc, STAILQ_INSERT_TAIL, hs]
      simp [World.upd_frontend, hempty]
    · simp [World.upd_softc, hs]
      simp [World.upd_frontend]
    · intro a
      simp only [World.upd_softc]
      rw [hn a]
      exact hname a

/-- C10: when the frontend list already holds a frontend with the name of fe,
ctl_frontend_register(fe) returns -1, calls no init routine and leaves memory
(the frontend list and num_frontends in it) unchanged.  In particular: in a
registry with an empty frontend list and num_frontends 0, with init routines
that do not touch the registry record or the frontend names, registering a
frontend returns 0, registering a second one with the same name returns -1,
and afterwards the list holds the first frontend only and num_frontends
is 1. -/
theorem C10_duplicate_frontend_name :
    (∀ (cb : Callbacks) (w : World) (fe : Nat),
      (∃ fe_tmp ∈ w.control_softc.fe_list,
        (w.frontends fe_tmp).name = (w.frontends fe).name) →
      (ctl_frontend_register cb w fe).retval = -1 ∧
      (ctl_frontend_register cb w fe).world = w ∧
      (ctl_frontend_register cb w fe).world.control_softc.fe_list = w.control_softc.fe_list ∧
      (ctl_frontend_register cb w fe).world.control_softc.num_frontends
        = w.control_softc.num_frontends ∧
      (∀ fn : Nat, Event.fe_init fn ∉ (ctl_frontend_register cb w fe).trace)) ∧
    (∀ (cb : Callbacks) (w : World) (fe1 fe2 : Nat),
      w.control_softc.fe_list = [] →
      w.control_softc.num_frontends = 0 →
      (w.frontends fe1).name = (w.frontends fe2).name →
      (∀ (fn : Nat) (v : World), (cb.call0 fn v).control_softc = v.control_softc ∧
        ∀ a : Nat, ((cb.call0 fn v).frontends a).name = (v.frontends a).name) →
      (ctl_frontend_register cb w fe1).retval = 0 ∧
      (ctl_frontend_register cb (ctl_frontend_register cb w fe1).world fe2).retval = -1 ∧
      (ctl_frontend_register cb
        (ctl_frontend_register cb w fe1).world fe2).world.control_softc.num_frontends = 1 ∧
      (ctl_frontend_register cb
        (ctl_frontend_register cb w fe1).world fe2).world.control_softc.fe_list = [fe1]) := by
  constructor
  · intro cb w fe hdup
    rw [ctl_frontend_register_dup cb w fe hdup]
    refine ⟨rfl, rfl, rfl, rfl, ?_⟩
    intro fn
    simp
  · intro cb w fe1 fe2 hempty hzero hname hcb
    obtain ⟨h1, h2, h3, h4⟩ := ctl_frontend_register_first cb w fe1 hempty hcb
    have hdup : ∃ fe_tmp ∈ (ctl_frontend_register cb w fe1).world.control_softc.fe_list,
        ((ctl_frontend_register cb w fe1).world.frontends fe_tmp).name
          = ((ctl_frontend_register cb w fe1).world.frontends fe2).name := by
      refine ⟨fe1, by rw [h2]; simp, ?_⟩
      rw [h4 fe1, h4 fe2]
      exact hname
    rw [ctl_frontend_register_dup cb _ fe2 hdup]
    refine ⟨h1, rfl, ?_, h2⟩
    show (ctl_frontend_register cb w fe1).world.control_softc.num_frontends = 1
    rw [h3, hzero]
    rfl

/-- Witness of C10 in the example system: the frontends at the addresses 1 and
2 are both called "iscsi". -/
theorem C10_duplicate_frontend_name_witness :
    ((ctl_frontend_register ex_callbacks
        (ctl_frontend_register ex_callbacks ex_world 1).world 2).retval = -1 ∧
      (ctl_frontend_register ex_callbacks
        (ctl_frontend_register ex_callbacks ex_world 1).world 2).world
        = (ctl_frontend_register ex_callbacks ex_world 1).world ∧
      (ctl_frontend_register ex_callbacks
        (ctl_frontend_register ex_callbacks ex_world 1).world 2).world.control_softc.fe_list
        = (ctl_frontend_register ex_callbacks ex_world 1).world.control_softc.fe_list ∧
      (ctl_frontend_register ex_callbacks
        (ctl_frontend_register ex_callbacks ex_world 1).world 2).world.control_softc.num_frontends
        = (ctl_frontend_register ex_callbacks ex_world 1).world.control_softc.num_frontends ∧
      (∀ fn : Nat, Event.fe_init fn ∉
        (ctl_frontend_register ex_callbacks
          (ctl_frontend_register ex_callbacks ex_world 1).world 2).trace)) ∧
    ((ctl_frontend_register ex_callbacks ex_world 1).retval = 0 ∧
      (ctl_frontend_register ex_callbacks
        (ctl_frontend_register ex_callbacks ex_world 1).world 2).retval = -1 ∧
      (ctl_frontend_register ex_callbacks
        (ctl_frontend_register ex_callbacks ex_world 1).world 2).world.control_softc.num_frontends
        = 1 ∧
      (ctl_frontend_register ex_callbacks
        (ctl_frontend_register ex_callbacks ex_world 1).world 2).world.control_softc.fe_list
        = [1]) :=
  ⟨C10_duplicate_frontend_name.1 ex_callbacks
      (ctl_frontend_register ex_callbacks ex_world 1).world 2 ⟨1, by decide, by decide⟩,
   C10_duplicate_frontend_name.2 ex_callbacks ex_world 1 2 rfl rfl (by decide)
      (fun _ _ => ⟨rfl, fun _ => rfl⟩)⟩

/-! ## Frontend registration and deregistration, the paths -/

/-- The path of ctl_frontend_register on which no frontend of the list has the
name of `fe`. -/
theorem ctl_frontend_register_new (cb : Callbacks) (w : World) (fe : Nat)
    (hnew : ∀ x ∈ w.control_softc.fe_list, (w.frontends x).name ≠ (w.frontends fe).name) :
    ctl_frontend_register cb w fe =
      { retval := 0
        world :=
          { control_softc :=
              { (frontend_init_world cb w fe).control_softc with
                num_frontends := (frontend_init_world cb w fe).control_softc.num_frontends + 1
                fe_list := (frontend_init_world cb w fe).control_softc.fe_list ++ [fe] }
            frontends := (frontend_init_world cb w fe).frontends
            ports := (frontend_init_world cb w fe).ports }
        trace := [Event.mtx_lock, Event.mtx_unlock] ++
          (match (w.frontends fe).init with
           | some fn => [Event.fe_init fn]
           | none => []) ++ [Event.mtx_lock, Event.mtx_unlock] } := by
  have hany : ¬ (w.control_softc.fe_list.any
      (fun fe_tmp => (w.frontends fe_tmp).name == (w.frontends fe).name)) = true := by
    rw [List.any_eq_true]
    rintro ⟨x, hx, hname⟩
    exact hnew x hx (by simpa using hname)
  have hinit : ((w.upd_frontend fe (fun f => { f with port_list := [] })).frontends fe).init
      = (w.frontends fe).init := by
    simp [World.upd_frontend]
  unfold ctl_frontend_register
  rw [if_neg hany]
  simp only [hinit, frontend_init_world, frontend_list_init, World.upd_softc,
    STAILQ_INSERT_TAIL]

/-- A call of ctl_frontend_register that returns 0 found no frontend with the
name of `fe` on the list. -/
theorem ctl_frontend_register_retval_zero (cb : Callbacks) (w : World) (fe : Nat)
    (hok : (ctl_frontend_register cb w fe).retval = 0) :
    ∀ x ∈ w.control_softc.fe_list, (w.frontends x).name ≠ (w.frontends fe).name := by
  intro x hx hname
  rw [ctl_frontend_register_dup cb w fe ⟨x, hx, hname⟩] at hok
  simp at hok

/-- C11: when no frontend of the frontend list has the name of fe,
ctl_frontend_register(fe) returns 0; it sets fe's port list to the empty list
before it calls fe's init routine (if there is one); to the memory the init
routine leaves it appends fe at the tail of the frontend list and adds one to
num_frontends, and changes nothing else.  So with no init routine, or with one
that leaves the registry record and fe's record alone, fe's port list is empty
afterwards, the frontend list is the old list followed by fe, and
num_frontends is the old count plus one. -/
theorem C11_frontend_register_new_name (cb : Callbacks) (w : World) (fe : Nat)
    (hnew : ∀ x ∈ w.control_softc.fe_list, (w.frontends x).name ≠ (w.frontends fe).name) :
    (ctl_frontend_register cb w fe).retval = 0 ∧
    ((frontend_list_init w fe).frontends fe).port_list = [] ∧
    (frontend_list_init w fe).control_softc = w.control_softc ∧
    (ctl_frontend_register cb w fe).world.control_softc.fe_list
      = (frontend_init_world cb w fe).control_softc.fe_list ++ [fe] ∧
    (ctl_frontend_register cb w fe).world.control_softc.num_frontends
      = (frontend_init_world cb w fe).control_softc.num_frontends + 1 ∧
    (ctl_frontend_register cb w fe).world.frontends = (frontend_init_world cb w fe).frontends ∧
    (((frontend_init_world cb w fe).control_softc = w.control_softc ∧
      (frontend_init_world cb w fe).frontends fe = (frontend_list_init w fe).frontends fe) →
      ((ctl_frontend_register cb w fe).world.frontends fe).port_list = [] ∧
      (ctl_frontend_register cb w fe).world.control_softc.fe_list
        = w.control_softc.fe_list ++ [fe] ∧
      (ctl_frontend_register cb w fe).world.control_softc.num_frontends
        = w.control_softc.num_frontends + 1) := by
  rw [ctl_frontend_register_new cb w fe hnew]
  refine ⟨rfl, ?_, rfl, rfl, rfl, rfl, ?_⟩
  · simp [frontend_list_init, World.upd_frontend]
  · rintro ⟨hs, hf⟩
    refine ⟨?_, ?_, ?_⟩
    · show ((frontend_init_world cb w fe).frontends fe).port_list = []
      rw [hf]
      simp [frontend_list_init, World.upd_frontend]
    · show (frontend_init_world cb w fe).control_softc.fe_list ++ [fe] = _
      rw [hs]
    · show (frontend_init_world cb w fe).control_softc.num_frontends + 1 = _
      rw [hs]

/-- Witness of C11: the frontend at address 1 registered into the empty example
registry. -/
theorem C11_frontend_register_new_name_witness :
    (ctl_frontend_register ex_callbacks ex_world 1).retval = 0 ∧
    ((frontend_list_init ex_world 1).frontends 1).port_list = [] ∧
    (frontend_list_init ex_world 1).control_softc = ex_world.control_softc ∧
    (ctl_frontend_register ex_callbacks ex_world 1).world.control_softc.fe_list
      = (frontend_init_world ex_callbacks ex_world 1).control_softc.fe_list ++ [1] ∧
    (ctl_frontend_register ex_callbacks ex_world 1).world.control_softc.num_frontends
      = (frontend_init_world ex_callbacks ex_world 1).control_softc.num_frontends + 1 ∧
    (ctl_frontend_register ex_callbacks ex_world 1).world.frontends
      = (frontend_init_world ex_callbacks ex_world 1).frontends ∧
    (((frontend_init_world ex_callbacks ex_world 1).control_softc = ex_world.control_softc ∧
      (frontend_init_world ex_callbacks ex_world 1).frontends 1
        = (frontend_list_init ex_world 1).frontends 1) →
      ((ctl_frontend_register ex_callbacks ex_world 1).world.frontends 1).port_list = [] ∧
      (ctl_frontend_register ex_callbacks ex_world 1).world.control_softc.fe_list
        = ex_world.control_softc.fe_list ++ [1] ∧
      (ctl_frontend_register ex_callbacks ex_world 1).world.control_softc.num_frontends
        = ex_world.control_softc.num_frontends + 1) :=
  C11_frontend_register_new_name ex_callbacks ex_world 1 (by decide)

/-- The path of ctl_frontend_deregister for a frontend that still has ports. -/
theorem ctl_frontend_deregister_busy (cb : Callbacks) (w : World) (fe : Nat)
    (h : (w.frontends fe).port_list ≠ []) :
    ctl_frontend_deregister cb w fe = some { retval := -1, world := w, trace := [] } := by
  unfold ctl_frontend_deregister
  rw [if_pos h]

/-- The path of ctl_frontend_deregister for a frontend without ports that is
on the frontend list. -/
theorem ctl_frontend_deregister_ok (cb : Callbacks) (w : World) (fe : Nat)
    (h : (w.frontends fe).port_list = [])
    (hin : fe ∈ w.control_softc.fe_list) :
    ctl_frontend_deregister cb w fe =
      some { retval := 0
             world :=
               match (w.frontends fe).shutdown with
               | some fn => cb.call0 fn (frontend_removed_world w fe)
               | none => frontend_removed_world w fe
             trace :=
               match (w.frontends fe).shutdown with
               | some fn => [Event.mtx_lock, Event.mtx_unlock, Event.fe_shutdown fn]
               | none => [Event.mtx_lock, Event.mtx_unlock] } := by
  unfold ctl_frontend_deregister
  simp only [h, ne_eq, not_true_eq_false, if_false, STAILQ_REMOVE, hin, if_true,
    World.upd_softc]
  cases hs : (w.frontends fe).shutdown <;> rfl

/-- The path of ctl_frontend_deregister for a frontend without ports that is
not on the frontend list: the STAILQ_REMOVE is not defined. -/
theorem ctl_frontend_deregister_absent (cb : Callbacks) (w : World) (fe : Nat)
    (h : (w.frontends fe).port_list = [])
    (hout : fe ∉ w.control_softc.fe_list) :
    ctl_frontend_deregister cb w fe = none := by
  unfold ctl_frontend_deregister
  simp [h, STAILQ_REMOVE, hout]

/-- C12: for a frontend whose port list is not empty, ctl_frontend_deregister
returns -1, leaves memory (the frontend list and num_frontends in it) as it
was, and has no event: the shutdown routine is not called. -/
theorem C12_frontend_deregister_ports_attached (cb : Callbacks) (w : World) (fe : Nat)
    (h : (w.frontends fe).port_list ≠ []) :
    ∃ r : Result, ctl_frontend_deregister cb w fe = some r ∧
      r.retval = -1 ∧
      r.world = w ∧
      r.world.control_softc.fe_list = w.control_softc.fe_list ∧
      r.world.control_softc.num_frontends = w.control_softc.num_frontends ∧
      r.trace = [] ∧
      (∀ fn : Nat, Event.fe_shutdown fn ∉ r.trace) := by
  refine ⟨_, ctl_frontend_deregister_busy cb w fe h, rfl, rfl, rfl, rfl, rfl, ?_⟩
  intro fn
  simp

/-- Witness of C12: the frontend at address 0 of the example system while its
port at address 5 is registered. -/
theorem C12_frontend_deregister_ports_attached_witness :
    ∃ r : Result, ctl_frontend_deregister ex_callbacks ex_world_one 0 = some r ∧
      r.retval = -1 ∧
      r.world = ex_world_one ∧
      r.world.control_softc.fe_list = ex_world_one.control_softc.fe_list ∧
      r.world.control_softc.num_frontends = ex_world_one.control_softc.num_frontends ∧
      r.trace = [] ∧
      (∀ fn : Nat, Event.fe_shutdown fn ∉ r.trace) :=
  C12_frontend_deregister_ports_attached ex_callbacks ex_world_one 0 (by decide)

/-- A deregistration that went through changes the owning frontend of no
port. -/
theorem deregistered_world_frontend (c : ctl_consts) (w : World) (port : Nat) (q : Nat) :
    ((deregistered_world c w port).ports q).frontend = (w.ports q).frontend := by
  by_cases hq : q = port
  · subst hq
    simp [deregistered_world]
  · simp [deregistered_world, Function.update, hq]

/-- A deregistration that went through takes the port off the port list of its
frontend and leaves the other port lists alone. -/
theorem deregistered_world_fe_list (c : ctl_consts) (w : World) (port : Nat) (fe : Nat) :
    ((deregistered_world c w port).frontends fe).port_list =
      if fe = (w.ports port).frontend then (w.frontends fe).port_list.erase port
      else (w.frontends fe).port_list := by
  by_cases hfe : fe = (w.ports port).frontend
  · subst hfe
    simp [deregistered_world]
  · simp [deregistered_world, Function.update, hfe]

/-- One step of `deregister_ports` for a port that is linked. -/
theorem deregister_ports_cons_ok (c : ctl_consts) (w : World) (p : Nat) (ps : List Nat)
    (h : (w.ports p).targ_port ≠ -1)
    (hin : p ∈ w.control_softc.port_list)
    (hfe : p ∈ (w.frontends (w.ports p).frontend).port_list) :
    deregister_ports c w (p :: ps) = deregister_ports c (deregistered_world c w p) ps := by
  simp [deregister_ports, ctl_port_deregister_ok c w p h hin hfe]

/-- One step of `deregister_ports`, read backwards: when the calls for
`p :: ps` all returned 0, the first one unlinked `p`. -/
theorem deregister_ports_cons_some (c : ctl_consts) (w : World) (p : Nat) (ps : List Nat)
    (w' : World) (h : deregister_ports c w (p :: ps) = some w') :
    p ∈ w.control_softc.port_list ∧
    p ∈ (w.frontends (w.ports p).frontend).port_list ∧
    deregister_ports c (deregistered_world c w p) ps = some w' := by
  unfold deregister_ports at h
  cases hd : ctl_port_deregister c w p with
  | none =>
    rw [hd] at h
    simp at h
  | some r =>
    rw [hd] at h
    rcases ctl_port_deregister_some c w p r hd with ⟨_, hr⟩ | ⟨_, hin, hfe, hr⟩
    · rw [hr] at h
      simp at h
    · rw [hr] at h
      simp only [if_true] at h
      exact ⟨hin, hfe, h⟩

/-- When ctl_port_deregister has returned 0 for each port of a frontend, the
port list of the frontend is empty, and the frontend list and num_frontends
are as before. -/
theorem deregister_ports_empties (c : ctl_consts) (fe : Nat) :
    ∀ (ps : List Nat) (w w' : World),
      (∀ p ∈ ps, (w.ports p).frontend = fe) →
      (w.frontends fe).port_list.Perm ps →
      deregister_ports c w ps = some w' →
      (w'.frontends fe).port_list = [] ∧
      w'.control_softc.fe_list = w.control_softc.fe_list ∧
      w'.control_softc.num_frontends = w.control_softc.num_frontends := by
  intro ps
  induction ps with
  | nil =>
    intro w w' _ hperm h
    simp only [deregister_ports, Option.some.injEq] at h
    subst h
    exact ⟨List.Perm.eq_nil hperm, rfl, rfl⟩
  | cons p ps ih =>
    intro w w' hatt hperm h
    obtain ⟨_, _, hrest⟩ := deregister_ports_cons_some c w p ps w' h
    have hp : (w.ports p).frontend = fe := hatt p (List.mem_cons_self p ps)
    have hlist : ((deregistered_world c w p).frontends fe).port_list
        = (w.frontends fe).port_list.erase p := by
      rw [deregistered_world_fe_list, if_pos hp.symm]
    have hperm' : ((deregistered_world c w p).frontends fe).port_list.Perm ps := by
      rw [hlist]
      have := List.Perm.erase p hperm
      simpa using this
    have hatt' : ∀ q ∈ ps, ((deregistered_world c w p).ports q).frontend = fe := by
      intro q hq
      rw [deregistered_world_frontend]
      exact hatt q (List.mem_cons_of_mem p hq)
    obtain ⟨h1, h2, h3⟩ := ih (deregistered_world c w p) w' hatt' hperm' hrest
    exact ⟨h1, h2, h3⟩

/-- C13: take a frontend fe that is on the frontend list, whose port list
consists of the ports `ps`, each of them a port of fe (as it is for ports that
ctl_port_register attached).  Once ctl_port_deregister has returned 0 for each
port of `ps`, the port list of fe is empty and ctl_frontend_deregister(fe)
returns 0; in the memory it hands to the shutdown routine (the final memory
when fe has none) exactly the entry fe is gone from the frontend list, the
other entries are in their old order, and num_frontends is one less than
before; with a shutdown routine that leaves the registry record alone this is
the frontend list and the count at the return. -/
theorem C13_frontend_deregister_after_ports (c : ctl_consts) (cb : Callbacks) (w : World)
    (fe : Nat) (ps : List Nat) (w' : World)
    (hreg : fe ∈ w.control_softc.fe_list)
    (hatt : ∀ p ∈ ps, (w.ports p).frontend = fe)
    (hperm : (w.frontends fe).port_list.Perm ps)
    (hdereg : deregister_ports c w ps = some w') :
    (w'.frontends fe).port_list = [] ∧
    ∃ r : Result, ctl_frontend_deregister cb w' fe = some r ∧
      r.retval = 0 ∧
      r.world = (match (w'.frontends fe).shutdown with
                 | some fn => cb.call0 fn (frontend_removed_world w' fe)
                 | none => frontend_removed_world w' fe) ∧
      (∃ l1 l2 : List Nat, w.control_softc.fe_list = l1 ++ fe :: l2 ∧ fe ∉ l1 ∧
        (frontend_removed_world w' fe).control_softc.fe_list = l1 ++ l2 ∧
        ((∀ (fn : Nat) (v : World), (cb.call0 fn v).control_softc = v.control_softc) →
          r.world.control_softc.fe_list = l1 ++ l2)) ∧
      (frontend_removed_world w' fe).control_softc.num_frontends
        = w.control_softc.num_frontends - 1 ∧
      ((∀ (fn : Nat) (v : World), (cb.call0 fn v).control_softc = v.control_softc) →
        r.world.control_softc.num_frontends = w.control_softc.num_frontends - 1) := by
  obtain ⟨hempty, hlist, hnum⟩ := deregister_ports_empties c fe ps w w' hatt hperm hdereg
  have hreg' : fe ∈ w'.control_softc.fe_list := by
    rw [hlist]
    exact hreg
  obtain ⟨l1, l2, hl1, hsplit, herase⟩ := List.exists_erase_eq hreg
  have hsoftc : (∀ (fn : Nat) (v : World), (cb.call0 fn v).control_softc = v.control_softc) →
      (match (w'.frontends fe).shutdown with
        | some fn => cb.call0 fn (frontend_removed_world w' fe)
        | none => frontend_removed_world w' fe).control_softc
        = (frontend_removed_world w' fe).control_softc := by
    intro hcb
    cases (w'.frontends fe).shutdown with
    | none => rfl
    | some fn => exact hcb fn _
  have hfl : (frontend_removed_world w' fe).control_softc.fe_list = l1 ++ l2 := by
    simp only [frontend_removed_world]
    rw [hlist, herase]
  have hn : (frontend_removed_world w' fe).control_softc.num_frontends
      = w.control_softc.num_frontends - 1 := by
    simp only [frontend_removed_world]
    rw [hnum]
  refine ⟨hempty, _, ctl_frontend_deregister_ok cb w' fe hempty hreg', rfl, rfl,
    ⟨l1, l2, hsplit, hl1, hfl, ?_⟩, hn, ?_⟩
  · intro hcb
    rw [hsoftc hcb]
    exact hfl
  · intro hcb
    rw [hsoftc hcb]
    exact hn

/-- Witness of C13: in the example system the frontend at address 0 is
registered, the ports 10 and 11 are registered under it and deregistered in
the other order. -/
theorem C13_frontend_deregister_after_ports_witness :
    ((deregistered_world ex_consts
        (deregistered_world ex_consts ex_world_fe_two_ports 11) 10).frontends 0).port_list
      = [] ∧
    ∃ r : Result,
      ctl_frontend_deregister ex_callbacks
        (deregistered_world ex_consts
          (deregistered_world ex_consts ex_world_fe_two_ports 11) 10) 0 = some r ∧
      r.retval = 0 ∧
      r.world = (match ((deregistered_world ex_consts
                    (deregistered_world ex_consts ex_world_fe_two_ports 11) 10).frontends
                    0).shutdown with
                 | some fn => ex_callbacks.call0 fn
                     (frontend_removed_world
                       (deregistered_world ex_consts
                         (deregistered_world ex_consts ex_world_fe_two_ports 11) 10) 0)
                 | none => frontend_removed_world
                     (deregistered_world ex_consts
                       (deregistered_world ex_consts ex_world_fe_two_ports 11) 10) 0) ∧
      (∃ l1 l2 : List Nat,
        ex_world_fe_two_ports.control_softc.fe_list = l1 ++ 0 :: l2 ∧ 0 ∉ l1 ∧
        (frontend_removed_world
          (deregistered_world ex_consts
            (deregistered_world ex_consts ex_world_fe_two_ports 11) 10)
          0).control_softc.fe_list = l1 ++ l2 ∧
        ((∀ (fn : Nat) (v : World),
            (ex_callbacks.call0 fn v).control_softc = v.control_softc) →
          r.world.control_softc.fe_list = l1 ++ l2)) ∧
      (frontend_removed_world
        (deregistered_world ex_consts
          (deregistered_world ex_consts ex_world_fe_two_ports 11) 10)
        0).control_softc.num_frontends
        = ex_world_fe_two_ports.control_softc.num_frontends - 1 ∧
      ((∀ (fn : Nat) (v : World),
          (ex_callbacks.call0 fn v).control_softc = v.control_softc) →
        r.world.control_softc.num_frontends
          = ex_world_fe_two_ports.control_softc.num_frontends - 1) :=
  C13_frontend_deregister_after_ports ex_consts ex_callbacks ex_world_fe_two_ports 0 [11, 10]
    (deregistered_world ex_consts (deregistered_world ex_consts ex_world_fe_two_ports 11) 10)
    (by decide!)
    (by decide!)
    (by decide!)
    (by
      rw [deregister_ports_cons_ok ex_consts ex_world_fe_two_ports 11 [10]
        (by decide!) (by decide!) (by decide!)]
      rw [deregister_ports_cons_ok ex_consts _ 10 [] (by decide!) (by decide!) (by decide!)]
      rfl)

/-- C14, counterexample: in the empty example registry the frontend at address
1 is not on the frontend list and has no ports; ctl_frontend_deregister makes
no test for this and goes on to the STAILQ_REMOVE of an entry that is not on
the list, which has no defined result.  No non-zero result is returned. -/
theorem C14_frontend_deregister_not_registered_counterexample :
    1 ∉ ex_world.control_softc.fe_list ∧
    ctl_frontend_deregister ex_callbacks ex_world 1 = none ∧
    ¬ ∃ r : Result, ctl_frontend_deregister ex_callbacks ex_world 1 = some r ∧
        r.retval ≠ 0 := by
  have hnone : ctl_frontend_deregister ex_callbacks ex_world 1 = none :=
    ctl_frontend_deregister_absent ex_callbacks ex_world 1 rfl (by decide)
  refine ⟨by decide, hnone, ?_⟩
  rintro ⟨r, hr, _⟩
  rw [hnone] at hr
  exact absurd hr (by simp)

/-- C14, amended: for a frontend that is not on the frontend list,
ctl_frontend_deregister returns -1 and leaves memory as it was when the port
list of the frontend is not empty; when the port list is empty the code makes
no registration test, nothing is returned: it runs into the STAILQ_REMOVE of
an entry that is not on the list, which is not defined. -/
theorem C14_frontend_deregister_not_on_list (cb : Callbacks) (w : World) (fe : Nat)
    (hout : fe ∉ w.control_softc.fe_list) :
    ((w.frontends fe).port_list ≠ [] →
      ctl_frontend_deregister cb w fe = some { retval := -1, world := w, trace := [] }) ∧
    ((w.frontends fe).port_list = [] → ctl_frontend_deregister cb w fe = none) :=
  ⟨fun h => ctl_frontend_deregister_busy cb w fe h,
   fun h => ctl_frontend_deregister_absent cb w fe h hout⟩

/-- Witness of the amended C14: the frontend at address 0 of the example
system, which was never registered, while a port is linked under it. -/
theorem C14_frontend_deregister_not_on_list_witness :
    ((ex_world_one.frontends 0).port_list ≠ [] →
      ctl_frontend_deregister ex_callbacks ex_world_one 0
        = some { retval := -1, world := ex_world_one, trace := [] }) ∧
    ((ex_world_one.frontends 0).port_list = [] →
      ctl_frontend_deregister ex_callbacks ex_world_one 0 = none) :=
  C14_frontend_deregister_not_on_list ex_callbacks ex_world_one 0 (by decide)

/-- What a defined ctl_frontend_deregister did: it stopped at the port list
test, or it took a frontend without ports off the frontend list. -/
theorem ctl_frontend_deregister_some (cb : Callbacks) (w : World) (fe : Nat) (r : Result)
    (h : ctl_frontend_deregister cb w fe = some r) :
    ((w.frontends fe).port_list ≠ [] ∧ r = { retval := -1, world := w, trace := [] }) ∨
    ((w.frontends fe).port_list = [] ∧ fe ∈ w.control_softc.fe_list ∧ r.retval = 0 ∧
      r.world = (match (w.frontends fe).shutdown with
                 | some fn => cb.call0 fn (frontend_removed_world w fe)
                 | none => frontend_removed_world w fe)) := by
  by_cases hp : (w.frontends fe).port_list = []
  · right
    by_cases hin : fe ∈ w.control_softc.fe_list
    · rw [ctl_frontend_deregister_ok cb w fe hp hin] at h
      have hr := (Option.some.inj h).symm
      subst hr
      exact ⟨hp, hin, rfl, rfl⟩
    · rw [ctl_frontend_deregister_absent cb w fe hp hin] at h
      exact absurd h (by simp)
  · left
    rw [ctl_frontend_deregister_busy cb w fe hp] at h
    exact ⟨hp, (Option.some.inj h).symm⟩

/-- The STAILQ_INIT of ctl_frontend_register changes the name of no
frontend. -/
theorem frontend_list_init_name (w : World) (fe : Nat) (a : Nat) :
    ((frontend_list_init w fe).frontends a).name = (w.frontends a).name := by
  by_cases ha : a = fe
  · subst ha
    simp [frontend_list_init, World.upd_frontend]
  · simp [frontend_list_init, World.upd_frontend, Function.update, ha]

/-- The frontend list and the frontends after a ctl_frontend_register that
returned 0: the frontends are those of the memory in which the function took
the lock for the second time, and the list is the list of that memory with
`fe` appended. -/
theorem ctl_frontend_register_ok_world (cb : Callbacks) (w : World) (fe : Nat)
    (hok : (ctl_frontend_register cb w fe).retval = 0) :
    (ctl_frontend_register cb w fe).world.control_softc.fe_list
      = (frontend_init_world cb w fe).control_softc.fe_list ++ [fe] ∧
    (ctl_frontend_register cb w fe).world.frontends
      = (frontend_init_world cb w fe).frontends := by
  rw [ctl_frontend_register_new cb w fe (ctl_frontend_register_retval_zero cb w fe hok)]
  exact ⟨rfl, rfl⟩

/-- After a ctl_frontend_register(fe) that returned 0 and found no frontend
with the name of `fe` on the list when it took the lock for the insertion, the
lookup of the name of `fe` gives `fe`. -/
theorem ctl_frontend_find_registered (cb : Callbacks) (w : World) (fe : Nat)
    (hok : (ctl_frontend_register cb w fe).retval = 0)
    (hfresh : ∀ x ∈ (frontend_init_world cb w fe).control_softc.fe_list,
      ((frontend_init_world cb w fe).frontends x).name
        ≠ ((frontend_init_world cb w fe).frontends fe).name) :
    ctl_frontend_find (ctl_frontend_register cb w fe).world
      ((ctl_frontend_register cb w fe).world.frontends fe).name = some fe := by
  obtain ⟨hl, hf⟩ := ctl_frontend_register_ok_world cb w fe hok
  unfold ctl_frontend_find
  rw [hl, hf, List.find?_append]
  have hnone : List.find?
      (fun x => ((frontend_init_world cb w fe).frontends x).name
        == ((frontend_init_world cb w fe).frontends fe).name)
      (frontend_init_world cb w fe).control_softc.fe_list = none := by
    rw [List.find?_eq_none]
    intro x hx
    simpa using hfresh x hx
  rw [hnone]
  simp

/-- C15, counterexample: in the example system the frontends at the addresses
1 and 2 are both called "iscsi" and the init routine of frontend 1 registers
frontend 2.  The registration of frontend 1 on the empty registry returns 0;
right after it the lookup of "iscsi", the name of frontend 1, gives frontend
2, which is first on the list, and not frontend 1.  The deregistration of
frontend 1 that follows returns 0; right after it the lookup of "iscsi" still
gives frontend 2, not NULL. -/
theorem C15_lookup_after_reentrant_registration_counterexample :
    (ctl_frontend_register ex_reentrant ex_world_init 1).retval = 0 ∧
    ex_world_two_iscsi = (ctl_frontend_register ex_reentrant ex_world_init 1).world ∧
    (ex_world_init.frontends 1).name = "iscsi" ∧
    (ex_world_two_iscsi.frontends 1).name = "iscsi" ∧
    ctl_frontend_find ex_world_two_iscsi "iscsi" = some 2 ∧
    ctl_frontend_find ex_world_two_iscsi "iscsi" ≠ some 1 ∧
    ∃ r : Result, ctl_frontend_deregister ex_reentrant ex_world_two_iscsi 1 = some r ∧
      r.retval = 0 ∧
      ctl_frontend_find r.world "iscsi" = some 2 ∧
      ctl_frontend_find r.world "iscsi" ≠ none :=
  ⟨by decide, rfl, by decide, by decide, by decide, by decide,
   _, ctl_frontend_deregister_ok ex_reentrant ex_world_two_iscsi 1 (by decide) (by decide),
   rfl, by decide, by decide⟩

/-- C15, amended: ctl_frontend_find only reads memory.  When it returns a
frontend, that frontend is on the frontend list, has the given name, and no
entry before it on the list has the name; it returns NULL exactly when no
frontend on the list has the name.  Right after a ctl_frontend_register(fe)
that returned 0, find(fe's name) is fe when no frontend with the name of fe
was on the frontend list at the moment the function took the lock for the
insertion, that is after the init routine of fe; it is so whenever fe has no
init routine.  A ctl_frontend_deregister(fe) that returned 0 took fe off the
list and then ran the shutdown routine of fe, if there is one; in the memory
with fe taken off, find(fe's name) is NULL exactly when no entry left on the
list has the name of fe, and it is so whenever the names on the list were
different from each other; when fe has no shutdown routine this memory is the
memory at return. -/
theorem C15_frontend_find :
    (∀ (w : World) (name : String),
      (∀ fe : Nat, ctl_frontend_find w name = some fe →
        (w.frontends fe).name = name ∧
        ∃ l1 l2 : List Nat, w.control_softc.fe_list = l1 ++ fe :: l2 ∧
          ∀ x ∈ l1, (w.frontends x).name ≠ name) ∧
      (ctl_frontend_find w name = none ↔
        ∀ x ∈ w.control_softc.fe_list, (w.frontends x).name ≠ name)) ∧
    (∀ (cb : Callbacks) (w : World) (fe : Nat),
      (ctl_frontend_register cb w fe).retval = 0 →
      (∀ x ∈ (frontend_init_world cb w fe).control_softc.fe_list,
        ((frontend_init_world cb w fe).frontends x).name
          ≠ ((frontend_init_world cb w fe).frontends fe).name) →
      ctl_frontend_find (ctl_frontend_register cb w fe).world
        ((ctl_frontend_register cb w fe).world.frontends fe).name = some fe) ∧
    (∀ (cb : Callbacks) (w : World) (fe : Nat),
      (ctl_frontend_register cb w fe).retval = 0 →
      (w.frontends fe).init = none →
      ctl_frontend_find (ctl_frontend_register cb w fe).world (w.frontends fe).name
        = some fe) ∧
    (∀ (cb : Callbacks) (w : World) (fe : Nat) (r : Result),
      ctl_frontend_deregister cb w fe = some r → r.retval = 0 →
      r.world = (match (w.frontends fe).shutdown with
                 | some fn => cb.call0 fn (frontend_removed_world w fe)
                 | none => frontend_removed_world w fe) ∧
      (ctl_frontend_find (frontend_removed_world w fe) (w.frontends fe).name = none ↔
        ∀ x ∈ w.control_softc.fe_list.erase fe,
          (w.frontends x).name ≠ (w.frontends fe).name) ∧
      ((frontend_names w).Nodup →
        ctl_frontend_find (frontend_removed_world w fe) (w.frontends fe).name = none) ∧
      ((w.frontends fe).shutdown = none → (frontend_names w).Nodup →
        ctl_frontend_find r.world (w.frontends fe).name = none)) := by
  refine ⟨?_, ?_, ?_, ?_⟩
  · intro w name
    constructor
    · intro fe hfind
      unfold ctl_frontend_find at hfind
      rw [List.find?_eq_some] at hfind
      obtain ⟨hp, l1, l2, hsplit, hbefore⟩ := hfind
      refine ⟨by simpa using hp, l1, l2, hsplit, ?_⟩
      intro x hx
      have := hbefore x hx
      simpa using this
    · unfold ctl_frontend_find
      rw [List.find?_eq_none]
      constructor
      · intro h x hx
        have := h x hx
        simpa using this
      · intro h x hx
        have := h x hx
        simpa using this
  · intro cb w fe hok hfresh
    exact ctl_frontend_find_registered cb w fe hok hfresh
  · intro cb w fe hok hinit
    have hnew := ctl_frontend_register_retval_zero cb w fe hok
    have hv : frontend_init_world cb w fe = frontend_list_init w fe := by
      unfold frontend_init_world
      rw [hinit]
    have hname : ((ctl_frontend_register cb w fe).world.frontends fe).name
        = (w.frontends fe).name := by
      rw [(ctl_frontend_register_ok_world cb w fe hok).2, hv]
      exact frontend_list_init_name w fe fe
    rw [← hname]
    apply ctl_frontend_find_registered cb w fe hok
    rw [hv]
    intro x hx
    rw [frontend_list_init_name, frontend_list_init_name]
    exact hnew x hx
  · intro cb w fe r hd hok
    have hiff : ctl_frontend_find (frontend_removed_world w fe) (w.frontends fe).name = none ↔
        ∀ x ∈ w.control_softc.fe_list.erase fe,
          (w.frontends x).name ≠ (w.frontends fe).name := by
      unfold ctl_frontend_find
      rw [List.find?_eq_none]
      constructor
      · intro h x hx
        have := h x hx
        simpa [frontend_removed_world] using this
      · intro h x hx
        have := h x hx
        simpa [frontend_removed_world] using this
    rcases ctl_frontend_deregister_some cb w fe r hd with ⟨_, hr⟩ | ⟨_, hin, _, hw⟩
    · rw [hr] at hok
      simp at hok
    · have hnone : (frontend_names w).Nodup →
          ctl_frontend_find (frontend_removed_world w fe) (w.frontends fe).name = none := by
        intro hnd
        rw [hiff]
        obtain ⟨l1, l2, _, hsplit, herase⟩ := List.exists_erase_eq hin
        unfold frontend_names at hnd
        rw [hsplit, List.map_append, List.map_cons, List.nodup_middle, List.nodup_cons] at hnd
        have hnot := hnd.1
        rw [herase]
        intro x hx hname
        apply hnot
        rw [← List.map_append]
        exact List.mem_map.mpr ⟨x, hx, hname⟩
      refine ⟨hw, hiff, hnone, ?_⟩
      intro hsd hnd
      rw [hw, hsd]
      exact hnone hnd

/-- Witness of the amended C15 in the example system: the lookup of "iscsi" in
the registry that holds the frontend at address 1; the lookup right after the
registration of frontend 1 whose init routine registers a port; the lookup
right after the registration of frontend 3, which has no init routine; and the
lookup right after the deregistration of frontend 1. -/
theorem C15_frontend_find_witness :
    ((∀ fe : Nat, ctl_frontend_find ex_world_iscsi "iscsi" = some fe →
        (ex_world_iscsi.frontends fe).name = "iscsi" ∧
        ∃ l1 l2 : List Nat, ex_world_iscsi.control_softc.fe_list = l1 ++ fe :: l2 ∧
          ∀ x ∈ l1, (ex_world_iscsi.frontends x).name ≠ "iscsi") ∧
      (ctl_frontend_find ex_world_iscsi "iscsi" = none ↔
        ∀ x ∈ ex_world_iscsi.control_softc.fe_list,
          (ex_world_iscsi.frontends x).name ≠ "iscsi")) ∧
    ctl_frontend_find (ctl_frontend_register ex_port_init ex_world_own_port 1).world
      ((ctl_frontend_register ex_port_init ex_world_own_port 1).world.frontends 1).name
        = some 1 ∧
    ctl_frontend_find (ctl_frontend_register ex_reentrant ex_world_two_iscsi 3).world
      (ex_world_two_iscsi.frontends 3).name = some 3 ∧
    (ex_iscsi_removed.world
        = (match (ex_world_iscsi.frontends 1).shutdown with
           | some fn => ex_callbacks.call0 fn (frontend_removed_world ex_world_iscsi 1)
           | none => frontend_removed_world ex_world_iscsi 1) ∧
      (ctl_frontend_find (frontend_removed_world ex_world_iscsi 1)
          (ex_world_iscsi.frontends 1).name = none ↔
        ∀ x ∈ ex_world_iscsi.control_softc.fe_list.erase 1,
          (ex_world_iscsi.frontends x).name ≠ (ex_world_iscsi.frontends 1).name) ∧
      ((frontend_names ex_world_iscsi).Nodup →
        ctl_frontend_find (frontend_removed_world ex_world_iscsi 1)
          (ex_world_iscsi.frontends 1).name = none) ∧
      ((ex_world_iscsi.frontends 1).shutdown = none → (frontend_names ex_world_iscsi).Nodup →
        ctl_frontend_find ex_iscsi_removed.world (ex_world_iscsi.frontends 1).name = none)) :=
  ⟨C15_frontend_find.1 ex_world_iscsi "iscsi",
   C15_frontend_find.2.1 ex_port_init ex_world_own_port 1 (by decide) (by decide),
   C15_frontend_find.2.2.1 ex_reentrant ex_world_two_iscsi 3 (by decide) (by decide),
   C15_frontend_find.2.2.2 ex_callbacks ex_world_iscsi 1 ex_iscsi_removed
     (ctl_frontend_deregister_ok ex_callbacks ex_world_iscsi 1 (by decide) (by decide))
     rfl⟩

/-! ## Invariants of sequences of calls -/

/-- A property of memory that holds at the start and that every allowed,
defined call keeps holds after every sequence of calls. -/
theorem run_invariant (c : ctl_consts) (cb : Callbacks) (allowed : World → Op → Bool)
    (P : World → Prop)
    (hstep : ∀ (w : World) (op : Op) (r : Result),
      P w → allowed w op = true → step c cb w op = some r → P r.world) :
    ∀ (ops : List Op) (w w' : World), P w → run c cb allowed w ops = some w' → P w' := by
  intro ops
  induction ops with
  | nil =>
    intro w w' hP h
    simp only [run, Option.some.injEq] at h
    subst h
    exact hP
  | cons op ops ih =>
    intro w w' hP h
    unfold run at h
    by_cases ha : allowed w op = true
    · rw [if_pos ha] at h
      cases hs : step c cb w op with
      | none =>
        rw [hs] at h
        simp at h
      | some r =>
        rw [hs] at h
        exact ih r.world w' (hstep w op r hP ha hs) h
    · rw [if_neg ha] at h
      simp at h

/-- The three ways a call of ctl_port_register can go: no free number, pool
creation failed, or registered with the lowest free number. -/
theorem ctl_port_register_cases (c : ctl_consts) (pool_create : Int → Int × Nat)
    (w : World) (port : Nat) (master_shelf : Int) :
    ((ctl_port_register c pool_create w port master_shelf).retval = 1 ∧
      (ctl_port_register c pool_create w port master_shelf).world
        = w.upd_port port (fun p => { p with targ_port := -1 })) ∨
    ((ctl_port_register c pool_create w port master_shelf).retval ≠ 0 ∧
      (ctl_port_register c pool_create w port master_shelf).world
        = { control_softc :=
              { w.control_softc with num_ports := w.control_softc.num_ports + 1 }
            frontends := w.frontends
            ports := Function.update w.ports port { w.ports port with targ_port := -1 } }) ∨
    (∃ m : Nat, m < c.CTL_MAX_PORTS ∧
      w.control_softc.ctl_port_mask (m : Int) = false ∧
      (ctl_port_register c pool_create w port master_shelf).retval = 0 ∧
      (ctl_port_register c pool_create w port master_shelf).world
        = registered_world c w port master_shelf (m : Int)
            (pool_create ((w.ports port).num_requested_ctl_io + 20)).2) := by
  rcases ctl_ffz_spec w.control_softc.ctl_port_mask c.CTL_MAX_PORTS with
    ⟨h0, _⟩ | ⟨m, hm1, hm2, hm3, _⟩
  · left
    rw [ctl_port_register_full c pool_create w port master_shelf h0]
    exact ⟨rfl, rfl⟩
  · by_cases hpool : (pool_create ((w.ports port).num_requested_ctl_io + 20)).1 = 0
    · right
      right
      rw [ctl_port_register_ok c pool_create w port master_shelf m hm2 hm3 hpool]
      exact ⟨m, hm1, hm3, rfl, rfl⟩
    · right
      left
      rw [ctl_port_register_poolfail c pool_create w port master_shelf m hm2 hm3 hpool]
      exact ⟨hpool, rfl⟩

/-- One call of ctl_port_register keeps "bit set if and only if slot
filled". -/
theorem ctl_port_register_mask_table (c : ctl_consts) (pool_create : Int → Int × Nat)
    (w : World) (port : Nat) (master_shelf : Int)
    (h : ∀ n : Int, w.control_softc.ctl_port_mask n = true ↔
      w.control_softc.ctl_ports n ≠ none) :
    ∀ n : Int,
      (ctl_port_register c pool_create w port master_shelf).world.control_softc.ctl_port_mask n
        = true ↔
      (ctl_port_register c pool_create w port master_shelf).world.control_softc.ctl_ports n
        ≠ none := by
  intro n
  rcases ctl_port_register_cases c pool_create w port master_shelf with
    ⟨_, hw⟩ | ⟨_, hw⟩ | ⟨m, _, _, _, hw⟩
  · rw [hw]
    exact h n
  · rw [hw]
    exact h n
  · rw [hw]
    by_cases hn : n = (m : Int)
    · subst hn
      simp [registered_world]
    · simpa [registered_world, Function.update, hn] using h n

/-- One defined call of ctl_port_deregister keeps "bit set if and only if slot
filled". -/
theorem ctl_port_deregister_mask_table (c : ctl_consts) (w : World) (port : Nat) (r : Result)
    (hd : ctl_port_deregister c w port = some r)
    (h : ∀ n : Int, w.control_softc.ctl_port_mask n = true ↔
      w.control_softc.ctl_ports n ≠ none) :
    ∀ n : Int, r.world.control_softc.ctl_port_mask n = true ↔
      r.world.control_softc.ctl_ports n ≠ none := by
  intro n
  rcases ctl_port_deregister_some c w port r hd with ⟨_, hr⟩ | ⟨_, _, _, hr⟩
  · rw [hr]
    exact h n
  · rw [hr]
    show (deregistered_world c w port).control_softc.ctl_port_mask n = true ↔
      (deregistered_world c w port).control_softc.ctl_ports n ≠ none
    rw [deregistered_world_mask]
    by_cases hn : n = decode_targ_port c (w.ports port).targ_port
    · simp [deregistered_world, hn]
    · simpa [deregistered_world, Function.update, hn] using h n

/-- C16: in every memory reached from an empty registry by a sequence of
ctl_port_register and ctl_port_deregister calls, with any arguments and any
outcome of pool creation, the bit n of ctl_port_mask is set if and only if
ctl_ports[n] holds a port, for every raw number n in 0..CTL_MAX_PORTS-1 (and
for every other index as well). -/
theorem C16_mask_bit_iff_table_slot (c : ctl_consts) (cb : Callbacks) (w0 w : World)
    (ops : List Op)
    (hempty : registry_empty w0)
    (hrun : run c cb port_call w0 ops = some w) :
    (∀ n : Int, 0 ≤ n → n < (c.CTL_MAX_PORTS : Int) →
      (w.control_softc.ctl_port_mask n = true ↔ w.control_softc.ctl_ports n ≠ none)) ∧
    (∀ n : Int, w.control_softc.ctl_port_mask n = true ↔
      w.control_softc.ctl_ports n ≠ none) := by
  have hall : ∀ n : Int, w.control_softc.ctl_port_mask n = true ↔
      w.control_softc.ctl_ports n ≠ none := by
    refine run_invariant c cb port_call
      (fun v => ∀ n : Int, v.control_softc.ctl_port_mask n = true ↔
        v.control_softc.ctl_ports n ≠ none) ?_ ops w0 w ?_ hrun
    · intro v op r hP hallowed hs
      cases op with
      | frontend_register fe => simp [port_call] at hallowed
      | frontend_deregister fe => simp [port_call] at hallowed
      | port_register pool_create port master_shelf =>
        simp only [step, Option.some.injEq] at hs
        subst hs
        exact ctl_port_register_mask_table c pool_create v port master_shelf hP
      | port_deregister port =>
        simp only [step] at hs
        exact ctl_port_deregister_mask_table c v port r hs hP
    · intro n
      rw [hempty.1 n, hempty.2.1 n]
      simp
  exact ⟨fun n _ _ => hall n, hall⟩

/-- The example memory `ex_world` holds an empty registry. -/
theorem ex_world_empty : registry_empty ex_world :=
  ⟨fun _ => rfl, fun _ => rfl, rfl, rfl, rfl, rfl, fun _ => rfl⟩

/-- Witness of C16: the sequence `ex_port_ops` in the example system. -/
theorem C16_mask_bit_iff_table_slot_witness :
    (∀ n : Int, 0 ≤ n → n < (ex_consts.CTL_MAX_PORTS : Int) →
      (ex_after_port_ops.control_softc.ctl_port_mask n = true ↔
        ex_after_port_ops.control_softc.ctl_ports n ≠ none)) ∧
    (∀ n : Int, ex_after_port_ops.control_softc.ctl_port_mask n = true ↔
      ex_after_port_ops.control_softc.ctl_ports n ≠ none) :=
  C16_mask_bit_iff_table_slot ex_consts ex_callbacks ex_world ex_after_port_ops ex_port_ops
    ex_world_empty rfl

/-- C17, the code at a failing input: one call of ctl_port_register whose pool
creation fails, made on the empty example registry.  Afterwards num_ports is 1
while the global port list is empty; num_frontends and the frontend list
agree. -/
theorem C17_num_ports_off_after_pool_failure :
    registry_empty ex_world ∧
    ∃ w : World,
      run ex_consts ex_callbacks any_call ex_world [Op.port_register pool_fail 5 1] = some w ∧
      w.control_softc.num_ports = 1 ∧
      w.control_softc.port_list = [] ∧
      w.control_softc.num_ports ≠ (w.control_softc.port_list.length : Int) ∧
      w.control_softc.num_frontends = (w.control_softc.fe_list.length : Int) :=
  ⟨ex_world_empty, _, rfl, by decide, by decide, by decide, by decide⟩

/-- A raw port number depends on the port record only. -/
theorem raw_port_num_congr (c : ctl_consts) (w w' : World) (q : Nat)
    (h : (w'.ports q).targ_port = (w.ports q).targ_port) :
    raw_port_num c w' q = raw_port_num c w q := by
  unfold raw_port_num
  rw [h]

/-- A call of ctl_port_register that does not register leaves the numbering of
the linked ports as it is, when the port it was called for is not linked. -/
theorem ports_numbered_of_same_lists (c : ctl_consts) (w w' : World) (port : Nat)
    (hnot : port ∉ w.control_softc.port_list)
    (hlist : w'.control_softc.port_list = w.control_softc.port_list)
    (hmask : w'.control_softc.ctl_port_mask = w.control_softc.ctl_port_mask)
    (htable : w'.control_softc.ctl_ports = w.control_softc.ctl_ports)
    (hports : ∀ q : Nat, q ≠ port → w'.ports q = w.ports q)
    (h : ports_numbered c w) : ports_numbered c w' := by
  obtain ⟨h1, h2, h3⟩ := h
  have hraw : ∀ q ∈ w.control_softc.port_list, raw_port_num c w' q = raw_port_num c w q := by
    intro q hq
    apply raw_port_num_congr
    rw [hports q (fun hqp => hnot (hqp ▸ hq))]
  refine ⟨by rw [hlist]; exact h1, ?_, ?_⟩
  · intro p hp
    rw [hlist] at hp
    rw [hraw p hp, hmask, htable]
    exact h2 p hp
  · intro i hi
    rw [hmask] at hi
    obtain ⟨p, hp, hpi⟩ := h3 i hi
    exact ⟨p, by rw [hlist]; exact hp, by rw [hraw p hp]; exact hpi⟩

/-- One call of ctl_port_register for a port that is not linked keeps the
numbering of the linked ports. -/
theorem ctl_port_register_numbered (c : ctl_consts) (pool_create : Int → Int × Nat)
    (w : World) (port : Nat) (master_shelf : Int)
    (hnot : port ∉ w.control_softc.port_list)
    (h : ports_numbered c w) :
    ports_numbered c (ctl_port_register c pool_create w port master_shelf).world := by
  rcases ctl_port_register_cases c pool_create w port master_shelf with
    ⟨_, hw⟩ | ⟨_, hw⟩ | ⟨m, hm, hfree, _, hw⟩
  · rw [hw]
    refine ports_numbered_of_same_lists c w _ port hnot rfl rfl rfl ?_ h
    intro q hq
    simp [World.upd_port, Function.update, hq]
  · rw [hw]
    refine ports_numbered_of_same_lists c w _ port hnot rfl rfl rfl ?_ h
    intro q hq
    simp [Function.update, hq]
  · rw [hw]
    obtain ⟨h1, h2, h3⟩ := h
    have hrawp : raw_port_num c (registered_world c w port master_shelf (m : Int)
        (pool_create ((w.ports port).num_requested_ctl_io + 20)).2) port = (m : Int) := by
      have henc := decode_targ_port_encode c master_shelf m hm
      unfold raw_port_num
      simpa [registered_world] using henc
    have hrawq : ∀ q ∈ w.control_softc.port_list,
        raw_port_num c (registered_world c w port master_shelf (m : Int)
          (pool_create ((w.ports port).num_requested_ctl_io + 20)).2) q
          = raw_port_num c w q := by
      intro q hq
      apply raw_port_num_congr
      rw [registered_world_ports_ne c w port master_shelf (m : Int) _ q
        (fun hqp => hnot (hqp ▸ hq))]
    have hne : ∀ q ∈ w.control_softc.port_list, raw_port_num c w q ≠ (m : Int) := by
      intro q hq heq
      have := (h2 q hq).2.2.2
      rw [heq, hfree] at this
      exact absurd this (by decide)
    refine ⟨?_, ?_, ?_⟩
    · show (w.control_softc.port_list ++ [port]).Nodup
      rw [List.nodup_append]
      refine ⟨h1, List.nodup_singleton port, ?_⟩
      intro x hx hx'
      rw [List.mem_singleton] at hx'
      exact hnot (hx' ▸ hx)
    · intro p hp
      have hp' : p ∈ w.control_softc.port_list ++ [port] := hp
      rw [List.mem_append, List.mem_singleton] at hp'
      rcases hp' with hp' | hp'
      · rw [hrawq p hp']
        obtain ⟨g1, g2, g3, g4⟩ := h2 p hp'
        refine ⟨g1, g2, ?_, ?_⟩
        · simpa [registered_world, Function.update, hne p hp'] using g3
        · simpa [registered_world, Function.update, hne p hp'] using g4
      · subst hp'
        rw [hrawp]
        refine ⟨by omega, by omega, ?_, ?_⟩
        · simp [registered_world]
        · simp [registered_world]
    · intro i hi
      by_cases him : i = (m : Int)
      · exact ⟨port, by simp [registered_world], by rw [hrawp, him]⟩
      · have hi' : w.control_softc.ctl_port_mask i = true := by
          simpa [registered_world, Function.update, him] using hi
        obtain ⟨q, hq, hqi⟩ := h3 i hi'
        refine ⟨q, ?_, by rw [hrawq q hq]; exact hqi⟩
        show q ∈ w.control_softc.port_list ++ [port]
        exact List.mem_append_left _ hq

/-- A deregistration that went through changes the targ_port of no port. -/
theorem deregistered_world_targ_port (c : ctl_consts) (w : World) (port : Nat) (q : Nat) :
    ((deregistered_world c w port).ports q).targ_port = (w.ports q).targ_port := by
  by_cases hq : q = port
  · subst hq
    simp [deregistered_world]
  · simp [deregistered_world, Function.update, hq]

/-- One defined call of ctl_port_deregister keeps the numbering of the linked
ports. -/
theorem ctl_port_deregister_numbered (c : ctl_consts) (w : World) (port : Nat) (r : Result)
    (hd : ctl_port_deregister c w port = some r)
    (h : ports_numbered c w) : ports_numbered c r.world := by
  rcases ctl_port_deregister_some c w port r hd with ⟨_, hr⟩ | ⟨_, hin, _, hr⟩
  · rw [hr]
    exact h
  · rw [hr]
    show ports_numbered c (deregistered_world c w port)
    obtain ⟨h1, h2, h3⟩ := h
    have hraw : ∀ q : Nat, raw_port_num c (deregistered_world c w port) q
        = raw_port_num c w q :=
      fun q => raw_port_num_congr c w _ q (deregistered_world_targ_port c w port q)
    have hd' : decode_targ_port c (w.ports port).targ_port = raw_port_num c w port := rfl
    have hne : ∀ q ∈ w.control_softc.port_list, q ≠ port →
        raw_port_num c w q ≠ raw_port_num c w port := by
      intro q hq hqp heq
      have g1 := (h2 q hq).2.2.1
      have g2 := (h2 port hin).2.2.1
      rw [heq, g2] at g1
      exact hqp (Option.some.inj g1).symm
    refine ⟨?_, ?_, ?_⟩
    · show (w.control_softc.port_list.erase port).Nodup
      exact List.Nodup.erase port h1
    · intro p hp
      have hp' : p ∈ w.control_softc.port_list.erase port := hp
      rw [List.Nodup.mem_erase_iff h1] at hp'
      obtain ⟨hpne, hpin⟩ := hp'
      rw [hraw p]
      obtain ⟨g1, g2, g3, g4⟩ := h2 p hpin
      refine ⟨g1, g2, ?_, ?_⟩
      · show Function.update w.control_softc.ctl_ports
          (decode_targ_port c (w.ports port).targ_port) none (raw_port_num c w p) = some p
        rw [hd', Function.update_noteq (hne p hpin hpne)]
        exact g3
      · rw [deregistered_world_mask, hd', if_neg (hne p hpin hpne)]
        exact g4
    · intro i hi
      rw [deregistered_world_mask, hd'] at hi
      by_cases hid : i = raw_port_num c w port
      · rw [if_pos hid] at hi
        exact absurd hi (by decide)
      · rw [if_neg hid] at hi
        obtain ⟨q, hq, hqi⟩ := h3 i hi
        have hqp : q ≠ port := by
          intro hqp
          rw [hqp] at hqi
          exact hid hqi.symm
        refine ⟨q, ?_, by rw [hraw q]; exact hqi⟩
        show q ∈ w.control_softc.port_list.erase port
        rw [List.Nodup.mem_erase_iff h1]
        exact ⟨hqp, hq⟩

/-- In an empty registry the linked ports are numbered (there are none). -/
theorem ports_numbered_of_empty (c : ctl_consts) (w : World) (h : registry_empty w) :
    ports_numbered c w := by
  refine ⟨by rw [h.2.2.1]; exact List.nodup_nil, ?_, ?_⟩
  · intro p hp
    rw [h.2.2.1] at hp
    exact absurd hp (List.not_mem_nil p)
  · intro i hi
    rw [h.1 i] at hi
    exact absurd hi (by decide)

/-- C18, counterexample: in the example system the port at address 5 is
registered twice in a row; both calls return 0.  Afterwards the bits 0 and 1
of the port mask are set, but no port on the global port list has raw number
0: the only port there is port 5, whose targ_port now says 1. -/
theorem C18_same_port_twice_counterexample :
    registry_empty ex_world ∧
    (ctl_port_register ex_consts pool_ok ex_world 5 1).retval = 0 ∧
    (ctl_port_register ex_consts pool_ok
      (ctl_port_register ex_consts pool_ok ex_world 5 1).world 5 1).retval = 0 ∧
    ∃ w : World, run ex_consts ex_callbacks port_call ex_world ex_same_port_twice = some w ∧
      w.control_softc.ctl_port_mask 0 = true ∧
      (∀ p ∈ w.control_softc.port_list, raw_port_num ex_consts w p ≠ 0) ∧
      ¬ (∀ i : Int, w.control_softc.ctl_port_mask i = true ↔
          i ∈ w.control_softc.port_list.map (raw_port_num ex_consts w)) := by
  refine ⟨ex_world_empty, by decide, by decide, _, rfl, by decide!, by decide!, ?_⟩
  intro h
  have h0 := (h 0).mp (by decide!)
  revert h0
  decide!

/-- C18, amended: in every memory reached from an empty registry by a sequence
of ctl_port_register and ctl_port_deregister calls in which ctl_port_register
is only called for a port that is not on the global port list at that time,
the raw port numbers of the ports on the global port list are pairwise
different, all lie in 0..CTL_MAX_PORTS-1, and are exactly the indices of the
bits that are set in ctl_port_mask. -/
theorem C18_raw_numbers_are_the_set_bits (c : ctl_consts) (cb : Callbacks) (w0 w : World)
    (ops : List Op)
    (hempty : registry_empty w0)
    (hrun : run c cb port_call_unlinked w0 ops = some w) :
    (w.control_softc.port_list.map (raw_port_num c w)).Nodup ∧
    (∀ p ∈ w.control_softc.port_list,
      0 ≤ raw_port_num c w p ∧ raw_port_num c w p < (c.CTL_MAX_PORTS : Int)) ∧
    (∀ i : Int, w.control_softc.ctl_port_mask i = true ↔
      i ∈ w.control_softc.port_list.map (raw_port_num c w)) := by
  have hinv : ports_numbered c w := by
    refine run_invariant c cb port_call_unlinked (ports_numbered c) ?_ ops w0 w
      (ports_numbered_of_empty c w0 hempty) hrun
    intro v op r hP hallowed hs
    cases op with
    | frontend_register fe => simp [port_call_unlinked] at hallowed
    | frontend_deregister fe => simp [port_call_unlinked] at hallowed
    | port_register pool_create port master_shelf =>
      simp only [step, Option.some.injEq] at hs
      subst hs
      have hnot : port ∉ v.control_softc.port_list := by
        simpa [port_call_unlinked] using hallowed
      exact ctl_port_register_numbered c pool_create v port master_shelf hnot hP
    | port_deregister port =>
      simp only [step] at hs
      exact ctl_port_deregister_numbered c v port r hs hP
  obtain ⟨h1, h2, h3⟩ := hinv
  refine ⟨?_, fun p hp => ⟨(h2 p hp).1, (h2 p hp).2.1⟩, ?_⟩
  · refine List.Nodup.map_on ?_ h1
    intro x hx y hy hxy
    have gx := (h2 x hx).2.2.1
    have gy := (h2 y hy).2.2.1
    rw [hxy, gy] at gx
    exact (Option.some.inj gx).symm
  · intro i
    constructor
    · intro hi
      obtain ⟨p, hp, hpi⟩ := h3 i hi
      exact List.mem_map.mpr ⟨p, hp, hpi⟩
    · intro hi
      obtain ⟨p, hp, hpi⟩ := List.mem_map.mp hi
      rw [← hpi]
      exact (h2 p hp).2.2.2

/-- Witness of the amended C18: the sequence `ex_unlinked_port_ops` in
the example system. -/
theorem C18_raw_numbers_are_the_set_bits_witness :
    (ex_after_unlinked_port_ops.control_softc.port_list.map
      (raw_port_num ex_consts ex_after_unlinked_port_ops)).Nodup ∧
    (∀ p ∈ ex_after_unlinked_port_ops.control_softc.port_list,
      0 ≤ raw_port_num ex_consts ex_after_unlinked_port_ops p ∧
      raw_port_num ex_consts ex_after_unlinked_port_ops p
        < (ex_consts.CTL_MAX_PORTS : Int)) ∧
    (∀ i : Int, ex_after_unlinked_port_ops.control_softc.ctl_port_mask i = true ↔
      i ∈ ex_after_unlinked_port_ops.control_softc.port_list.map
        (raw_port_num ex_consts ex_after_unlinked_port_ops)) :=
  C18_raw_numbers_are_the_set_bits ex_consts ex_callbacks ex_world
    ex_after_unlinked_port_ops ex_unlinked_port_ops ex_world_empty rfl

/-- The port lists of the frontends after a registration. -/
theorem registered_world_fe_list (c : ctl_consts) (w : World) (port : Nat)
    (master_shelf : Int) (m : Int) (pool : Nat) (fe : Nat) :
    ((registered_world c w port master_shelf m pool).frontends fe).port_list =
      if fe = (w.ports port).frontend then (w.frontends fe).port_list ++ [port]
      else (w.frontends fe).port_list := by
  by_cases hfe : fe = (w.ports port).frontend
  · subst hfe
    simp [registered_world]
  · simp [registered_world, Function.update, hfe]

/-- The events of a call of ctl_port_register: lock and unlock only, or lock
and unlock, one call of ctl_pool_create for num_requested_ctl_io + 20 io
structures, lock and unlock. -/
theorem ctl_port_register_trace (c : ctl_consts) (pool_create : Int → Int × Nat)
    (w : World) (port : Nat) (master_shelf : Int) :
    (ctl_port_register c pool_create w port master_shelf).trace
      = [Event.mtx_lock, Event.mtx_unlock] ∨
    (ctl_port_register c pool_create w port master_shelf).trace
      = [Event.mtx_lock, Event.mtx_unlock,
         Event.ctl_pool_create ((w.ports port).num_requested_ctl_io + 20),
         Event.mtx_lock, Event.mtx_unlock] := by
  rcases ctl_ffz_spec w.control_softc.ctl_port_mask c.CTL_MAX_PORTS with
    ⟨h0, _⟩ | ⟨m, _, hm2, hm3, _⟩
  · left
    rw [ctl_port_register_full c pool_create w port master_shelf h0]
  · right
    by_cases hpool : (pool_create ((w.ports port).num_requested_ctl_io + 20)).1 = 0
    · rw [ctl_port_register_ok c pool_create w port master_shelf m hm2 hm3 hpool]
    · rw [ctl_port_register_poolfail c pool_create w port master_shelf m hm2 hm3 hpool]

/-- C21: in every call of ctl_port_register, each call of ctl_pool_create asks
for exactly port->num_requested_ctl_io + 20 io structures, and there is at
most one such call; there is one exactly when a free raw number was found. -/
theorem C21_pool_capacity_and_single_call (c : ctl_consts) (pool_create : Int → Int × Nat)
    (w : World) (port : Nat) (master_shelf : Int) :
    (∀ num_ctl_io : Int,
      Event.ctl_pool_create num_ctl_io ∈
        (ctl_port_register c pool_create w port master_shelf).trace →
      num_ctl_io = (w.ports port).num_requested_ctl_io + 20) ∧
    ((ctl_port_register c pool_create w port master_shelf).trace.filter is_pool_create).length
      ≤ 1 ∧
    (ctl_ffz w.control_softc.ctl_port_mask c.CTL_MAX_PORTS ≠ -1 →
      (ctl_port_register c pool_create w port master_shelf).trace.filter is_pool_create
        = [Event.ctl_pool_create ((w.ports port).num_requested_ctl_io + 20)]) ∧
    (ctl_ffz w.control_softc.ctl_port_mask c.CTL_MAX_PORTS = -1 →
      (ctl_port_register c pool_create w port master_shelf).trace.filter is_pool_create
        = []) := by
  have hfull : ctl_ffz w.control_softc.ctl_port_mask c.CTL_MAX_PORTS = -1 →
      (ctl_port_register c pool_create w port master_shelf).trace
        = [Event.mtx_lock, Event.mtx_unlock] := by
    intro h0
    rw [ctl_port_register_full c pool_create w port master_shelf h0]
  have hfree : ctl_ffz w.control_softc.ctl_port_mask c.CTL_MAX_PORTS ≠ -1 →
      (ctl_port_register c pool_create w port master_shelf).trace
        = [Event.mtx_lock, Event.mtx_unlock,
           Event.ctl_pool_create ((w.ports port).num_requested_ctl_io + 20),
           Event.mtx_lock, Event.mtx_unlock] := by
    intro hne
    rcases ctl_ffz_spec w.control_softc.ctl_port_mask c.CTL_MAX_PORTS with
      ⟨h0, _⟩ | ⟨m, _, hm2, hm3, _⟩
    · exact absurd h0 hne
    · by_cases hpool : (pool_create ((w.ports port).num_requested_ctl_io + 20)).1 = 0
      · rw [ctl_port_register_ok c pool_create w port master_shelf m hm2 hm3 hpool]
      · rw [ctl_port_register_poolfail c pool_create w port master_shelf m hm2 hm3 hpool]
  refine ⟨?_, ?_, ?_, ?_⟩
  · intro num_ctl_io hin
    rcases ctl_port_register_trace c pool_create w port master_shelf with ht | ht
    · rw [ht] at hin
      simp at hin
    · rw [ht] at hin
      simpa using hin
  · rcases ctl_port_register_trace c pool_create w port master_shelf with ht | ht
    · rw [ht]
      simp [is_pool_create]
    · rw [ht]
      simp [is_pool_create]
  · intro hne
    rw [hfree hne]
    simp [is_pool_create]
  · intro h0
    rw [hfull h0]
    simp [is_pool_create]

/-- Witness of C21: a registration into the empty example registry. -/
theorem C21_pool_capacity_and_single_call_witness :
    (∀ num_ctl_io : Int,
      Event.ctl_pool_create num_ctl_io ∈
        (ctl_port_register ex_consts pool_ok ex_world 5 1).trace →
      num_ctl_io = (ex_world.ports 5).num_requested_ctl_io + 20) ∧
    ((ctl_port_register ex_consts pool_ok ex_world 5 1).trace.filter is_pool_create).length
      ≤ 1 ∧
    (ctl_ffz ex_world.control_softc.ctl_port_mask ex_consts.CTL_MAX_PORTS ≠ -1 →
      (ctl_port_register ex_consts pool_ok ex_world 5 1).trace.filter is_pool_create
        = [Event.ctl_pool_create ((ex_world.ports 5).num_requested_ctl_io + 20)]) ∧
    (ctl_ffz ex_world.control_softc.ctl_port_mask ex_consts.CTL_MAX_PORTS = -1 →
      (ctl_port_register ex_consts pool_ok ex_world 5 1).trace.filter is_pool_create
        = []) :=
  C21_pool_capacity_and_single_call ex_consts pool_ok ex_world 5 1

/-! ## Port state control -/

/-- Setting a flag: afterwards all bits of the flag are set. -/
theorem status_set_and (status flag : Nat) : status_set status flag &&& flag = flag := by
  apply Nat.eq_of_testBit_eq
  intro i
  simp only [status_set, Nat.testBit_and, Nat.testBit_or]
  cases status.testBit i <;> cases flag.testBit i <;> rfl

/-- Clearing a flag: afterwards no bit of the flag is set. -/
theorem status_clear_and (status flag : Nat) : status_clear status flag &&& flag = 0 := by
  apply Nat.eq_of_testBit_eq
  intro i
  simp only [status_clear, Nat.testBit_and, Nat.testBit_ldiff, Nat.zero_testBit]
  cases status.testBit i <;> cases flag.testBit i <;> rfl

/-- The status of the port after ctl_port_online. -/
theorem ctl_port_online_status (c : ctl_consts) (cb : Callbacks) (w : World) (port : Nat) :
    ((ctl_port_online c cb w port).1.ports port).status
      = status_set
          (((cb.call1 (w.ports port).port_online (w.ports port).onoff_arg w).ports port).status)
          c.CTL_PORT_STATUS_ONLINE := by
  simp [ctl_port_online, World.upd_port, status_set]

/-- The status of the port after ctl_port_offline. -/
theorem ctl_port_offline_status (c : ctl_consts) (cb : Callbacks) (w : World) (port : Nat) :
    ((ctl_port_offline c cb w port).1.ports port).status
      = status_clear
          (((cb.call1 (w.ports port).port_offline (w.ports port).onoff_arg w).ports port).status)
          c.CTL_PORT_STATUS_ONLINE := by
  simp [ctl_port_offline, World.upd_port, status_clear]

/-- C22: ctl_port_online calls the port's port_online routine with onoff_arg,
once, and then sets CTL_PORT_STATUS_ONLINE in the status the routine left, so
the flag is set afterwards; ctl_port_offline calls port_offline with
onoff_arg, once, and then clears the flag, so the flag is clear afterwards.
Hence after online followed by offline the flag is clear, and after offline
followed by online it is set, whatever the status was and whatever the
routines do to memory. -/
theorem C22_port_online_offline (c : ctl_consts) (cb : Callbacks) (w : World) (port : Nat) :
    (ctl_port_online c cb w port).2
      = [Event.port_online (w.ports port).port_online (w.ports port).onoff_arg] ∧
    (ctl_port_online c cb w port).1
      = (cb.call1 (w.ports port).port_online (w.ports port).onoff_arg w).upd_port port
          (fun p => { p with status := p.status ||| c.CTL_PORT_STATUS_ONLINE }) ∧
    ((ctl_port_online c cb w port).1.ports port).status &&& c.CTL_PORT_STATUS_ONLINE
      = c.CTL_PORT_STATUS_ONLINE ∧
    (ctl_port_offline c cb w port).2
      = [Event.port_offline (w.ports port).port_offline (w.ports port).onoff_arg] ∧
    (ctl_port_offline c cb w port).1
      = (cb.call1 (w.ports port).port_offline (w.ports port).onoff_arg w).upd_port port
          (fun p => { p with status := Nat.ldiff p.status c.CTL_PORT_STATUS_ONLINE }) ∧
    ((ctl_port_offline c cb w port).1.ports port).status &&& c.CTL_PORT_STATUS_ONLINE = 0 ∧
    ((ctl_port_offline c cb (ctl_port_online c cb w port).1 port).1.ports port).status
      &&& c.CTL_PORT_STATUS_ONLINE = 0 ∧
    ((ctl_port_online c cb (ctl_port_offline c cb w port).1 port).1.ports port).status
      &&& c.CTL_PORT_STATUS_ONLINE = c.CTL_PORT_STATUS_ONLINE := by
  refine ⟨rfl, rfl, ?_, rfl, rfl, ?_, ?_, ?_⟩
  · rw [ctl_port_online_status]
    exact status_set_and _ _
  · rw [ctl_port_offline_status]
    exact status_clear_and _ _
  · rw [ctl_port_offline_status]
    exact status_clear_and _ _
  · rw [ctl_port_online_status]
    exact status_set_and _ _

/-! ## What a registration does to the registry and to the port -/

/-- C23: after a call of ctl_port_register that returns 0 and reserved raw slot
n (the lowest index whose bit was clear), bit n of the mask is set, num_ports
is one higher, the port list of the owning frontend is the old list followed
by the port, the global port list is the old list followed by the port, and
ctl_ports[n] is the port. -/
theorem C23_register_links_port (c : ctl_consts) (pool_create : Int → Int × Nat)
    (w : World) (port : Nat) (master_shelf : Int)
    (hok : (ctl_port_register c pool_create w port master_shelf).retval = 0) :
    ∃ n : Int, n = ctl_ffz w.control_softc.ctl_port_mask c.CTL_MAX_PORTS ∧
      0 ≤ n ∧ n < (c.CTL_MAX_PORTS : Int) ∧
      w.control_softc.ctl_port_mask n = false ∧
      (ctl_port_register c pool_create w port master_shelf).world.control_softc.ctl_port_mask n
        = true ∧
      (ctl_port_register c pool_create w port master_shelf).world.control_softc.num_ports
        = w.control_softc.num_ports + 1 ∧
      ((ctl_port_register c pool_create w port master_shelf).world.ports port).frontend
        = (w.ports port).frontend ∧
      ((ctl_port_register c pool_create w port master_shelf).world.frontends
          (w.ports port).frontend).port_list
        = (w.frontends (w.ports port).frontend).port_list ++ [port] ∧
      (ctl_port_register c pool_create w port master_shelf).world.control_softc.port_list
        = w.control_softc.port_list ++ [port] ∧
      (ctl_port_register c pool_create w port master_shelf).world.control_softc.ctl_ports n
        = some port := by
  obtain ⟨m, hm1, hm2, hm3, _, hpool⟩ :=
    ctl_port_register_retval_zero c pool_create w port master_shelf hok
  rw [ctl_port_register_ok c pool_create w port master_shelf m hm2 hm3 hpool]
  refine ⟨(m : Int), hm2.symm, by omega, by omega, hm3, ?_, rfl, ?_, ?_, rfl, ?_⟩
  · simp [registered_world]
  · exact registered_world_frontend c w port master_shelf _ _ port
  · rw [registered_world_fe_list, if_pos rfl]
  · simp [registered_world]

/-- Witness of C23: the second port registered in the example system. -/
theorem C23_register_links_port_witness :
    ∃ n : Int, n = ctl_ffz ex_world_one.control_softc.ctl_port_mask ex_consts.CTL_MAX_PORTS ∧
      0 ≤ n ∧ n < (ex_consts.CTL_MAX_PORTS : Int) ∧
      ex_world_one.control_softc.ctl_port_mask n = false ∧
      (ctl_port_register ex_consts pool_ok ex_world_one 6 0).world.control_softc.ctl_port_mask n
        = true ∧
      (ctl_port_register ex_consts pool_ok ex_world_one 6 0).world.control_softc.num_ports
        = ex_world_one.control_softc.num_ports + 1 ∧
      ((ctl_port_register ex_consts pool_ok ex_world_one 6 0).world.ports 6).frontend
        = (ex_world_one.ports 6).frontend ∧
      ((ctl_port_register ex_consts pool_ok ex_world_one 6 0).world.frontends
          (ex_world_one.ports 6).frontend).port_list
        = (ex_world_one.frontends (ex_world_one.ports 6).frontend).port_list ++ [6] ∧
      (ctl_port_register ex_consts pool_ok ex_world_one 6 0).world.control_softc.port_list
        = ex_world_one.control_softc.port_list ++ [6] ∧
      (ctl_port_register ex_consts pool_ok ex_world_one 6 0).world.control_softc.ctl_ports n
        = some 6 :=
  C23_register_links_port ex_consts pool_ok ex_world_one 6 0 (by decide)

/-- C24: when ctl_port_register returns non-zero, the port's targ_port is -1
afterwards, its pool reference is the one it had before the call, and the
global port list, all frontend port lists and the indexed table are as before
the call, so the call has added the port to none of them; and when it returns
0, the port is on the global port list, on the port list of its frontend and
in a slot of the indexed table. -/
theorem C24_register_failure_leaves_port_unlinked (c : ctl_consts)
    (pool_create : Int → Int × Nat) (w : World) (port : Nat) (master_shelf : Int) :
    ((ctl_port_register c pool_create w port master_shelf).retval ≠ 0 →
      ((ctl_port_register c pool_create w port master_shelf).world.ports port).targ_port
        = -1 ∧
      ((ctl_port_register c pool_create w port master_shelf).world.ports port).ctl_pool_ref
        = (w.ports port).ctl_pool_ref ∧
      (ctl_port_register c pool_create w port master_shelf).world.control_softc.port_list
        = w.control_softc.port_list ∧
      (ctl_port_register c pool_create w port master_shelf).world.frontends = w.frontends ∧
      (ctl_port_register c pool_create w port master_shelf).world.control_softc.ctl_ports
        = w.control_softc.ctl_ports ∧
      (port ∉ w.control_softc.port_list →
        port ∉ (ctl_port_register c pool_create w port
          master_shelf).world.control_softc.port_list) ∧
      (∀ fe : Nat, port ∉ (w.frontends fe).port_list →
        port ∉ ((ctl_port_register c pool_create w port
          master_shelf).world.frontends fe).port_list) ∧
      (∀ i : Int, w.control_softc.ctl_ports i ≠ some port →
        (ctl_port_register c pool_create w port master_shelf).world.control_softc.ctl_ports i
          ≠ some port)) ∧
    ((ctl_port_register c pool_create w port master_shelf).retval = 0 →
      port ∈ (ctl_port_register c pool_create w port
        master_shelf).world.control_softc.port_list ∧
      port ∈ ((ctl_port_register c pool_create w port master_shelf).world.frontends
        ((ctl_port_register c pool_create w port master_shelf).world.ports
          port).frontend).port_list ∧
      ∃ n : Int, 0 ≤ n ∧ n < (c.CTL_MAX_PORTS : Int) ∧
        (ctl_port_register c pool_create w port master_shelf).world.control_softc.ctl_ports n
          = some port) := by
  rcases ctl_port_register_cases c pool_create w port master_shelf with
    ⟨hr, hw⟩ | ⟨hr, hw⟩ | ⟨m, hm, _, hr, hw⟩
  · constructor
    · intro _
      rw [hw]
      refine ⟨by simp [World.upd_port], by simp [World.upd_port], rfl, rfl, rfl,
        fun h => h, fun _ h => h, fun _ h => h⟩
    · intro h0
      rw [hr] at h0
      exact absurd h0 (by decide)
  · constructor
    · intro _
      rw [hw]
      refine ⟨by simp, by simp, rfl, rfl, rfl, fun h => h, fun _ h => h, fun _ h => h⟩
    · intro h0
      exact absurd h0 hr
  · constructor
    · intro hne
      exact absurd hr hne
    · intro _
      rw [hw]
      refine ⟨by simp [registered_world], ?_, (m : Int), by omega, by omega,
        by simp [registered_world]⟩
      rw [registered_world_frontend]
      exact registered_world_fe_list_self c w port master_shelf _ _

/-- Witness of C24: a registration that fails on its pool and one that goes
through, in the example system. -/
theorem C24_register_failure_leaves_port_unlinked_witness :
    (((ctl_port_register ex_consts pool_fail ex_world 5 1).world.ports 5).targ_port = -1 ∧
      ((ctl_port_register ex_consts pool_fail ex_world 5 1).world.ports 5).ctl_pool_ref
        = (ex_world.ports 5).ctl_pool_ref ∧
      (ctl_port_register ex_consts pool_fail ex_world 5 1).world.control_softc.port_list
        = ex_world.control_softc.port_list ∧
      (ctl_port_register ex_consts pool_fail ex_world 5 1).world.frontends
        = ex_world.frontends ∧
      (ctl_port_register ex_consts pool_fail ex_world 5 1).world.control_softc.ctl_ports
        = ex_world.control_softc.ctl_ports ∧
      (5 ∉ ex_world.control_softc.port_list →
        5 ∉ (ctl_port_register ex_consts pool_fail ex_world 5 1).world.control_softc.port_list) ∧
      (∀ fe : Nat, 5 ∉ (ex_world.frontends fe).port_list →
        5 ∉ ((ctl_port_register ex_consts pool_fail ex_world 5 1).world.frontends
          fe).port_list) ∧
      (∀ i : Int, ex_world.control_softc.ctl_ports i ≠ some 5 →
        (ctl_port_register ex_consts pool_fail ex_world 5 1).world.control_softc.ctl_ports i
          ≠ some 5)) ∧
    (5 ∈ (ctl_port_register ex_consts pool_ok ex_world 5 1).world.control_softc.port_list ∧
      5 ∈ ((ctl_port_register ex_consts pool_ok ex_world 5 1).world.frontends
        ((ctl_port_register ex_consts pool_ok ex_world 5 1).world.ports 5).frontend).port_list ∧
      ∃ n : Int, 0 ≤ n ∧ n < (ex_consts.CTL_MAX_PORTS : Int) ∧
        (ctl_port_register ex_consts pool_ok ex_world 5 1).world.control_softc.ctl_ports n
          = some 5) :=
  ⟨(C24_register_failure_leaves_port_unlinked ex_consts pool_fail ex_world 5 1).1 (by decide),
   (C24_register_failure_leaves_port_unlinked ex_consts pool_ok ex_world 5 1).2 (by decide)⟩

/-! ## Locking and callbacks of frontend registration -/

/-- C25, counterexample: in the example system the frontends at the addresses
1 and 2 have the same name, and the init routine of frontend 1 registers
frontend 2.  The registration of frontend 1 takes the lock, makes the name
check, drops the lock, calls init, and takes the lock a second time for the
insertion: its events are lock, unlock, init, lock, unlock.  The registration
of frontend 2 made in between returns 0, the registration of frontend 1
returns 0 as well, and the frontend list then holds both. -/
theorem C25_check_and_insert_counterexample :
    (ex_world_init.frontends 1).name = (ex_world_init.frontends 2).name ∧
    ex_world_init.control_softc.fe_list = [] ∧
    (ctl_frontend_register ex_reentrant ex_world_init 1).trace
      = [Event.mtx_lock, Event.mtx_unlock, Event.fe_init 200,
         Event.mtx_lock, Event.mtx_unlock] ∧
    (ctl_frontend_register ex_callbacks (frontend_list_init ex_world_init 1) 2).retval = 0 ∧
    (ctl_frontend_register ex_reentrant ex_world_init 1).retval = 0 ∧
    (ctl_frontend_register ex_reentrant ex_world_init 1).world.control_softc.fe_list
      = [2, 1] ∧
    (ctl_frontend_register ex_reentrant ex_world_init 1).world.control_softc.num_frontends
      = 2 := by
  refine ⟨by decide, by decide, by decide, by decide, by decide, by decide, by decide⟩

/-- C25, amended: in a ctl_frontend_register that finds no frontend with the
name of fe, the name check and the insertion are made under two acquisitions
of the lock: the events are lock, unlock, the call of the init routine if
there is one, lock, unlock.  The check is made on the frontend list of the
call's start; the insertion appends fe to the frontend list that is there at
the second acquisition, whatever was put on it in between, and there is no
second check. -/
theorem C25_check_and_insert_two_lock_sections (cb : Callbacks) (w : World) (fe : Nat)
    (hnew : ∀ x ∈ w.control_softc.fe_list, (w.frontends x).name ≠ (w.frontends fe).name) :
    (ctl_frontend_register cb w fe).retval = 0 ∧
    (ctl_frontend_register cb w fe).trace
      = [Event.mtx_lock, Event.mtx_unlock] ++
        (match (w.frontends fe).init with
         | some fn => [Event.fe_init fn]
         | none => []) ++ [Event.mtx_lock, Event.mtx_unlock] ∧
    ((ctl_frontend_register cb w fe).trace.filter is_mtx_lock).length = 2 ∧
    (ctl_frontend_register cb w fe).world.control_softc.fe_list
      = (frontend_init_world cb w fe).control_softc.fe_list ++ [fe] ∧
    (∀ x ∈ (frontend_init_world cb w fe).control_softc.fe_list,
      x ∈ (ctl_frontend_register cb w fe).world.control_softc.fe_list) ∧
    fe ∈ (ctl_frontend_register cb w fe).world.control_softc.fe_list := by
  rw [ctl_frontend_register_new cb w fe hnew]
  refine ⟨rfl, rfl, ?_, rfl, ?_, ?_⟩
  · cases (w.frontends fe).init <;> simp [is_mtx_lock]
  · intro x hx
    exact List.mem_append_left _ hx
  · exact List.mem_append_right _ (List.mem_singleton_self fe)

/-- Witness of the amended C25: the frontend at address 1 of the example
system, whose init routine registers the frontend at address 2. -/
theorem C25_check_and_insert_two_lock_sections_witness :
    (ctl_frontend_register ex_reentrant ex_world_init 1).retval = 0 ∧
    (ctl_frontend_register ex_reentrant ex_world_init 1).trace
      = [Event.mtx_lock, Event.mtx_unlock] ++
        (match (ex_world_init.frontends 1).init with
         | some fn => [Event.fe_init fn]
         | none => []) ++ [Event.mtx_lock, Event.mtx_unlock] ∧
    ((ctl_frontend_register ex_reentrant ex_world_init 1).trace.filter is_mtx_lock).length
      = 2 ∧
    (ctl_frontend_register ex_reentrant ex_world_init 1).world.control_softc.fe_list
      = (frontend_init_world ex_reentrant ex_world_init 1).control_softc.fe_list ++ [1] ∧
    (∀ x ∈ (frontend_init_world ex_reentrant ex_world_init 1).control_softc.fe_list,
      x ∈ (ctl_frontend_register ex_reentrant ex_world_init 1).world.control_softc.fe_list) ∧
    1 ∈ (ctl_frontend_register ex_reentrant ex_world_init 1).world.control_softc.fe_list :=
  C25_check_and_insert_two_lock_sections ex_reentrant ex_world_init 1 (by decide)

/-- C26: ctl_frontend_register calls no init routine when the name is already
on the list.  When it is not and fe has an init routine, the routine is called
exactly once, between the two lock sections, on memory in which fe's port list
is initialised and fe is not on the frontend list; fe is appended to the list
the routine leaves.  ctl_frontend_deregister calls no shutdown routine when fe
still has ports.  When fe has none and is on the list and has a shutdown
routine, the routine is called exactly once, after the lock section, on memory
in which fe is off the list and the count is one lower.  Without a routine the
call is skipped, the result is 0 all the same and the memory is the one the
routine would have been given. -/
theorem C26_callback_discipline :
    (∀ (cb : Callbacks) (w : World) (fe : Nat),
      (∃ fe_tmp ∈ w.control_softc.fe_list,
        (w.frontends fe_tmp).name = (w.frontends fe).name) →
      (ctl_frontend_register cb w fe).retval = -1 ∧
      ∀ fn : Nat, Event.fe_init fn ∉ (ctl_frontend_register cb w fe).trace) ∧
    (∀ (cb : Callbacks) (w : World) (fe : Nat) (fn : Nat),
      (∀ x ∈ w.control_softc.fe_list, (w.frontends x).name ≠ (w.frontends fe).name) →
      (w.frontends fe).init = some fn →
      (ctl_frontend_register cb w fe).retval = 0 ∧
      (ctl_frontend_register cb w fe).trace
        = [Event.mtx_lock, Event.mtx_unlock, Event.fe_init fn,
           Event.mtx_lock, Event.mtx_unlock] ∧
      (ctl_frontend_register cb w fe).trace.count (Event.fe_init fn) = 1 ∧
      fe ∉ (frontend_list_init w fe).control_softc.fe_list ∧
      ((frontend_list_init w fe).frontends fe).port_list = [] ∧
      (ctl_frontend_register cb w fe).world.control_softc.fe_list
        = (cb.call0 fn (frontend_list_init w fe)).control_softc.fe_list ++ [fe] ∧
      (ctl_frontend_register cb w fe).world.control_softc.num_frontends
        = (cb.call0 fn (frontend_list_init w fe)).control_softc.num_frontends + 1) ∧
    (∀ (cb : Callbacks) (w : World) (fe : Nat),
      (∀ x ∈ w.control_softc.fe_list, (w.frontends x).name ≠ (w.frontends fe).name) →
      (w.frontends fe).init = none →
      (ctl_frontend_register cb w fe).retval = 0 ∧
      (ctl_frontend_register cb w fe).trace
        = [Event.mtx_lock, Event.mtx_unlock, Event.mtx_lock, Event.mtx_unlock] ∧
      (ctl_frontend_register cb w fe).world.control_softc.fe_list
        = (frontend_list_init w fe).control_softc.fe_list ++ [fe] ∧
      (ctl_frontend_register cb w fe).world.control_softc.num_frontends
        = (frontend_list_init w fe).control_softc.num_frontends + 1) ∧
    (∀ (cb : Callbacks) (w : World) (fe : Nat),
      (w.frontends fe).port_list ≠ [] →
      ctl_frontend_deregister cb w fe = some { retval := -1, world := w, trace := [] }) ∧
    (∀ (cb : Callbacks) (w : World) (fe : Nat) (fn : Nat),
      (w.frontends fe).port_list = [] → fe ∈ w.control_softc.fe_list →
      (w.frontends fe).shutdown = some fn →
      ctl_frontend_deregister cb w fe =
        some { retval := 0
               world := cb.call0 fn (frontend_removed_world w fe)
               trace := [Event.mtx_lock, Event.mtx_unlock, Event.fe_shutdown fn] }) ∧
    (∀ (cb : Callbacks) (w : World) (fe : Nat),
      (w.frontends fe).port_list = [] → fe ∈ w.control_softc.fe_list →
      (w.frontends fe).shutdown = none →
      ctl_frontend_deregister cb w fe =
        some { retval := 0
               world := frontend_removed_world w fe
               trace := [Event.mtx_lock, Event.mtx_unlock] }) := by
  refine ⟨?_, ?_, ?_, ?_, ?_, ?_⟩
  · intro cb w fe hdup
    rw [ctl_frontend_register_dup cb w fe hdup]
    refine ⟨rfl, ?_⟩
    intro fn
    simp
  · intro cb w fe fn hnew hinit
    have hfe : fe ∉ w.control_softc.fe_list := fun hin => hnew fe hin rfl
    have hiw : frontend_init_world cb w fe = cb.call0 fn (frontend_list_init w fe) := by
      unfold frontend_init_world
      rw [hinit]
    rw [ctl_frontend_register_new cb w fe hnew, hinit, hiw]
    refine ⟨rfl, rfl, by simp, hfe, ?_, rfl, rfl⟩
    simp [frontend_list_init, World.upd_frontend]
  · intro cb w fe hnew hinit
    have hiw : frontend_init_world cb w fe = frontend_list_init w fe := by
      unfold frontend_init_world
      rw [hinit]
    rw [ctl_frontend_register_new cb w fe hnew, hinit, hiw]
    exact ⟨rfl, rfl, rfl, rfl⟩
  · intro cb w fe hbusy
    exact ctl_frontend_deregister_busy cb w fe hbusy
  · intro cb w fe fn hp hin hs
    rw [ctl_frontend_deregister_ok cb w fe hp hin, hs]
  · intro cb w fe hp hin hs
    rw [ctl_frontend_deregister_ok cb w fe hp hin, hs]

/-- Witness of C26 in the example system: frontend 2 bounced by the name of the
registered frontend 1; frontend 1 with its init routine; frontend 3 without
one; the frontend at address 0 with a port attached; frontend 1 with its
shutdown routine; frontend 1 of the plain example without one. -/
theorem C26_callback_discipline_witness :
    ((ctl_frontend_register ex_callbacks ex_world_init_registered 2).retval = -1 ∧
      ∀ fn : Nat, Event.fe_init fn ∉
        (ctl_frontend_register ex_callbacks ex_world_init_registered 2).trace) ∧
    ((ctl_frontend_register ex_callbacks ex_world_init 1).retval = 0 ∧
      (ctl_frontend_register ex_callbacks ex_world_init 1).trace
        = [Event.mtx_lock, Event.mtx_unlock, Event.fe_init 200,
           Event.mtx_lock, Event.mtx_unlock] ∧
      (ctl_frontend_register ex_callbacks ex_world_init 1).trace.count (Event.fe_init 200)
        = 1 ∧
      1 ∉ (frontend_list_init ex_world_init 1).control_softc.fe_list ∧
      ((frontend_list_init ex_world_init 1).frontends 1).port_list = [] ∧
      (ctl_frontend_register ex_callbacks ex_world_init 1).world.control_softc.fe_list
        = (ex_callbacks.call0 200
            (frontend_list_init ex_world_init 1)).control_softc.fe_list ++ [1] ∧
      (ctl_frontend_register ex_callbacks ex_world_init 1).world.control_softc.num_frontends
        = (ex_callbacks.call0 200
            (frontend_list_init ex_world_init 1)).control_softc.num_frontends + 1) ∧
    ((ctl_frontend_register ex_callbacks ex_world_init 3).retval = 0 ∧
      (ctl_frontend_register ex_callbacks ex_world_init 3).trace
        = [Event.mtx_lock, Event.mtx_unlock, Event.mtx_lock, Event.mtx_unlock] ∧
      (ctl_frontend_register ex_callbacks ex_world_init 3).world.control_softc.fe_list
        = (frontend_list_init ex_world_init 3).control_softc.fe_list ++ [3] ∧
      (ctl_frontend_register ex_callbacks ex_world_init 3).world.control_softc.num_frontends
        = (frontend_list_init ex_world_init 3).control_softc.num_frontends + 1) ∧
    ctl_frontend_deregister ex_callbacks ex_world_one 0
      = some { retval := -1, world := ex_world_one, trace := [] } ∧
    ctl_frontend_deregister ex_callbacks ex_world_init_registered 1
      = some { retval := 0
               world := ex_callbacks.call0 201
                 (frontend_removed_world ex_world_init_registered 1)
               trace := [Event.mtx_lock, Event.mtx_unlock, Event.fe_shutdown 201] } ∧
    ctl_frontend_deregister ex_callbacks ex_world_iscsi 1
      = some { retval := 0
               world := frontend_removed_world ex_world_iscsi 1
               trace := [Event.mtx_lock, Event.mtx_unlock] } :=
  ⟨C26_callback_discipline.1 ex_callbacks ex_world_init_registered 2
      ⟨1, by decide, by decide⟩,
   C26_callback_discipline.2.1 ex_callbacks ex_world_init 1 200 (by decide) (by decide),
   C26_callback_discipline.2.2.1 ex_callbacks ex_world_init 3 (by decide) (by decide),
   C26_callback_discipline.2.2.2.1 ex_callbacks ex_world_one 0 (by decide),
   C26_callback_discipline.2.2.2.2.1 ex_callbacks ex_world_init_registered 1 201
      (by decide) (by decide) (by decide),
   C26_callback_discipline.2.2.2.2.2 ex_callbacks ex_world_iscsi 1
      (by decide) (by decide) (by decide)⟩

/-- C27: after a call of ctl_port_register that returns 0, the port's pool
reference is the pool that ctl_pool_create handed out, its max_initiators is
CTL_MAX_INIT_PER_PORT, and its option list is the caller's list when that list
is not empty; a list head that was never initialised is an initialised empty
list afterwards, and an initialised empty list stays one. -/
theorem C27_register_sets_port_fields (c : ctl_consts) (pool_create : Int → Int × Nat)
    (w : World) (port : Nat) (master_shelf : Int)
    (hok : (ctl_port_register c pool_create w port master_shelf).retval = 0) :
    ((ctl_port_register c pool_create w port master_shelf).world.ports port).ctl_pool_ref
      = some (pool_create ((w.ports port).num_requested_ctl_io + 20)).2 ∧
    ((ctl_port_register c pool_create w port master_shelf).world.ports port).max_initiators
      = c.CTL_MAX_INIT_PER_PORT ∧
    (∀ l : List (String × String), (w.ports port).options = some l → l ≠ [] →
      ((ctl_port_register c pool_create w port master_shelf).world.ports port).options
        = some l) ∧
    ((w.ports port).options = none →
      ((ctl_port_register c pool_create w port master_shelf).world.ports port).options
        = some []) ∧
    ((w.ports port).options = some [] →
      ((ctl_port_register c pool_create w port master_shelf).world.ports port).options
        = some []) := by
  obtain ⟨m, _, hm2, hm3, _, hpool⟩ :=
    ctl_port_register_retval_zero c pool_create w port master_shelf hok
  rw [ctl_port_register_ok c pool_create w port master_shelf m hm2 hm3 hpool]
  refine ⟨by simp [registered_world], by simp [registered_world], ?_, ?_, ?_⟩
  · intro l hl hne
    have hnull : stqh_first_is_null (w.ports port).options = false := by
      rw [hl]
      cases l with
      | nil => exact absurd rfl hne
      | cons a t => rfl
    rw [hl] at hnull
    simp [registered_world, hl, hnull]
  · intro hnone
    simp [registered_world, hnone, stqh_first_is_null]
  · intro hsome
    simp [registered_world, hsome, stqh_first_is_null]

/-- Witness of C27: the port at address 5 of the example system, handed over
with one option. -/
theorem C27_register_sets_port_fields_witness :
    ((ctl_port_register ex_consts pool_ok ex_world_options 5 1).world.ports 5).ctl_pool_ref
      = some (pool_ok ((ex_world_options.ports 5).num_requested_ctl_io + 20)).2 ∧
    ((ctl_port_register ex_consts pool_ok ex_world_options 5 1).world.ports 5).max_initiators
      = ex_consts.CTL_MAX_INIT_PER_PORT ∧
    (∀ l : List (String × String), (ex_world_options.ports 5).options = some l → l ≠ [] →
      ((ctl_port_register ex_consts pool_ok ex_world_options 5 1).world.ports 5).options
        = some l) ∧
    ((ex_world_options.ports 5).options = none →
      ((ctl_port_register ex_consts pool_ok ex_world_options 5 1).world.ports 5).options
        = some []) ∧
    ((ex_world_options.ports 5).options = some [] →
      ((ctl_port_register ex_consts pool_ok ex_world_options 5 1).world.ports 5).options
        = some []) :=
  C27_register_sets_port_fields ex_consts pool_ok ex_world_options 5 1 (by decide)

/-! ## Frame of a deregistration -/

/-- C28: in a registry in which the linked ports are numbered (different
ports, each in the table slot of its raw number, whose bit is set), a
ctl_port_deregister(p) that returns 0 leaves, for every other port on the
global port list, its mask bit, its table slot and its targ_port as they
were; the global port list and the port list of p's frontend lose the entry p
and keep the order of the others; the port lists of the other frontends, the
frontend list and num_frontends are unchanged. -/
theorem C28_deregister_frame (c : ctl_consts) (w : World) (p : Nat) (r : Result)
    (hinv : ports_numbered c w)
    (hd : ctl_port_deregister c w p = some r) (hok : r.retval = 0) :
    (∀ q ∈ w.control_softc.port_list, q ≠ p →
      r.world.control_softc.ctl_port_mask (raw_port_num c w q)
        = w.control_softc.ctl_port_mask (raw_port_num c w q) ∧
      r.world.control_softc.ctl_ports (raw_port_num c w q)
        = w.control_softc.ctl_ports (raw_port_num c w q) ∧
      (r.world.ports q).targ_port = (w.ports q).targ_port) ∧
    (∃ l1 l2 : List Nat, w.control_softc.port_list = l1 ++ p :: l2 ∧
      r.world.control_softc.port_list = l1 ++ l2) ∧
    (∃ l1 l2 : List Nat, (w.frontends (w.ports p).frontend).port_list = l1 ++ p :: l2 ∧
      (r.world.frontends (w.ports p).frontend).port_list = l1 ++ l2) ∧
    (∀ fe : Nat, fe ≠ (w.ports p).frontend →
      (r.world.frontends fe).port_list = (w.frontends fe).port_list) ∧
    r.world.control_softc.fe_list = w.control_softc.fe_list ∧
    r.world.control_softc.num_frontends = w.control_softc.num_frontends := by
  rcases ctl_port_deregister_some c w p r hd with ⟨_, hr⟩ | ⟨_, hin, hfe, hr⟩
  · rw [hr] at hok
    simp at hok
  · rw [hr]
    obtain ⟨_, h2, _⟩ := hinv
    have hd' : decode_targ_port c (w.ports p).targ_port = raw_port_num c w p := rfl
    have hne : ∀ q ∈ w.control_softc.port_list, q ≠ p →
        raw_port_num c w q ≠ raw_port_num c w p := by
      intro q hq hqp heq
      have g1 := (h2 q hq).2.2.1
      have g2 := (h2 p hin).2.2.1
      rw [heq, g2] at g1
      exact hqp (Option.some.inj g1).symm
    refine ⟨?_, ?_, ?_, ?_, rfl, rfl⟩
    · intro q hq hqp
      refine ⟨?_, ?_, deregistered_world_targ_port c w p q⟩
      · rw [deregistered_world_mask, hd', if_neg (hne q hq hqp)]
      · show Function.update w.control_softc.ctl_ports
          (decode_targ_port c (w.ports p).targ_port) none (raw_port_num c w q) = _
        rw [hd', Function.update_noteq (hne q hq hqp)]
    · obtain ⟨l1, l2, _, hsplit, herase⟩ := List.exists_erase_eq hin
      exact ⟨l1, l2, hsplit, herase⟩
    · obtain ⟨l1, l2, _, hsplit, herase⟩ := List.exists_erase_eq hfe
      refine ⟨l1, l2, hsplit, ?_⟩
      show ((deregistered_world c w p).frontends (w.ports p).frontend).port_list = _
      rw [deregistered_world_fe_list, if_pos rfl]
      exact herase
    · intro fe hfe'
      show ((deregistered_world c w p).frontends fe).port_list = _
      rw [deregistered_world_fe_list, if_neg hfe']

/-- In the full example registry the linked ports are numbered. -/
theorem ex_full_world_numbered : ports_numbered ex_consts ex_full_world :=
  ctl_port_register_numbered ex_consts pool_ok _ 13 1 (by decide!)
    (ctl_port_register_numbered ex_consts pool_ok _ 12 1 (by decide!)
      (ctl_port_register_numbered ex_consts pool_ok _ 11 1 (by decide!)
        (ctl_port_register_numbered ex_consts pool_ok _ 10 1 (by decide)
          (ports_numbered_of_empty ex_consts ex_world ex_world_empty))))

/-- Witness of C28: the port at address 11 deregistered in the full example
registry. -/
theorem C28_deregister_frame_witness :
    (∀ q ∈ ex_full_world.control_softc.port_list, q ≠ 11 →
      ex_full_minus_11.world.control_softc.ctl_port_mask
          (raw_port_num ex_consts ex_full_world q)
        = ex_full_world.control_softc.ctl_port_mask (raw_port_num ex_consts ex_full_world q) ∧
      ex_full_minus_11.world.control_softc.ctl_ports (raw_port_num ex_consts ex_full_world q)
        = ex_full_world.control_softc.ctl_ports (raw_port_num ex_consts ex_full_world q) ∧
      (ex_full_minus_11.world.ports q).targ_port = (ex_full_world.ports q).targ_port) ∧
    (∃ l1 l2 : List Nat, ex_full_world.control_softc.port_list = l1 ++ 11 :: l2 ∧
      ex_full_minus_11.world.control_softc.port_list = l1 ++ l2) ∧
    (∃ l1 l2 : List Nat,
      (ex_full_world.frontends (ex_full_world.ports 11).frontend).port_list
        = l1 ++ 11 :: l2 ∧
      (ex_full_minus_11.world.frontends (ex_full_world.ports 11).frontend).port_list
        = l1 ++ l2) ∧
    (∀ fe : Nat, fe ≠ (ex_full_world.ports 11).frontend →
      (ex_full_minus_11.world.frontends fe).port_list
        = (ex_full_world.frontends fe).port_list) ∧
    ex_full_minus_11.world.control_softc.fe_list = ex_full_world.control_softc.fe_list ∧
    ex_full_minus_11.world.control_softc.num_frontends
      = ex_full_world.control_softc.num_frontends :=
  C28_deregister_frame ex_consts ex_full_world 11 ex_full_minus_11 ex_full_world_numbered
    (ctl_port_deregister_ok ex_consts ex_full_world 11 (by decide!) (by decide!) (by decide!))
    rfl

/-! ## Identifier ranges -/

/-- Ports with different raw numbers have different identifiers: in a registry
in which the linked ports are numbered, two different ports on the global port
list have different targ_port values. -/
theorem ports_numbered_targ_port_ne (c : ctl_consts) (w : World) (h : ports_numbered c w)
    (p q : Nat) (hp : p ∈ w.control_softc.port_list) (hq : q ∈ w.control_softc.port_list)
    (hpq : p ≠ q) : (w.ports p).targ_port ≠ (w.ports q).targ_port := by
  intro heq
  have hraw : raw_port_num c w p = raw_port_num c w q := by
    unfold raw_port_num
    rw [heq]
  have gp := (h.2.1 p hp).2.2.1
  have gq := (h.2.1 q hq).2.2.1
  rw [hraw, gq] at gp
  exact hpq (Option.some.inj gp).symm

/-- The linked ports are numbered after every sequence of port calls, started
on an empty registry, in which no linked port is registered again. -/
theorem run_ports_numbered (c : ctl_consts) (cb : Callbacks) (w0 w : World) (ops : List Op)
    (hempty : registry_empty w0)
    (hrun : run c cb port_call_unlinked w0 ops = some w) : ports_numbered c w := by
  refine run_invariant c cb port_call_unlinked (ports_numbered c) ?_ ops w0 w
    (ports_numbered_of_empty c w0 hempty) hrun
  intro v op r hP hallowed hs
  cases op with
  | frontend_register fe => simp [port_call_unlinked] at hallowed
  | frontend_deregister fe => simp [port_call_unlinked] at hallowed
  | port_register pool_create port master_shelf =>
    simp only [step, Option.some.injEq] at hs
    subst hs
    have hnot : port ∉ v.control_softc.port_list := by
      simpa [port_call_unlinked] using hallowed
    exact ctl_port_register_numbered c pool_create v port master_shelf hnot hP
  | port_deregister port =>
    simp only [step] at hs
    exact ctl_port_deregister_numbered c v port r hs hP

/-- C29, counterexample: in the empty example registry the port at address 5
is registered twice, deregistered once, and then the port at address 6 is
registered; all four calls return 0.  The second registration gave port 5 the
number 1, the deregistration freed the number 1 and left port 5 on the global
port list, and the last registration gave the number 1 to port 6: both ports
are on the global port list with targ_port 1. -/
theorem C29_same_targ_port_counterexample :
    registry_empty ex_world ∧
    (ctl_port_register ex_consts pool_ok ex_world 5 1).retval = 0 ∧
    (ctl_port_register ex_consts pool_ok
      (ctl_port_register ex_consts pool_ok ex_world 5 1).world 5 1).retval = 0 ∧
    ctl_port_deregister ex_consts ex_world_twice 5
      = some { retval := 0
               world := deregistered_world ex_consts ex_world_twice 5
               trace := [Event.mtx_lock, Event.mtx_unlock,
                         Event.ctl_pool_free (ex_world_twice.ports 5).ctl_pool_ref,
                         Event.ctl_free_opts 5] } ∧
    (ctl_port_register ex_consts pool_ok
      (deregistered_world ex_consts ex_world_twice 5) 6 1).retval = 0 ∧
    ∃ w : World, run ex_consts ex_callbacks port_call ex_world ex_relinked_port_ops = some w ∧
      w = (ctl_port_register ex_consts pool_ok
            (deregistered_world ex_consts ex_world_twice 5) 6 1).world ∧
      w.control_softc.port_list = [5, 6] ∧
      (w.ports 5).targ_port = 1 ∧
      (w.ports 6).targ_port = 1 :=
  ⟨ex_world_empty, by decide, by decide!,
   ctl_port_deregister_ok ex_consts ex_world_twice 5 (by decide!) (by decide!) (by decide!),
   by decide!, _, rfl, rfl, by decide!, by decide!, by decide!⟩

/-- C29, amended: the targ_port that a ctl_port_register returning 0 assigns
lies in [0, CTL_MAX_PORTS) when master_shelf is non-zero and in
[CTL_MAX_PORTS, 2*CTL_MAX_PORTS) when master_shelf is zero, and the decoding
of ctl_port_deregister gives back the reserved raw number on both shelves
(the port sits in the table slot of the decoded number).  After every
sequence of ctl_port_register and ctl_port_deregister calls from the empty
registry in which ctl_port_register is only called for a port that is not on
the global port list, two different ports on the global port list have
different targ_port values. -/
theorem C29_identifier_ranges :
    (∀ (c : ctl_consts) (pool_create : Int → Int × Nat) (w : World) (port : Nat)
      (master_shelf : Int),
      (ctl_port_register c pool_create w port master_shelf).retval = 0 →
      (master_shelf ≠ 0 →
        0 ≤ ((ctl_port_register c pool_create w port master_shelf).world.ports port).targ_port ∧
        ((ctl_port_register c pool_create w port master_shelf).world.ports port).targ_port
          < (c.CTL_MAX_PORTS : Int)) ∧
      (master_shelf = 0 →
        (c.CTL_MAX_PORTS : Int)
          ≤ ((ctl_port_register c pool_create w port master_shelf).world.ports port).targ_port ∧
        ((ctl_port_register c pool_create w port master_shelf).world.ports port).targ_port
          < 2 * (c.CTL_MAX_PORTS : Int)) ∧
      decode_targ_port c
          ((ctl_port_register c pool_create w port master_shelf).world.ports port).targ_port
        = ctl_ffz w.control_softc.ctl_port_mask c.CTL_MAX_PORTS ∧
      (ctl_port_register c pool_create w port master_shelf).world.control_softc.ctl_ports
          (decode_targ_port c
            ((ctl_port_register c pool_create w port master_shelf).world.ports port).targ_port)
        = some port) ∧
    (∀ (c : ctl_consts) (cb : Callbacks) (w0 w : World) (ops : List Op),
      registry_empty w0 → run c cb port_call_unlinked w0 ops = some w →
      ∀ p ∈ w.control_softc.port_list, ∀ q ∈ w.control_softc.port_list, p ≠ q →
        (w.ports p).targ_port ≠ (w.ports q).targ_port) := by
  refine ⟨?_, ?_⟩
  · intro c pool_create w port master_shelf hok
    obtain ⟨m, hm1, hm2, hm3, _, hpool⟩ :=
      ctl_port_register_retval_zero c pool_create w port master_shelf hok
    rw [ctl_port_register_ok c pool_create w port master_shelf m hm2 hm3 hpool]
    have htarg : ((registered_world c w port master_shelf (m : Int)
        (pool_create ((w.ports port).num_requested_ctl_io + 20)).2).ports port).targ_port
        = (m : Int) + (if master_shelf ≠ 0 then 0 else (c.CTL_MAX_PORTS : Int)) := by
      simp [registered_world]
    have hdec := decode_targ_port_encode c master_shelf m hm1
    rw [htarg, hdec, hm2]
    refine ⟨?_, ?_, rfl, by simp [registered_world]⟩
    · intro hms
      rw [if_pos hms]
      omega
    · intro hms
      have : ¬ master_shelf ≠ 0 := fun h => h hms
      rw [if_neg this]
      omega
  · intro c cb w0 w ops hempty hrun p hp q hq hpq
    exact ports_numbered_targ_port_ne c w (run_ports_numbered c cb w0 w ops hempty hrun)
      p q hp hq hpq

/-- Witness of the amended C29 in the example system: a registration on the
secondary shelf, and the sequence of port calls that registers the ports 10,
11 and 12, deregisters 11 and registers 13. -/
theorem C29_identifier_ranges_witness :
    (((0 : Int) ≠ 0 →
        0 ≤ ((ctl_port_register ex_consts pool_ok ex_world_one 6 0).world.ports 6).targ_port ∧
        ((ctl_port_register ex_consts pool_ok ex_world_one 6 0).world.ports 6).targ_port
          < (ex_consts.CTL_MAX_PORTS : Int)) ∧
      ((0 : Int) = 0 →
        (ex_consts.CTL_MAX_PORTS : Int)
          ≤ ((ctl_port_register ex_consts pool_ok ex_world_one 6 0).world.ports 6).targ_port ∧
        ((ctl_port_register ex_consts pool_ok ex_world_one 6 0).world.ports 6).targ_port
          < 2 * (ex_consts.CTL_MAX_PORTS : Int)) ∧
      decode_targ_port ex_consts
          ((ctl_port_register ex_consts pool_ok ex_world_one 6 0).world.ports 6).targ_port
        = ctl_ffz ex_world_one.control_softc.ctl_port_mask ex_consts.CTL_MAX_PORTS ∧
      (ctl_port_register ex_consts pool_ok ex_world_one 6 0).world.control_softc.ctl_ports
          (decode_targ_port ex_consts
            ((ctl_port_register ex_consts pool_ok ex_world_one 6 0).world.ports 6).targ_port)
        = some 6) ∧
    (registry_empty ex_world ∧
      run ex_consts ex_callbacks port_call_unlinked ex_world ex_unlinked_port_ops
        = some ex_after_unlinked_port_ops ∧
      ∀ p ∈ ex_after_unlinked_port_ops.control_softc.port_list,
        ∀ q ∈ ex_after_unlinked_port_ops.control_softc.port_list, p ≠ q →
          (ex_after_unlinked_port_ops.ports p).targ_port
            ≠ (ex_after_unlinked_port_ops.ports q).targ_port) :=
  ⟨C29_identifier_ranges.1 ex_consts pool_ok ex_world_one 6 0 (by decide),
   ex_world_empty, rfl,
   C29_identifier_ranges.2 ex_consts ex_callbacks ex_world ex_after_unlinked_port_ops
     ex_unlinked_port_ops ex_world_empty rfl⟩

/-! ## Frame of the status flag update -/

/-- Setting a flag changes no bit outside the flag. -/
theorem status_set_testBit (status flag i : Nat) (h : flag.testBit i = false) :
    (status_set status flag).testBit i = status.testBit i := by
  simp [status_set, Nat.testBit_or, h]

/-- Clearing a flag changes no bit outside the flag. -/
theorem status_clear_testBit (status flag i : Nat) (h : flag.testBit i = false) :
    (status_clear status flag).testBit i = status.testBit i := by
  simp [status_clear, Nat.testBit_ldiff, h]

/-- Setting a flag twice is setting it once. -/
theorem status_set_idem (status flag : Nat) :
    status_set (status_set status flag) flag = status_set status flag := by
  apply Nat.eq_of_testBit_eq
  intro i
  simp only [status_set, Nat.testBit_or]
  cases status.testBit i <;> cases flag.testBit i <;> rfl

/-- Clearing a flag twice is clearing it once. -/
theorem status_clear_idem (status flag : Nat) :
    status_clear (status_clear status flag) flag = status_clear status flag := by
  apply Nat.eq_of_testBit_eq
  intro i
  simp only [status_clear, Nat.testBit_ldiff]
  cases status.testBit i <;> cases flag.testBit i <;> rfl

/-- C30: the flag update of ctl_port_online and of ctl_port_offline, made on
the memory the port's routine left, changes the status word of the port only,
and in it only bits of CTL_PORT_STATUS_ONLINE: the registry record, the
frontends, the other ports and the other fields of the port are as the routine
left them, and so is every status bit outside the flag.  The update is
idempotent on the status word; with routines that leave the status of the port
alone, the status after two calls of ctl_port_online (ctl_port_offline) is the
status after one. -/
theorem C30_flag_update_frame :
    (∀ (c : ctl_consts) (cb : Callbacks) (w : World) (port : Nat),
      (ctl_port_online c cb w port).1.control_softc
        = (after_port_online_routine cb w port).control_softc ∧
      (ctl_port_online c cb w port).1.frontends
        = (after_port_online_routine cb w port).frontends ∧
      (∀ q : Nat, q ≠ port →
        (ctl_port_online c cb w port).1.ports q
          = (after_port_online_routine cb w port).ports q) ∧
      (ctl_port_online c cb w port).1.ports port
        = { (after_port_online_routine cb w port).ports port with
            status := ((after_port_online_routine cb w port).ports port).status
              ||| c.CTL_PORT_STATUS_ONLINE } ∧
      (∀ i : Nat, c.CTL_PORT_STATUS_ONLINE.testBit i = false →
        ((ctl_port_online c cb w port).1.ports port).status.testBit i
          = ((after_port_online_routine cb w port).ports port).status.testBit i)) ∧
    (∀ (c : ctl_consts) (cb : Callbacks) (w : World) (port : Nat),
      (ctl_port_offline c cb w port).1.control_softc
        = (after_port_offline_routine cb w port).control_softc ∧
      (ctl_port_offline c cb w port).1.frontends
        = (after_port_offline_routine cb w port).frontends ∧
      (∀ q : Nat, q ≠ port →
        (ctl_port_offline c cb w port).1.ports q
          = (after_port_offline_routine cb w port).ports q) ∧
      (ctl_port_offline c cb w port).1.ports port
        = { (after_port_offline_routine cb w port).ports port with
            status := Nat.ldiff ((after_port_offline_routine cb w port).ports port).status
              c.CTL_PORT_STATUS_ONLINE } ∧
      (∀ i : Nat, c.CTL_PORT_STATUS_ONLINE.testBit i = false →
        ((ctl_port_offline c cb w port).1.ports port).status.testBit i
          = ((after_port_offline_routine cb w port).ports port).status.testBit i)) ∧
    (∀ status flag : Nat,
      status_set (status_set status flag) flag = status_set status flag ∧
      status_clear (status_clear status flag) flag = status_clear status flag) ∧
    (∀ (c : ctl_consts) (cb : Callbacks) (w : World) (port : Nat),
      (∀ (fn arg : Nat) (v : World),
        ((cb.call1 fn arg v).ports port).status = (v.ports port).status) →
      ((ctl_port_online c cb (ctl_port_online c cb w port).1 port).1.ports port).status
        = ((ctl_port_online c cb w port).1.ports port).status ∧
      ((ctl_port_offline c cb (ctl_port_offline c cb w port).1 port).1.ports port).status
        = ((ctl_port_offline c cb w port).1.ports port).status) := by
  refine ⟨?_, ?_, ?_, ?_⟩
  · intro c cb w port
    refine ⟨rfl, rfl, ?_, ?_, ?_⟩
    · intro q hq
      simp [ctl_port_online, after_port_online_routine, World.upd_port, Function.update, hq]
    · simp [ctl_port_online, after_port_online_routine, World.upd_port]
    · intro i hi
      rw [ctl_port_online_status]
      exact status_set_testBit _ _ i hi
  · intro c cb w port
    refine ⟨rfl, rfl, ?_, ?_, ?_⟩
    · intro q hq
      simp [ctl_port_offline, after_port_offline_routine, World.upd_port, Function.update, hq]
    · simp [ctl_port_offline, after_port_offline_routine, World.upd_port]
    · intro i hi
      rw [ctl_port_offline_status]
      exact status_clear_testBit _ _ i hi
  · intro status flag
    exact ⟨status_set_idem status flag, status_clear_idem status flag⟩
  · intro c cb w port hcb
    constructor
    · rw [ctl_port_online_status, hcb, ctl_port_online_status, hcb]
      exact status_set_idem _ _
    · rw [ctl_port_offline_status, hcb, ctl_port_offline_status, hcb]
      exact status_clear_idem _ _

/-- Witness of C30: the port at address 5 of the example system with the
status word 6. -/
theorem C30_flag_update_frame_witness :
    (∀ i : Nat, ex_consts.CTL_PORT_STATUS_ONLINE.testBit i = false →
      ((ctl_port_online ex_consts ex_callbacks ex_world_status 5).1.ports 5).status.testBit i
        = ((after_port_online_routine ex_callbacks ex_world_status 5).ports
            5).status.testBit i) ∧
    (∀ i : Nat, ex_consts.CTL_PORT_STATUS_ONLINE.testBit i = false →
      ((ctl_port_offline ex_consts ex_callbacks ex_world_status 5).1.ports 5).status.testBit i
        = ((after_port_offline_routine ex_callbacks ex_world_status 5).ports
            5).status.testBit i) ∧
    (((ctl_port_online ex_consts ex_callbacks
        (ctl_port_online ex_consts ex_callbacks ex_world_status 5).1 5).1.ports 5).status
        = ((ctl_port_online ex_consts ex_callbacks ex_world_status 5).1.ports 5).status ∧
      ((ctl_port_offline ex_consts ex_callbacks
        (ctl_port_offline ex_consts ex_callbacks ex_world_status 5).1 5).1.ports 5).status
        = ((ctl_port_offline ex_consts ex_callbacks ex_world_status 5).1.ports 5).status) :=
  ⟨(C30_flag_update_frame.1 ex_consts ex_callbacks ex_world_status 5).2.2.2.2,
   (C30_flag_update_frame.2.1 ex_consts ex_callbacks ex_world_status 5).2.2.2.2,
   C30_flag_update_frame.2.2.2 ex_consts ex_callbacks ex_world_status 5 (fun _ _ _ => rfl)⟩

/-! ## World wide names -/

/-- C31: ctl_port_set_wwns stores the given wwnn in the port when wwnn_valid is
non-zero and leaves the port's wwnn as it was when wwnn_valid is zero; it
stores the given wwpn when wwpn_valid is non-zero and leaves the port's wwpn
as it was when wwpn_valid is zero; either flag decides for its own name only.
The port record is the old one except for these two fields, and the other
ports, the frontends and the registry record are unchanged. -/
theorem C31_set_wwns (w : World) (port : Nat) (wwnn_valid : Int) (wwnn : Nat)
    (wwpn_valid : Int) (wwpn : Nat) :
    (wwnn_valid ≠ 0 →
      ((ctl_port_set_wwns w port wwnn_valid wwnn wwpn_valid wwpn).ports port).wwnn = wwnn) ∧
    (wwnn_valid = 0 →
      ((ctl_port_set_wwns w port wwnn_valid wwnn wwpn_valid wwpn).ports port).wwnn
        = (w.ports port).wwnn) ∧
    (wwpn_valid ≠ 0 →
      ((ctl_port_set_wwns w port wwnn_valid wwnn wwpn_valid wwpn).ports port).wwpn = wwpn) ∧
    (wwpn_valid = 0 →
      ((ctl_port_set_wwns w port wwnn_valid wwnn wwpn_valid wwpn).ports port).wwpn
        = (w.ports port).wwpn) ∧
    (ctl_port_set_wwns w port wwnn_valid wwnn wwpn_valid wwpn).ports port
      = { w.ports port with
          wwnn := if wwnn_valid ≠ 0 then wwnn else (w.ports port).wwnn
          wwpn := if wwpn_valid ≠ 0 then wwpn else (w.ports port).wwpn } ∧
    (∀ q : Nat, q ≠ port →
      (ctl_port_set_wwns w port wwnn_valid wwnn wwpn_valid wwpn).ports q = w.ports q) ∧
    (ctl_port_set_wwns w port wwnn_valid wwnn wwpn_valid wwpn).frontends = w.frontends ∧
    (ctl_port_set_wwns w port wwnn_valid wwnn wwpn_valid wwpn).control_softc
      = w.control_softc := by
  by_cases hn : wwnn_valid = 0 <;> by_cases hp : wwpn_valid = 0
  · refine ⟨fun h => absurd hn h, ?_, fun h => absurd hp h, ?_, ?_, ?_, ?_, ?_⟩ <;>
      simp [ctl_port_set_wwns, hn, hp]
  · refine ⟨fun h => absurd hn h, ?_, ?_, fun h => absurd h hp, ?_, ?_, ?_, ?_⟩
    · intro _
      simp [ctl_port_set_wwns, hn, hp, World.upd_port]
    · intro _
      simp [ctl_port_set_wwns, hn, hp, World.upd_port]
    · simp [ctl_port_set_wwns, hn, hp, World.upd_port]
    · intro q hq
      simp [ctl_port_set_wwns, hn, hp, World.upd_port, Function.update, hq]
    · simp [ctl_port_set_wwns, hn, hp, World.upd_port]
    · simp [ctl_port_set_wwns, hn, hp, World.upd_port]
  · refine ⟨?_, fun h => absurd h hn, fun h => absurd hp h, ?_, ?_, ?_, ?_, ?_⟩
    · intro _
      simp [ctl_port_set_wwns, hn, hp, World.upd_port]
    · intro _
      simp [ctl_port_set_wwns, hn, hp, World.upd_port]
    · simp [ctl_port_set_wwns, hn, hp, World.upd_port]
    · intro q hq
      simp [ctl_port_set_wwns, hn, hp, World.upd_port, Function.update, hq]
    · simp [ctl_port_set_wwns, hn, hp, World.upd_port]
    · simp [ctl_port_set_wwns, hn, hp, World.upd_port]
  · refine ⟨?_, fun h => absurd h hn, ?_, fun h => absurd h hp, ?_, ?_, ?_, ?_⟩
    · intro _
      simp [ctl_port_set_wwns, hn, hp, World.upd_port]
    · intro _
      simp [ctl_port_set_wwns, hn, hp, World.upd_port]
    · simp [ctl_port_set_wwns, hn, hp, World.upd_port]
    · intro q hq
      simp [ctl_port_set_wwns, hn, hp, World.upd_port, Function.update, hq]
    · simp [ctl_port_set_wwns, hn, hp, World.upd_port]
    · simp [ctl_port_set_wwns, hn, hp, World.upd_port]

/-- Witness of C31: in the example system the port at address 5 is given a
node name while the port name is flagged as not valid. -/
theorem C31_set_wwns_witness :
    ((1 : Int) ≠ 0 →
      ((ctl_port_set_wwns ex_world 5 1 4096 0 8192).ports 5).wwnn = 4096) ∧
    ((1 : Int) = 0 →
      ((ctl_port_set_wwns ex_world 5 1 4096 0 8192).ports 5).wwnn = (ex_world.ports 5).wwnn) ∧
    ((0 : Int) ≠ 0 →
      ((ctl_port_set_wwns ex_world 5 1 4096 0 8192).ports 5).wwpn = 8192) ∧
    ((0 : Int) = 0 →
      ((ctl_port_set_wwns ex_world 5 1 4096 0 8192).ports 5).wwpn = (ex_world.ports 5).wwpn) ∧
    (ctl_port_set_wwns ex_world 5 1 4096 0 8192).ports 5
      = { ex_world.ports 5 with
          wwnn := if (1 : Int) ≠ 0 then 4096 else (ex_world.ports 5).wwnn
          wwpn := if (0 : Int) ≠ 0 then 8192 else (ex_world.ports 5).wwpn } ∧
    (∀ q : Nat, q ≠ 5 →
      (ctl_port_set_wwns ex_world 5 1 4096 0 8192).ports q = ex_world.ports q) ∧
    (ctl_port_set_wwns ex_world 5 1 4096 0 8192).frontends = ex_world.frontends ∧
    (ctl_port_set_wwns ex_world 5 1 4096 0 8192).control_softc = ex_world.control_softc :=
  C31_set_wwns ex_world 5 1 4096 0 8192

end Ctl
